import Mathlib

/-!
# Rocket-Neural: the simulation engine of `script.js`

A shallow embedding of the simulation core of `script.js` (physics tick,
sensor encoding, actuator decoding, fitness, collision, generation loop),
followed by the properties established about it.

Modelling conventions.

* JavaScript numbers are idealised as elements of a linearly ordered field `α`
  (the theorems that need `sin`, `cos`, `exp`, `sqrt` are stated over `ℝ`, the
  purely structural ones over every such field, so they can be run over `ℚ`).
  Rounding is not modelled.  The only place where non-finite or missing values
  are modelled is the output array of a policy (`JsNum`, `gtHalf`), because the
  code reads that array only through the comparisons `outputs[i] > 0.5`.
* `Math.sin`, `Math.cos`, `Math.exp`, `Math.sqrt`, `Math.atan2`, `Math.PI` are
  parameters (`MathFns`), instantiated by the real functions in the theorems.
* The neataptic library (`neat.sort`, `neat.getOffspring`, `neat.mutate`) and
  `Math.random` are not part of `script.js`; they are parameters (`External`)
  acting on an abstract hidden state `σ`.
* `rocket.brain` is the very object `neat.population[i]`; the embedding keeps a
  copy of the genome in the rocket, and the scores written through
  `rocket.brain.score` are handed back to the evolver in `evolve`.
* An uncaught `TypeError` (reading a property of `undefined`) stops the
  animation loop; functions that can raise it return `Option`, `none` being the
  uncaught error.
* Rendering (`draw` and its helpers) only reads the state and is left out.
-/

namespace RocketNeural

/-! ## Data model -/

/-- One slot of the array returned by `brain.activate`: a finite number, `NaN`,
`Infinity` or `-Infinity`. -/
inductive JsNum (α : Type) where
  | num (v : α)
  | nan
  | posInf
  | negInf

/-- The functions of the JavaScript `Math` object used by the simulation. -/
structure MathFns (α : Type) where
  sin : α → α
  cos : α → α
  exp : α → α
  sqrt : α → α
  atan2 : α → α → α
  pi : α

/-- A genome of `neat.population`, seen through the two members the simulation
uses: `activate(inputs)` and the field `score` (`none` while it is still
`undefined`). -/
structure Genome (α : Type) where
  activate : List α → List (JsNum α)
  score : Option α

/-- The object literal built by `createRockets`.  `brain` is `none` when the
population slot it was built from is `undefined`. -/
structure Rocket (α : Type) where
  x : α
  y : α
  speedX : α
  speedY : α
  angle : α
  fireAngle : α
  width : α
  height : α
  fitness : α
  brain : Option (Genome α)
  thrusting : Bool
  active : Bool
  lifetime : Nat

/-- The object literal built by `createCollectionTarget`. -/
structure Target (α : Type) where
  x : α
  y : α
  width : α
  height : α

/-- The fields of the `neat` object read by `script.js`. -/
structure Neat (α : Type) where
  population : List (Option (Genome α))
  popsize : Nat
  elitism : Nat

/-- The global variables of `script.js` that the simulation reads or writes,
together with the hidden state `env` of the external collaborators. -/
structure GameState (α σ : Type) where
  rockets : List (Rocket α)
  neat : Neat α
  generation : Nat
  collectionTarget : Target α
  currentFrame : Nat
  bestFitness : α
  env : σ

/-- The external collaborators: `neat.sort()`, `neat.getOffspring()`,
`neat.mutate()` of neataptic and `Math.random()`.  `sort` reorders the
population, `getOffspring` reads the population and returns a new genome,
`mutate` rewrites the population, `random` returns a draw; the last three also
advance the hidden state. -/
structure External (α σ : Type) where
  sort : List (Option (Genome α)) → List (Option (Genome α))
  getOffspring : List (Option (Genome α)) → σ → Genome α × σ
  mutate : List (Option (Genome α)) → σ → List (Option (Genome α)) × σ
  random : σ → α × σ

section Engine

variable {α : Type} [LinearOrderedField α]

/-! ## Constants -/

/-- Source: `const CANVAS_WIDTH = 1920`. -/
def CANVAS_WIDTH : α := 1920

/-- Source: `const CANVAS_HEIGHT = 1080`. -/
def CANVAS_HEIGHT : α := 1080

/-- Source: `const DRAG = 0.99`. -/
def DRAG : α := 99 / 100

/-- Source: `const GRAVITY = 0.4`. -/
def GRAVITY : α := 4 / 10

/-- Source: `const THRUST = 0.45`. -/
def THRUST : α := 45 / 100

/-- Source: `const TARGET_ROTATION_SPEED = Math.PI / 180 * 2`. -/
def TARGET_ROTATION_SPEED (pi : α) : α := pi / 180 * 2

/-- Source: `const ROTATION_ACCELERATION = Math.PI / 180 * 0.1` (declared, never
read by any function). -/
def ROTATION_ACCELERATION (pi : α) : α := pi / 180 * (1 / 10)

/-- Source: `const MAX_FIRE_ANGLE = Math.PI / 6`. -/
def MAX_FIRE_ANGLE (pi : α) : α := pi / 6

/-- Source: `const POPULATION_SIZE = 500`. -/
def POPULATION_SIZE : Nat := 500

/-- Source: `const CENTER_MARGIN = 0.4`. -/
def CENTER_MARGIN : α := 4 / 10

/-- Source: `const LIFESPAN = 500`. -/
def LIFESPAN : Nat := 500

/-! ## Policy outputs -/

/-- The test `outputs[i] > 0.5` on an array slot; `none` is the `undefined`
read past the end of the array.  Comparisons with `undefined` and `NaN` are
false, `Infinity > 0.5` is true. -/
def gtHalf : Option (JsNum α) → Bool
  | some (JsNum.num v) => decide (v > 1 / 2)
  | some JsNum.posInf => true
  | _ => false

/-- Modelled from the spec: the comparison `o[i] <= 0.5` in which the rotation
rule is worded (`script.js` itself only tests `> 0.5`), on an array slot: false
for `undefined`, `NaN` and `Infinity`, true for `-Infinity`. -/
def leHalf : Option (JsNum α) → Bool
  | some (JsNum.num v) => decide (v ≤ 1 / 2)
  | some JsNum.negInf => true
  | _ => false

/-! ## Operations of `script.js` -/

/-- Source: `allRocketsInactive`. -/
def allRocketsInactive (rockets : List (Rocket α)) : Bool :=
  rockets.all (fun rocket => !rocket.active)

/-- Source: `createRockets`, as a function of `neat.population`. -/
def createRockets (population : List (Option (Genome α))) : List (Rocket α) :=
  population.map (fun genome =>
    { x := CANVAS_WIDTH / 2
      y := CANVAS_HEIGHT - 300
      speedX := 0
      speedY := 0
      angle := 0
      fireAngle := 0
      width := 450
      height := 280
      fitness := 0
      brain := genome
      thrusting := false
      active := true
      lifetime := 0 })

/-- Source: `calculateFitness`.  `Math.pow(v, 2)` is `v ^ 2`. -/
def calculateFitness (sqrt exp : α → α) (collectionTarget : Target α)
    (rocket : Rocket α) : α :=
  let rocketCenterX := rocket.x + rocket.width / 2
  let rocketCenterY := rocket.y + rocket.height / 2
  let collectCenterX := collectionTarget.x + collectionTarget.width / 2
  let collectCenterY := collectionTarget.y + collectionTarget.height / 2
  let distToColeta := sqrt
    ((collectCenterX - rocketCenterX) ^ 2 + (collectCenterY - rocketCenterY) ^ 2)
  let distanceFitness := max 0 (1000 * exp (-distToColeta / 100))
  let lifetimeFitness := (rocket.lifetime : α) * (1 / 10)
  let totalFitness := distanceFitness + lifetimeFitness
  totalFitness

/-- Source: `checkCollision`. -/
def checkCollision (sqrt : α → α) (rocket : Rocket α) (target : Target α) : Bool :=
  let rocketCenterX := rocket.x + rocket.width / 2
  let rocketCenterY := rocket.y + rocket.height / 2
  let targetCenterX := target.x + target.width / 2
  let targetCenterY := target.y + target.height / 2
  let distance := sqrt
    ((targetCenterX - rocketCenterX) ^ 2 + (targetCenterY - rocketCenterY) ^ 2)
  let collisionThreshold := (rocket.width + target.width) / 4
  decide (distance < collisionThreshold)

/-- The JavaScript remainder `a % b` on numbers: `a - b * trunc(a / b)`, which
keeps the sign of `a`. -/
def jsRem [FloorRing α] (a b : α) : α :=
  let q := a / b
  a - b * ((if 0 ≤ q then Int.floor q else Int.ceil q : Int) : α)

/-- Source: `calculateNeuralInputs`. -/
def calculateNeuralInputs [FloorRing α] (M : MathFns α) (collectionTarget : Target α)
    (rocket : Rocket α) : List α :=
  let rocketCenterX := rocket.x + rocket.width / 2
  let rocketCenterY := rocket.y + rocket.height / 2
  let targetCenterX := collectionTarget.x + collectionTarget.width / 2
  let targetCenterY := collectionTarget.y + collectionTarget.height / 2
  let distanceX := (targetCenterX - rocketCenterX) / CANVAS_WIDTH
  let distanceY := (targetCenterY - rocketCenterY) / CANVAS_HEIGHT
  let velocityX := rocket.speedX / 10
  let velocityY := rocket.speedY / 10
  let angleToTarget := M.atan2 (targetCenterY - rocketCenterY) (targetCenterX - rocketCenterX)
  let normalizedAngleToTarget := angleToTarget / (2 * M.pi)
  let normalizedRocketAngle := jsRem rocket.angle (2 * M.pi) / (2 * M.pi)
  let angleDifference := normalizedAngleToTarget - normalizedRocketAngle
  let distanceToLeftWall := rocket.x / CANVAS_WIDTH
  let distanceToRightWall := (CANVAS_WIDTH - (rocket.x + rocket.width)) / CANVAS_WIDTH
  let distanceToTopWall := rocket.y / CANVAS_HEIGHT
  let distanceToBottomWall := (CANVAS_HEIGHT - (rocket.y + rocket.height)) / CANVAS_HEIGHT
  [distanceX, distanceY, velocityX, velocityY, normalizedAngleToTarget,
   normalizedRocketAngle, angleDifference, distanceToLeftWall, distanceToRightWall,
   distanceToTopWall, distanceToBottomWall]

/-- Source: `applyNetworkOutputs`.  `outputs[i]` is `outputs[i]?`. -/
def applyNetworkOutputs (M : MathFns α) (rocket : Rocket α)
    (outputs : List (JsNum α)) : Rocket α :=
  let rocket := { rocket with thrusting := gtHalf outputs[0]? }
  let rocket :=
    if rocket.thrusting then
      let rocket := { rocket with speedX := rocket.speedX + THRUST * M.sin rocket.angle }
      { rocket with speedY := rocket.speedY - THRUST * M.cos rocket.angle }
    else rocket
  if gtHalf outputs[1]? then
    let rocket := { rocket with angle := rocket.angle - TARGET_ROTATION_SPEED M.pi }
    { rocket with fireAngle := min (rocket.fireAngle + 1 / 10) (MAX_FIRE_ANGLE M.pi) }
  else if gtHalf outputs[2]? then
    let rocket := { rocket with angle := rocket.angle + TARGET_ROTATION_SPEED M.pi }
    { rocket with fireAngle := max (rocket.fireAngle - 1 / 10) (-MAX_FIRE_ANGLE M.pi) }
  else
    { rocket with fireAngle := rocket.fireAngle + (0 - rocket.fireAngle) * (1 / 10) }

/-- Source: `updatePosition`. -/
def updatePosition (rocket : Rocket α) : Rocket α :=
  let rocket := { rocket with speedX := rocket.speedX * DRAG }
  let rocket := { rocket with speedY := rocket.speedY + GRAVITY }
  let rocket := { rocket with x := rocket.x + rocket.speedX }
  { rocket with y := rocket.y + rocket.speedY }

/-- Source: `keepRocketInBounds`. -/
def keepRocketInBounds (rocket : Rocket α) : Rocket α :=
  if rocket.x < 0 ∨ rocket.x > CANVAS_WIDTH - rocket.width ∨
      rocket.y < 0 ∨ rocket.y > CANVAS_HEIGHT - rocket.height then
    let rocket := { rocket with active := false }
    let rocket := { rocket with x := max 0 (min rocket.x (CANVAS_WIDTH - rocket.width)) }
    let rocket := { rocket with y := max 0 (min rocket.y (CANVAS_HEIGHT - rocket.height)) }
    let rocket := { rocket with speedX := 0 }
    { rocket with speedY := 0 }
  else rocket

/-- Source: `createCollectionTarget`; `r1` and `r2` are the two `Math.random()`
draws, in the order they are made. -/
def createCollectionTarget (r1 r2 : α) : Target α :=
  let minX := CANVAS_WIDTH * CENTER_MARGIN
  let maxX := CANVAS_WIDTH * (1 - CENTER_MARGIN)
  let minY := CANVAS_HEIGHT * CENTER_MARGIN
  let maxY := CANVAS_HEIGHT * (1 - CENTER_MARGIN)
  { x := minX + r1 * (maxX - minX - 100)
    y := minY + r2 * (maxY - minY - 100)
    width := 100
    height := 100 }

/-- The callback of the `forEach` in `updateRockets`, applied to one rocket with
the current value of the global `bestFitness`; returns the rocket and
`bestFitness` after the callback, or `none` when `rocket.brain` is `undefined`
(`rocket.brain.activate` raises a `TypeError`). -/
def updateRocket [FloorRing α] (M : MathFns α) (collectionTarget : Target α)
    (rocket : Rocket α) (bestFitness : α) : Option (Rocket α × α) :=
  if !rocket.active then some (rocket, bestFitness)
  else
    let rocket := { rocket with lifetime := rocket.lifetime + 1 }
    let inputs := calculateNeuralInputs M collectionTarget rocket
    match rocket.brain with
    | none => none
    | some brain =>
      let outputs := brain.activate inputs
      let rocket := applyNetworkOutputs M rocket outputs
      let rocket := updatePosition rocket
      let rocket := keepRocketInBounds rocket
      let rocket := { rocket with fitness := calculateFitness M.sqrt M.exp collectionTarget rocket }
      let rocket := { rocket with brain := some { brain with score := some rocket.fitness } }
      let bestFitness := max bestFitness rocket.fitness
      let rocket :=
        if checkCollision M.sqrt rocket collectionTarget then { rocket with active := false }
        else rocket
      some (rocket, bestFitness)

/-- The `forEach` of `updateRockets` over a list of rockets, threading the
global `bestFitness`. -/
def updateRocketsLoop [FloorRing α] (M : MathFns α) (collectionTarget : Target α) :
    List (Rocket α) → α → Option (List (Rocket α) × α)
  | [], bestFitness => some ([], bestFitness)
  | rocket :: rest, bestFitness =>
    match updateRocket M collectionTarget rocket bestFitness with
    | none => none
    | some (rocket', bestFitness') =>
      match updateRocketsLoop M collectionTarget rest bestFitness' with
      | none => none
      | some (rest', bestFitness'') => some (rocket' :: rest', bestFitness'')

/-- Source: `updateRockets`. -/
def updateRockets [FloorRing α] {σ : Type} (M : MathFns α) (s : GameState α σ) :
    Option (GameState α σ) :=
  match updateRocketsLoop M s.collectionTarget s.rockets s.bestFitness with
  | none => none
  | some (rockets, bestFitness) =>
    some { s with rockets := rockets, bestFitness := bestFitness }

/-- The elitism loop of `evolve`: `neat.population[i]` for `i < neat.elitism`,
an index past the end yielding `undefined`. -/
def elitismLoop (population : List (Option (Genome α))) (elitism : Nat) :
    List (Option (Genome α)) :=
  (List.range elitism).map (fun i => (population[i]?).join)

/-- The breeding loop of `evolve`: `count` calls of `neat.getOffspring()`, each
result pushed onto `newPopulation`. -/
def breedLoop {σ : Type} (E : External α σ) (population : List (Option (Genome α))) :
    Nat → List (Option (Genome α)) → σ → List (Option (Genome α)) × σ
  | 0, newPopulation, env => (newPopulation, env)
  | count + 1, newPopulation, env =>
    let (child, env') := E.getOffspring population env
    breedLoop E population count (newPopulation ++ [some child]) env'

/-- The two loops of `evolve` that assemble `newPopulation` from the sorted
population.  The bound `neat.popsize - neat.elitism` of the second loop is a
truncated subtraction: when it is negative in JavaScript the loop body never
runs. -/
def assemblePopulation {σ : Type} (E : External α σ) (neat : Neat α) (env : σ) :
    List (Option (Genome α)) × σ :=
  let newPopulation := elitismLoop neat.population neat.elitism
  breedLoop E neat.population (neat.popsize - neat.elitism) newPopulation env

/-- Source: `evolve`.  `rockets.sort(...)` and the log line read
`rockets[0].brain.score` and `brain.score` of every compared rocket: they raise
a `TypeError` when `rockets` is empty or a rocket has no brain; the order of
`rockets` is not used afterwards.  The population handed to `neat.sort()`
carries the scores written through the rockets (`rocket.brain` is
`neat.population[i]`). -/
def evolve {σ : Type} (E : External α σ) (s : GameState α σ) : Option (GameState α σ) :=
  if s.rockets.isEmpty || s.rockets.any (fun rocket => rocket.brain.isNone) then none
  else
    let sorted := E.sort (s.rockets.map (fun rocket => rocket.brain))
    let neat := { s.neat with population := sorted }
    let (newPopulation, env1) := assemblePopulation E neat s.env
    let (mutated, env2) := E.mutate newPopulation env1
    let (r1, env3) := E.random env2
    let (r2, env4) := E.random env3
    let neat := { neat with population := mutated }
    some { rockets := createRockets mutated
           neat := neat
           generation := s.generation + 1
           collectionTarget := createCollectionTarget r1 r2
           currentFrame := 0
           bestFitness := 0
           env := env4 }

/-- Source: `gameLoop`, one animation frame (`draw()` only reads the state). -/
def gameLoop [FloorRing α] {σ : Type} (M : MathFns α) (E : External α σ)
    (s : GameState α σ) : Option (GameState α σ) :=
  if decide (s.currentFrame ≥ LIFESPAN) || allRocketsInactive s.rockets then
    evolve E s
  else
    match updateRockets M s with
    | none => none
    | some s' => some { s' with currentFrame := s'.currentFrame + 1 }

/-- Source: `resetSimulation`, as a function of the `neat` object built by
`initializeGame`; the two draws of `createCollectionTarget` come from
`Math.random()`. -/
def resetSimulation {σ : Type} (E : External α σ) (neat : Neat α) (env : σ) : GameState α σ :=
  let (r1, env1) := E.random env
  let (r2, env2) := E.random env1
  { rockets := createRockets neat.population
    neat := neat
    generation := 0
    collectionTarget := createCollectionTarget r1 r2
    currentFrame := 0
    bestFitness := 0
    env := env2 }

/-- The state after `n` successive calls of `updateRockets`. -/
def runTicks [FloorRing α] {σ : Type} (M : MathFns α) :
    Nat → GameState α σ → Option (GameState α σ)
  | 0, s => some s
  | n + 1, s => (runTicks M n s).bind (updateRockets M)

/-- The state after `n` successive animation frames of `gameLoop`. -/
def runFrames [FloorRing α] {σ : Type} (M : MathFns α) (E : External α σ) :
    Nat → GameState α σ → Option (GameState α σ)
  | 0, s => some s
  | n + 1, s => (runFrames M E n s).bind (gameLoop M E)

/-! ## Vocabulary of the specification -/

/-- The centre `(x + width/2, y + height/2)` of a rocket, as a coordinate
vector. -/
def rocketCentre (rocket : Rocket α) : Fin 2 → α :=
  ![rocket.x + rocket.width / 2, rocket.y + rocket.height / 2]

/-- The centre `(x + width/2, y + height/2)` of the target, as a coordinate
vector. -/
def targetCentre (target : Target α) : Fin 2 → α :=
  ![target.x + target.width / 2, target.y + target.height / 2]

/-- The bounding box of the rocket lies inside the playfield:
`0 <= x <= CANVAS_WIDTH - width` and `0 <= y <= CANVAS_HEIGHT - height`. -/
def InBounds (rocket : Rocket α) : Prop :=
  0 ≤ rocket.x ∧ rocket.x ≤ CANVAS_WIDTH - rocket.width ∧
  0 ≤ rocket.y ∧ rocket.y ≤ CANVAS_HEIGHT - rocket.height

/-- The rocket after the physics part of its tick in `updateRockets` (lifetime
increment, `applyNetworkOutputs` on the outputs of `brain`, `updatePosition`,
`keepRocketInBounds`), before fitness and collision are evaluated. -/
def afterPhysics [FloorRing α] (M : MathFns α) (collectionTarget : Target α)
    (rocket : Rocket α) (brain : Genome α) : Rocket α :=
  let rocket := { rocket with lifetime := rocket.lifetime + 1 }
  keepRocketInBounds (updatePosition (applyNetworkOutputs M rocket
    (brain.activate (calculateNeuralInputs M collectionTarget rocket))))

/-- The hidden state after `count` successive calls of `neat.getOffspring()`
on `population`. -/
def offspringEnv {σ : Type} (E : External α σ) (population : List (Option (Genome α))) :
    Nat → σ → σ
  | 0, env => env
  | count + 1, env => offspringEnv E population count (E.getOffspring population env).2

/-- The order `neat.sort()` is specified to produce (descending score): both
slots hold a policy with a score, and the score of the first is at least the
score of the second. -/
def ScoreGE (first second : Option (Genome α)) : Prop :=
  ∃ g1 g2 s1 s2, first = some g1 ∧ second = some g2 ∧ g1.score = some s1 ∧
    g2.score = some s2 ∧ s2 ≤ s1

/-- The population as ordered by `neat.sort()` inside `evolve`: the policies of
the rockets, carrying the scores written during the generation, sorted by the
evolver. -/
def sortedPopulation {σ : Type} (E : External α σ) (s : GameState α σ) :
    List (Option (Genome α)) :=
  E.sort (s.rockets.map (fun rocket => rocket.brain))

/-- The value of `newPopulation` when `evolve` installs it (before
`neat.mutate()`), with the hidden state at that point. -/
def assembled {σ : Type} (E : External α σ) (s : GameState α σ) :
    List (Option (Genome α)) × σ :=
  assemblePopulation E { s.neat with population := sortedPopulation E s } s.env

/-- Lifetime invariant of a generation: an active rocket has lived exactly
`currentFrame` ticks, an inactive one at most `currentFrame`. -/
def LifetimeInv {σ : Type} (s : GameState α σ) : Prop :=
  ∀ rocket ∈ s.rockets,
    (rocket.active = true → rocket.lifetime = s.currentFrame) ∧
    (rocket.active = false → rocket.lifetime ≤ s.currentFrame)

/-- Fitness invariant of a generation: `bestFitness` is at most
`1000 + 0.1 * LIFESPAN`, and every rocket has a fitness between 0 and
`1000 + 0.1 * lifetime` that is at most `bestFitness` and, once the rocket has
been ticked, is the score of its policy. -/
def FitnessInv {σ : Type} (s : GameState α σ) : Prop :=
  s.bestFitness ≤ 1000 + (LIFESPAN : α) * (1 / 10) ∧
  ∀ rocket ∈ s.rockets,
    0 ≤ rocket.fitness ∧ rocket.fitness ≤ 1000 + (rocket.lifetime : α) * (1 / 10) ∧
    rocket.fitness ≤ s.bestFitness ∧
    (1 ≤ rocket.lifetime →
      ∃ genome, rocket.brain = some genome ∧ genome.score = some rocket.fitness)

/-- Modelled from the spec: the score a policy is ranked by, `none` for an
`undefined` slot or a policy that has not been scored. -/
def scoreOf (slot : Option (Genome α)) : Option α :=
  slot.bind (fun genome => genome.score)

/-- Modelled from the spec: the comparison of `sortByScore()` (descending).
`first` may stand before `second` when the score of `second` is at most the
score of `first`; a slot without a score ranks below every scored policy. -/
def scoreBefore (first second : Option (Genome α)) : Bool :=
  match scoreOf second, scoreOf first with
  | none, _ => true
  | some _, none => false
  | some s2, some s1 => decide (s2 ≤ s1)

/-- Modelled from the spec: `sortByScore()` (descending) of the
PopulationEvolver contract, the `neat.sort()` of the evolver, whose code is not
part of `script.js`: a stable sort of the population by descending score. -/
def sortByScore (population : List (Option (Genome α))) : List (Option (Genome α)) :=
  population.insertionSort (fun first second => scoreBefore first second = true)

/-! ## Sample collaborators used in the worked examples -/

/-- A policy whose `activate` returns the same array on every input. -/
def constantGenome (outputs : List (JsNum α)) : Genome α :=
  { activate := fun _ => outputs, score := none }

/-- A deterministic stand-in for the external collaborators: `sort` and
`mutate` leave the population as it is, every offspring is `child`, and every
`Math.random()` draw is `draw`. -/
def fixedExternal (child : Genome α) (draw : α) : External α Unit :=
  { sort := fun population => population
    getOffspring := fun _ env => (child, env)
    mutate := fun population env => (population, env)
    random := fun env => (draw, env) }

/-- The policy that always answers `[1, 0, 0]`: thrust, no rotation. -/
def thrustGenome : Genome α :=
  constantGenome [JsNum.num 1, JsNum.num 0, JsNum.num 0]

/-- The policy that always answers the empty array, a malformed output. -/
def emptyGenome : Genome α :=
  constantGenome []

/-- The state built by `resetSimulation` for a population made of the single
policy `genome`, when both `Math.random()` draws are `draw`. -/
def soloStart (genome : Genome α) (draw : α) : GameState α Unit :=
  resetSimulation (fixedExternal genome draw) ⟨[some genome], 1, 0⟩ ()

/-- A rocket in the `createRockets` start state with the given brain, turned to
the heading `angle`. -/
def launchRocket (brain : Option (Genome α)) (angle : α) : Rocket α :=
  { x := CANVAS_WIDTH / 2
    y := CANVAS_HEIGHT - 300
    speedX := 0
    speedY := 0
    angle := angle
    fireAngle := 0
    width := 450
    height := 280
    fitness := 0
    brain := brain
    thrusting := false
    active := true
    lifetime := 0 }

/-- A configuration whose elitism count (3) exceeds its population size (2). -/
def overElitistNeat : Neat α :=
  { population := [some emptyGenome, some emptyGenome], popsize := 2, elitism := 3 }

/-- The well-formed output vector, with components 0 or 1, that has the same
three comparison results `outputs[i] > 0.5` as `outputs`. -/
def comparisons (outputs : List (JsNum α)) : List (JsNum α) :=
  [JsNum.num (if gtHalf outputs[0]? then 1 else 0),
   JsNum.num (if gtHalf outputs[1]? then 1 else 0),
   JsNum.num (if gtHalf outputs[2]? then 1 else 0)]

/-- A stand-in for the external collaborators whose `mutate` rewires every
policy of the population (each policy then answers `[1, 0, 0]`); `sort` leaves
the population as it is, every offspring is `thrustGenome`, every draw is `1/2`. -/
def rewiringExternal : External α Unit :=
  { sort := fun population => population
    getOffspring := fun _ env => (thrustGenome, env)
    mutate := fun population env =>
      (population.map (fun slot => slot.map (fun genome =>
        { genome with activate := fun _ => [JsNum.num 1, JsNum.num 0, JsNum.num 0] })), env)
    random := fun env => (1 / 2, env) }

/-- The policy that answers the empty array, carrying the score `score`. -/
def scoredGenome (score : α) : Genome α :=
  { activate := fun _ => [], score := some score }

/-- The end of a generation with a single rocket whose policy, the one that
answers the empty array, has been scored 5; `popsize = 1`, `elitism = 1`. -/
def eliteState : GameState α Unit :=
  { rockets := [{ launchRocket (some (scoredGenome 5)) (0 : α) with
                  active := false, fitness := 5, lifetime := 10 }]
    neat := { population := [some emptyGenome], popsize := 1, elitism := 1 }
    generation := 0
    collectionTarget := createCollectionTarget (1 / 2) (1 / 2)
    currentFrame := 10
    bestFitness := 5
    env := () }

/-- An offspring recognisable by its rank `tag` among the `getOffspring()`
calls: it answers `[tag]` and has not been scored. -/
def taggedGenome (tag : Nat) : Genome α :=
  constantGenome [JsNum.num (tag : α)]

/-- A stand-in for the external collaborators whose `sort` is `sortByScore` and
whose hidden state counts the `getOffspring()` calls: the call made in state
`n` returns `taggedGenome n`; `mutate` leaves the population as it is and every
draw is `1/2`. -/
def countingExternal : External α Nat :=
  { sort := sortByScore
    getOffspring := fun _ env => (taggedGenome env, env + 1)
    mutate := fun population env => (population, env)
    random := fun env => (1 / 2, env) }

/-- A stopped rocket whose policy has been scored `score`. -/
def scoredRocket (score : α) : Rocket α :=
  { launchRocket (some (scoredGenome score)) (0 : α) with
    active := false, fitness := score, lifetime := 10 }

/-- The end of a generation with four rockets whose policies have been scored
1, 5, 3 and 2, in population order; `popsize = 4`, `elitism = 2`, and no
`getOffspring()` call has been made yet. -/
def rankedState : GameState α Nat :=
  { rockets := [scoredRocket 1, scoredRocket 5, scoredRocket 3, scoredRocket 2]
    neat := { population := [some (scoredGenome 1), some (scoredGenome 5),
                some (scoredGenome 3), some (scoredGenome 2)], popsize := 4, elitism := 2 }
    generation := 0
    collectionTarget := createCollectionTarget (1 / 2) (1 / 2)
    currentFrame := 10
    bestFitness := 5
    env := 0 }

end Engine

/-! ## Fitness and collision (`calculateFitness`, `checkCollision`) -/

theorem dist_centres (rocket : Rocket ℝ) (target : Target ℝ) :
    dist ((WithLp.equiv 2 (Fin 2 → ℝ)).symm (rocketCentre rocket))
          ((WithLp.equiv 2 (Fin 2 → ℝ)).symm (targetCentre target))
      = Real.sqrt ((target.x + target.width / 2 - (rocket.x + rocket.width / 2)) ^ 2
          + (target.y + target.height / 2 - (rocket.y + rocket.height / 2)) ^ 2) := by
  rw [EuclideanSpace.dist_eq]
  simp only [rocketCentre, targetCentre, Fin.sum_univ_two, WithLp.equiv_symm_pi_apply,
    Matrix.cons_val_zero, Matrix.cons_val_one, Matrix.head_cons, Real.dist_eq, sq_abs]
  congr 1
  ring

theorem calculateFitness_real (rocket : Rocket ℝ) (target : Target ℝ) :
    calculateFitness Real.sqrt Real.exp target rocket
      = 1000 * Real.exp (-(dist ((WithLp.equiv 2 (Fin 2 → ℝ)).symm (rocketCentre rocket))
          ((WithLp.equiv 2 (Fin 2 → ℝ)).symm (targetCentre target))) / 100)
        + 0.1 * (rocket.lifetime : ℝ) := by
  rw [dist_centres]
  have hpos : ∀ v : ℝ, max 0 (1000 * Real.exp v) = 1000 * Real.exp v := fun v =>
    max_eq_right (by positivity)
  simp only [calculateFitness, hpos]
  ring

/-- C6. For every rocket and target, `calculateFitness` returns
`1000 * exp(-d/100) + 0.1 * lifetime`, where `d` is the Euclidean distance
between the two centres; when the centres coincide the value is exactly
`1000 + 0.1 * lifetime`. -/
theorem calculateFitness_closed_form (rocket : Rocket ℝ) (target : Target ℝ) :
    calculateFitness Real.sqrt Real.exp target rocket
        = 1000 * Real.exp (-(dist ((WithLp.equiv 2 (Fin 2 → ℝ)).symm (rocketCentre rocket))
          ((WithLp.equiv 2 (Fin 2 → ℝ)).symm (targetCentre target))) / 100)
          + 0.1 * (rocket.lifetime : ℝ)
    ∧ (rocketCentre rocket = targetCentre target →
       calculateFitness Real.sqrt Real.exp target rocket
         = 1000 + 0.1 * (rocket.lifetime : ℝ)) := by
  refine ⟨calculateFitness_real rocket target, fun h => ?_⟩
  rw [calculateFitness_real, h, dist_self]
  norm_num

/-- C7. For a fixed lifetime `calculateFitness` is strictly decreasing in the
centre-to-centre distance, and its distance component
`max(0, 1000 * exp(-d/100))` is at most 1000, with equality exactly when
`d = 0`. -/
theorem calculateFitness_strictly_decreasing :
    (∀ (rocket1 rocket2 : Rocket ℝ) (target : Target ℝ),
      rocket1.lifetime = rocket2.lifetime →
      dist ((WithLp.equiv 2 (Fin 2 → ℝ)).symm (rocketCentre rocket1))
          ((WithLp.equiv 2 (Fin 2 → ℝ)).symm (targetCentre target))
        < dist ((WithLp.equiv 2 (Fin 2 → ℝ)).symm (rocketCentre rocket2))
          ((WithLp.equiv 2 (Fin 2 → ℝ)).symm (targetCentre target)) →
      calculateFitness Real.sqrt Real.exp target rocket2
        < calculateFitness Real.sqrt Real.exp target rocket1)
    ∧ (∀ (rocket : Rocket ℝ) (target : Target ℝ),
      calculateFitness Real.sqrt Real.exp target rocket
        = max 0 (1000 * Real.exp (-(dist ((WithLp.equiv 2 (Fin 2 → ℝ)).symm (rocketCentre rocket))
          ((WithLp.equiv 2 (Fin 2 → ℝ)).symm (targetCentre target))) / 100))
          + (rocket.lifetime : ℝ) * (1 / 10)
      ∧ max 0 (1000 * Real.exp (-(dist ((WithLp.equiv 2 (Fin 2 → ℝ)).symm (rocketCentre rocket))
          ((WithLp.equiv 2 (Fin 2 → ℝ)).symm (targetCentre target))) / 100))
          ≤ 1000
      ∧ (max 0 (1000 * Real.exp (-(dist ((WithLp.equiv 2 (Fin 2 → ℝ)).symm (rocketCentre rocket))
          ((WithLp.equiv 2 (Fin 2 → ℝ)).symm (targetCentre target))) / 100))
          = 1000 ↔ dist ((WithLp.equiv 2 (Fin 2 → ℝ)).symm (rocketCentre rocket))
          ((WithLp.equiv 2 (Fin 2 → ℝ)).symm (targetCentre target)) = 0)) := by
  have hpos : ∀ v : ℝ, max 0 (1000 * Real.exp v) = 1000 * Real.exp v := fun v =>
    max_eq_right (by positivity)
  constructor
  · intro rocket1 rocket2 target hlife hlt
    rw [calculateFitness_real, calculateFitness_real, hlife]
    have hexp : Real.exp (-(dist ((WithLp.equiv 2 (Fin 2 → ℝ)).symm (rocketCentre rocket2))
          ((WithLp.equiv 2 (Fin 2 → ℝ)).symm (targetCentre target))) / 100)
        < Real.exp (-(dist ((WithLp.equiv 2 (Fin 2 → ℝ)).symm (rocketCentre rocket1))
          ((WithLp.equiv 2 (Fin 2 → ℝ)).symm (targetCentre target))) / 100) :=
      Real.exp_lt_exp.mpr (by linarith)
    linarith
  · intro rocket target
    have hd : 0 ≤ dist ((WithLp.equiv 2 (Fin 2 → ℝ)).symm (rocketCentre rocket))
          ((WithLp.equiv 2 (Fin 2 → ℝ)).symm (targetCentre target)) := dist_nonneg
    refine ⟨?_, ?_, ?_⟩
    · rw [dist_centres]
      rfl
    · rw [hpos]
      have hle : Real.exp (-(dist ((WithLp.equiv 2 (Fin 2 → ℝ)).symm (rocketCentre rocket))
          ((WithLp.equiv 2 (Fin 2 → ℝ)).symm (targetCentre target))) / 100) ≤ 1 :=
        Real.exp_le_one_iff.mpr (by linarith)
      linarith
    · rw [hpos]
      constructor
      · intro h
        have h1 : Real.exp (-(dist ((WithLp.equiv 2 (Fin 2 → ℝ)).symm (rocketCentre rocket))
          ((WithLp.equiv 2 (Fin 2 → ℝ)).symm (targetCentre target))) / 100) = 1 := by
          linarith
        have h0 := Real.exp_eq_one_iff _ |>.mp h1
        linarith
      · intro h
        rw [h]
        norm_num

/-- C8. `checkCollision` returns true exactly when the Euclidean distance
between the rocket's centre and the target's centre is strictly below
`(rocket.width + target.width) / 4`; the heights enter only through the
centres. -/
theorem checkCollision_iff (rocket : Rocket ℝ) (target : Target ℝ) :
    checkCollision Real.sqrt rocket target = true ↔
      dist ((WithLp.equiv 2 (Fin 2 → ℝ)).symm (rocketCentre rocket))
          ((WithLp.equiv 2 (Fin 2 → ℝ)).symm (targetCentre target))
        < (rocket.width + target.width) / 4 := by
  rw [dist_centres]
  simp [checkCollision]

section Generic

variable {α : Type} [LinearOrderedField α]

/-! ## Actuator decoding and integration (`applyNetworkOutputs`, `updatePosition`) -/

theorem applyNetworkOutputs_angle (M : MathFns α) (rocket : Rocket α) (outputs : List (JsNum α)) :
    (applyNetworkOutputs M rocket outputs).angle
      = if gtHalf outputs[1]? then rocket.angle - TARGET_ROTATION_SPEED M.pi
        else if gtHalf outputs[2]? then rocket.angle + TARGET_ROTATION_SPEED M.pi
        else rocket.angle := by
  unfold applyNetworkOutputs
  by_cases h0 : gtHalf outputs[0]? = true <;> by_cases h1 : gtHalf outputs[1]? = true <;>
    by_cases h2 : gtHalf outputs[2]? = true <;> simp [h0, h1, h2]

theorem applyNetworkOutputs_thrusting (M : MathFns α) (rocket : Rocket α)
    (outputs : List (JsNum α)) :
    (applyNetworkOutputs M rocket outputs).thrusting = gtHalf outputs[0]? := by
  unfold applyNetworkOutputs
  by_cases h0 : gtHalf outputs[0]? = true <;> by_cases h1 : gtHalf outputs[1]? = true <;>
    by_cases h2 : gtHalf outputs[2]? = true <;> simp [h0, h1, h2]

theorem applyNetworkOutputs_speedX (M : MathFns α) (rocket : Rocket α)
    (outputs : List (JsNum α)) :
    (applyNetworkOutputs M rocket outputs).speedX
      = if gtHalf outputs[0]? then rocket.speedX + THRUST * M.sin rocket.angle
        else rocket.speedX := by
  unfold applyNetworkOutputs
  by_cases h0 : gtHalf outputs[0]? = true <;> by_cases h1 : gtHalf outputs[1]? = true <;>
    by_cases h2 : gtHalf outputs[2]? = true <;> simp [h0, h1, h2]

theorem applyNetworkOutputs_speedY (M : MathFns α) (rocket : Rocket α)
    (outputs : List (JsNum α)) :
    (applyNetworkOutputs M rocket outputs).speedY
      = if gtHalf outputs[0]? then rocket.speedY - THRUST * M.cos rocket.angle
        else rocket.speedY := by
  unfold applyNetworkOutputs
  by_cases h0 : gtHalf outputs[0]? = true <;> by_cases h1 : gtHalf outputs[1]? = true <;>
    by_cases h2 : gtHalf outputs[2]? = true <;> simp [h0, h1, h2]

theorem applyNetworkOutputs_frame (M : MathFns α) (rocket : Rocket α)
    (outputs : List (JsNum α)) :
    (applyNetworkOutputs M rocket outputs).x = rocket.x ∧
    (applyNetworkOutputs M rocket outputs).y = rocket.y ∧
    (applyNetworkOutputs M rocket outputs).width = rocket.width ∧
    (applyNetworkOutputs M rocket outputs).height = rocket.height ∧
    (applyNetworkOutputs M rocket outputs).fitness = rocket.fitness ∧
    (applyNetworkOutputs M rocket outputs).brain = rocket.brain ∧
    (applyNetworkOutputs M rocket outputs).active = rocket.active ∧
    (applyNetworkOutputs M rocket outputs).lifetime = rocket.lifetime := by
  unfold applyNetworkOutputs
  by_cases h0 : gtHalf outputs[0]? = true <;> by_cases h1 : gtHalf outputs[1]? = true <;>
    by_cases h2 : gtHalf outputs[2]? = true <;> simp [h0, h1, h2]

/-- The controls on an output vector of three numbers: for a number,
`o[1] > 0.5` fails exactly when `o[1] <= 0.5`. -/
theorem applyNetworkOutputs_numeric (M : MathFns α) (rocket : Rocket α) (o0 o1 o2 : α) :
    (applyNetworkOutputs M rocket [JsNum.num o0, JsNum.num o1, JsNum.num o2]).thrusting
        = decide (o0 > 1 / 2)
    ∧ (o1 > 1 / 2 →
        (applyNetworkOutputs M rocket [JsNum.num o0, JsNum.num o1, JsNum.num o2]).angle
          = rocket.angle - TARGET_ROTATION_SPEED M.pi)
    ∧ (o1 ≤ 1 / 2 → o2 > 1 / 2 →
        (applyNetworkOutputs M rocket [JsNum.num o0, JsNum.num o1, JsNum.num o2]).angle
          = rocket.angle + TARGET_ROTATION_SPEED M.pi)
    ∧ (o1 ≤ 1 / 2 → o2 ≤ 1 / 2 →
        (applyNetworkOutputs M rocket [JsNum.num o0, JsNum.num o1, JsNum.num o2]).angle
          = rocket.angle)
    ∧ (∀ other : Rocket α, other.angle = rocket.angle →
        (applyNetworkOutputs M other [JsNum.num o0, JsNum.num o1, JsNum.num o2]).angle
          = (applyNetworkOutputs M rocket [JsNum.num o0, JsNum.num o1, JsNum.num o2]).angle) := by
  have e1 : gtHalf ([JsNum.num o0, JsNum.num o1, JsNum.num o2][1]?) = decide (o1 > 1 / 2) := rfl
  have e2 : gtHalf ([JsNum.num o0, JsNum.num o1, JsNum.num o2][2]?) = decide (o2 > 1 / 2) := rfl
  refine ⟨?_, ?_, ?_, ?_, ?_⟩
  · rw [applyNetworkOutputs_thrusting]
    rfl
  · intro h1
    rw [applyNetworkOutputs_angle, e1, if_pos (decide_eq_true h1)]
  · intro h1 h2
    rw [applyNetworkOutputs_angle, e1, e2, if_neg (by simpa using h1),
      if_pos (decide_eq_true h2)]
  · intro h1 h2
    rw [applyNetworkOutputs_angle, e1, e2, if_neg (by simpa using h1),
      if_neg (by simpa using h2)]
  · intro other h
    rw [applyNetworkOutputs_angle, applyNetworkOutputs_angle, h]

/-- C10 (amended). On every 3-element output vector, whose components may be
numbers, `NaN` or `±Infinity`, `applyNetworkOutputs` sets `thrusting` to
`o[0] > 0.5` and changes the heading by `-TARGET_ROTATION_SPEED` when
`o[1] > 0.5` (whatever `o[2]` is), by `+TARGET_ROTATION_SPEED` when
`o[1] > 0.5` is false and `o[2] > 0.5`, and not at all otherwise.  For a number
`o[1] > 0.5` is false exactly when `o[1] <= 0.5`; for `NaN` both comparisons
are false, so a `NaN` in `o[1]` lets `o[2]` turn the rocket right.  The new
heading is a function of the old heading and the outputs only (no velocity and
no `ROTATION_ACCELERATION` enters it). -/
theorem applyNetworkOutputs_controls (M : MathFns α) (rocket : Rocket α)
    (o0 o1 o2 : JsNum α) :
    (applyNetworkOutputs M rocket [o0, o1, o2]).thrusting = gtHalf (some o0)
    ∧ (gtHalf (some o1) = true →
        (applyNetworkOutputs M rocket [o0, o1, o2]).angle
          = rocket.angle - TARGET_ROTATION_SPEED M.pi)
    ∧ (gtHalf (some o1) = false → gtHalf (some o2) = true →
        (applyNetworkOutputs M rocket [o0, o1, o2]).angle
          = rocket.angle + TARGET_ROTATION_SPEED M.pi)
    ∧ (gtHalf (some o1) = false → gtHalf (some o2) = false →
        (applyNetworkOutputs M rocket [o0, o1, o2]).angle = rocket.angle)
    ∧ (∀ other : Rocket α, other.angle = rocket.angle →
        (applyNetworkOutputs M other [o0, o1, o2]).angle
          = (applyNetworkOutputs M rocket [o0, o1, o2]).angle)
    ∧ (∀ v : α, gtHalf (some (JsNum.num v)) = decide (v > 1 / 2) ∧
        leHalf (some (JsNum.num v)) = decide (v ≤ 1 / 2) ∧
        (gtHalf (some (JsNum.num v)) = false ↔ leHalf (some (JsNum.num v)) = true))
    ∧ (gtHalf (some (JsNum.nan : JsNum α)) = false ∧
        leHalf (some (JsNum.nan : JsNum α)) = false) := by
  have e1 : gtHalf ([o0, o1, o2][1]?) = gtHalf (some o1) := rfl
  have e2 : gtHalf ([o0, o1, o2][2]?) = gtHalf (some o2) := rfl
  refine ⟨?_, ?_, ?_, ?_, ?_, ?_, rfl, rfl⟩
  · rw [applyNetworkOutputs_thrusting]
    rfl
  · intro h1
    rw [applyNetworkOutputs_angle, e1, h1, if_pos rfl]
  · intro h1 h2
    rw [applyNetworkOutputs_angle, e1, e2, h1, h2, if_neg (by simp), if_pos rfl]
  · intro h1 h2
    rw [applyNetworkOutputs_angle, e1, e2, h1, h2, if_neg (by simp), if_neg (by simp)]
  · intro other h
    rw [applyNetworkOutputs_angle, applyNetworkOutputs_angle, h]
  · intro v
    refine ⟨rfl, rfl, ?_⟩
    simp only [gtHalf, leHalf, decide_eq_false_iff_not, decide_eq_true_eq, not_lt, gt_iff_lt]

/-- C2 (amended). One tick of `applyNetworkOutputs` followed by
`updatePosition`, with `a` the heading at the start of the tick: when
`outputs[0] > 0.5` the thrust impulse is added first and drag is applied to the
sum, `speedX' = DRAG * (speedX + THRUST * sin a)`,
`speedY' = speedY + GRAVITY - THRUST * cos a`, `x' = x + speedX'`,
`y' = y + speedY'`; otherwise the thrust terms are absent. -/
theorem tick_kinematics (M : MathFns α) (rocket : Rocket α) (outputs : List (JsNum α)) :
    (gtHalf outputs[0]? = true →
      (updatePosition (applyNetworkOutputs M rocket outputs)).speedX
          = DRAG * (rocket.speedX + THRUST * M.sin rocket.angle)
      ∧ (updatePosition (applyNetworkOutputs M rocket outputs)).speedY
          = rocket.speedY + GRAVITY - THRUST * M.cos rocket.angle
      ∧ (updatePosition (applyNetworkOutputs M rocket outputs)).x
          = rocket.x + DRAG * (rocket.speedX + THRUST * M.sin rocket.angle)
      ∧ (updatePosition (applyNetworkOutputs M rocket outputs)).y
          = rocket.y + (rocket.speedY + GRAVITY - THRUST * M.cos rocket.angle))
    ∧ (gtHalf outputs[0]? = false →
      (updatePosition (applyNetworkOutputs M rocket outputs)).speedX = DRAG * rocket.speedX
      ∧ (updatePosition (applyNetworkOutputs M rocket outputs)).speedY
          = rocket.speedY + GRAVITY
      ∧ (updatePosition (applyNetworkOutputs M rocket outputs)).x
          = rocket.x + DRAG * rocket.speedX
      ∧ (updatePosition (applyNetworkOutputs M rocket outputs)).y
          = rocket.y + (rocket.speedY + GRAVITY)) := by
  obtain ⟨hx, hy, -⟩ := applyNetworkOutputs_frame M rocket outputs
  constructor
  · intro h
    simp only [updatePosition, applyNetworkOutputs_speedX, applyNetworkOutputs_speedY, hx, hy, h,
      if_true]
    refine ⟨?_, ?_, ?_, ?_⟩ <;> ring
  · intro h
    simp only [updatePosition, applyNetworkOutputs_speedX, applyNetworkOutputs_speedY, hx, hy, h]
    refine ⟨?_, ?_, ?_, ?_⟩ <;> simp <;> ring

end Generic

section Generic2

variable {α : Type} [LinearOrderedField α]

/-! ## Boundary handling (`keepRocketInBounds`) -/

theorem updatePosition_frame (rocket : Rocket α) :
    (updatePosition rocket).width = rocket.width ∧
    (updatePosition rocket).height = rocket.height ∧
    (updatePosition rocket).brain = rocket.brain ∧
    (updatePosition rocket).active = rocket.active ∧
    (updatePosition rocket).lifetime = rocket.lifetime ∧
    (updatePosition rocket).angle = rocket.angle := by
  simp [updatePosition]

theorem keepRocketInBounds_frame (rocket : Rocket α) :
    (keepRocketInBounds rocket).width = rocket.width ∧
    (keepRocketInBounds rocket).height = rocket.height ∧
    (keepRocketInBounds rocket).brain = rocket.brain ∧
    (keepRocketInBounds rocket).lifetime = rocket.lifetime ∧
    (keepRocketInBounds rocket).angle = rocket.angle := by
  unfold keepRocketInBounds
  split <;> simp

theorem keepRocketInBounds_of_inBounds (rocket : Rocket α) (h : InBounds rocket) :
    keepRocketInBounds rocket = rocket := by
  obtain ⟨h1, h2, h3, h4⟩ := h
  unfold keepRocketInBounds
  rw [if_neg]
  simp only [not_or, not_lt, gt_iff_lt]
  exact ⟨h1, h2, h3, h4⟩

theorem keepRocketInBounds_inBounds (rocket : Rocket α)
    (hw : rocket.width ≤ CANVAS_WIDTH) (hh : rocket.height ≤ CANVAS_HEIGHT) :
    InBounds (keepRocketInBounds rocket) := by
  unfold keepRocketInBounds
  split
  · refine ⟨le_max_left _ _, ?_, le_max_left _ _, ?_⟩
    · exact max_le (sub_nonneg.mpr hw) (min_le_right _ _)
    · exact max_le (sub_nonneg.mpr hh) (min_le_right _ _)
  · rename_i h
    simp only [not_or, not_lt, gt_iff_lt] at h
    exact ⟨h.1, h.2.1, h.2.2.1, h.2.2.2⟩

theorem keepRocketInBounds_cases (rocket : Rocket α) :
    keepRocketInBounds rocket = rocket ∨
    ((keepRocketInBounds rocket).active = false ∧ (keepRocketInBounds rocket).speedX = 0 ∧
      (keepRocketInBounds rocket).speedY = 0) := by
  unfold keepRocketInBounds
  split
  · right
    simp
  · left
    rfl

theorem checkCollision_congr (sqrt : α → α) (r1 r2 : Rocket α) (target : Target α)
    (hx : r1.x = r2.x) (hy : r1.y = r2.y) (hw : r1.width = r2.width)
    (hh : r1.height = r2.height) :
    checkCollision sqrt r1 target = checkCollision sqrt r2 target := by
  simp [checkCollision, hx, hy, hw, hh]

theorem createRockets_mem (population : List (Option (Genome α))) (rocket : Rocket α)
    (h : rocket ∈ createRockets population) :
    rocket.x = 960 ∧ rocket.y = 780 ∧ rocket.speedX = 0 ∧ rocket.speedY = 0 ∧
    rocket.angle = 0 ∧ rocket.fireAngle = 0 ∧ rocket.width = 450 ∧ rocket.height = 280 ∧
    rocket.fitness = 0 ∧ rocket.thrusting = false ∧ rocket.active = true ∧
    rocket.lifetime = 0 ∧ rocket.brain ∈ population := by
  simp only [createRockets, List.mem_map] at h
  obtain ⟨genome, hg, rfl⟩ := h
  refine ⟨?_, ?_, rfl, rfl, rfl, rfl, rfl, rfl, rfl, rfl, rfl, rfl, hg⟩
  · simp only [CANVAS_WIDTH]; norm_num
  · simp only [CANVAS_HEIGHT]; norm_num

variable [FloorRing α]

/-! ## One rocket, one tick (`updateRocket`) -/

theorem updateRocket_inactive (M : MathFns α) (target : Target α) (rocket : Rocket α)
    (bestFitness : α) (h : rocket.active = false) :
    updateRocket M target rocket bestFitness = some (rocket, bestFitness) := by
  simp [updateRocket, h]

theorem updateRocket_no_brain (M : MathFns α) (target : Target α) (rocket : Rocket α)
    (bestFitness : α) (h : rocket.active = true) (hb : rocket.brain = none) :
    updateRocket M target rocket bestFitness = none := by
  simp [updateRocket, h, hb]

theorem updateRocket_eq (M : MathFns α) (target : Target α) (rocket : Rocket α)
    (bestFitness : α) (brain : Genome α) (h : rocket.active = true)
    (hb : rocket.brain = some brain) :
    updateRocket M target rocket bestFitness
      = some
          (if checkCollision M.sqrt (afterPhysics M target rocket brain) target then
            { afterPhysics M target rocket brain with
              fitness := calculateFitness M.sqrt M.exp target (afterPhysics M target rocket brain),
              brain := some ⟨brain.activate,
                some (calculateFitness M.sqrt M.exp target (afterPhysics M target rocket brain))⟩,
              active := false }
          else
            { afterPhysics M target rocket brain with
              fitness := calculateFitness M.sqrt M.exp target (afterPhysics M target rocket brain),
              brain := some ⟨brain.activate,
                some (calculateFitness M.sqrt M.exp target (afterPhysics M target rocket brain))⟩ },
           max bestFitness
             (calculateFitness M.sqrt M.exp target (afterPhysics M target rocket brain))) := by
  obtain ⟨x, y, sx, sy, a, fa, w, ht, f, br, th, act, l⟩ := rocket
  simp only at h hb
  subst h hb
  rfl

theorem updateRocket_active (M : MathFns α) (target : Target α) (rocket : Rocket α)
    (bestFitness : α) (brain : Genome α) (h : rocket.active = true)
    (hb : rocket.brain = some brain) :
    ∃ rocket' bestFitness',
      updateRocket M target rocket bestFitness = some (rocket', bestFitness') ∧
      rocket'.x = (afterPhysics M target rocket brain).x ∧
      rocket'.y = (afterPhysics M target rocket brain).y ∧
      rocket'.speedX = (afterPhysics M target rocket brain).speedX ∧
      rocket'.speedY = (afterPhysics M target rocket brain).speedY ∧
      rocket'.angle = (afterPhysics M target rocket brain).angle ∧
      rocket'.fireAngle = (afterPhysics M target rocket brain).fireAngle ∧
      rocket'.thrusting = (afterPhysics M target rocket brain).thrusting ∧
      rocket'.width = (afterPhysics M target rocket brain).width ∧
      rocket'.height = (afterPhysics M target rocket brain).height ∧
      rocket'.lifetime = (afterPhysics M target rocket brain).lifetime ∧
      rocket'.fitness
        = calculateFitness M.sqrt M.exp target (afterPhysics M target rocket brain) ∧
      rocket'.brain = some { brain with score := some rocket'.fitness } ∧
      bestFitness' = max bestFitness rocket'.fitness ∧
      rocket'.active = ((afterPhysics M target rocket brain).active &&
        !checkCollision M.sqrt (afterPhysics M target rocket brain) target) := by
  rw [updateRocket_eq M target rocket bestFitness brain h hb]
  by_cases hc : checkCollision M.sqrt (afterPhysics M target rocket brain) target = true
  · rw [if_pos hc]
    exact ⟨_, _, rfl, rfl, rfl, rfl, rfl, rfl, rfl, rfl, rfl, rfl, rfl, rfl, rfl, rfl, by simp [hc]⟩
  · rw [if_neg hc]
    exact ⟨_, _, rfl, rfl, rfl, rfl, rfl, rfl, rfl, rfl, rfl, rfl, rfl, rfl, rfl, rfl, by simp [hc]⟩

theorem afterPhysics_frame (M : MathFns α) (target : Target α) (rocket : Rocket α)
    (brain : Genome α) :
    (afterPhysics M target rocket brain).width = rocket.width ∧
    (afterPhysics M target rocket brain).height = rocket.height ∧
    (afterPhysics M target rocket brain).lifetime = rocket.lifetime + 1 := by
  obtain ⟨hw, hh, -, hl, -⟩ := keepRocketInBounds_frame (updatePosition (applyNetworkOutputs M
    { rocket with lifetime := rocket.lifetime + 1 }
    (brain.activate (calculateNeuralInputs M target
      { rocket with lifetime := rocket.lifetime + 1 }))))
  obtain ⟨hw1, hh1, -, -, hl1, -⟩ := updatePosition_frame (applyNetworkOutputs M
    { rocket with lifetime := rocket.lifetime + 1 }
    (brain.activate (calculateNeuralInputs M target
      { rocket with lifetime := rocket.lifetime + 1 })))
  obtain ⟨-, -, hw2, hh2, -, -, -, hl2⟩ := applyNetworkOutputs_frame M
    { rocket with lifetime := rocket.lifetime + 1 }
    (brain.activate (calculateNeuralInputs M target
      { rocket with lifetime := rocket.lifetime + 1 }))
  refine ⟨?_, ?_, ?_⟩
  · exact hw.trans (hw1.trans hw2)
  · exact hh.trans (hh1.trans hh2)
  · exact hl.trans (hl1.trans hl2)

end Generic2

section Loop

variable {α : Type} [LinearOrderedField α] [FloorRing α] {σ : Type}

/-! ## All rockets, one tick (`updateRockets`) and runs of ticks -/

theorem updateRocketsLoop_forall₂ (M : MathFns α) (target : Target α) :
    ∀ (rockets : List (Rocket α)) (bestFitness : α) (rockets' : List (Rocket α))
      (bestFitness' : α),
      updateRocketsLoop M target rockets bestFitness = some (rockets', bestFitness') →
      List.Forall₂ (fun rocket rocket' => ∃ b b', updateRocket M target rocket b = some (rocket', b'))
        rockets rockets' := by
  intro rockets
  induction rockets with
  | nil =>
    intro b rockets' b' h
    simp only [updateRocketsLoop, Option.some.injEq, Prod.mk.injEq] at h
    rw [← h.1]
    exact List.Forall₂.nil
  | cons rocket rest ih =>
    intro b rockets' b' h
    unfold updateRocketsLoop at h
    cases h1 : updateRocket M target rocket b with
    | none => simp [h1] at h
    | some p =>
      obtain ⟨r1, b1⟩ := p
      simp only [h1] at h
      cases h2 : updateRocketsLoop M target rest b1 with
      | none => simp [h2] at h
      | some q =>
        obtain ⟨rs2, b2⟩ := q
        simp only [h2, Option.some.injEq, Prod.mk.injEq] at h
        rw [← h.1]
        exact List.Forall₂.cons ⟨b, b1, h1⟩ (ih b1 rs2 b2 h2)

theorem updateRocketsLoop_isSome (M : MathFns α) (target : Target α) :
    ∀ (rockets : List (Rocket α)) (bestFitness : α),
      (∀ rocket ∈ rockets, rocket.brain ≠ none) →
      ∃ rockets' bestFitness',
        updateRocketsLoop M target rockets bestFitness = some (rockets', bestFitness') := by
  intro rockets
  induction rockets with
  | nil => intro b _; exact ⟨[], b, rfl⟩
  | cons rocket rest ih =>
    intro b hall
    have hbrain : rocket.brain ≠ none := hall rocket (List.mem_cons_self _ _)
    have hstep : ∃ r1 b1, updateRocket M target rocket b = some (r1, b1) := by
      cases hact : rocket.active with
      | false => exact ⟨rocket, b, updateRocket_inactive M target rocket b hact⟩
      | true =>
        obtain ⟨g, hg⟩ := Option.ne_none_iff_exists'.mp hbrain
        obtain ⟨r1, b1, h1, -⟩ := updateRocket_active M target rocket b g hact hg
        exact ⟨r1, b1, h1⟩
    obtain ⟨r1, b1, h1⟩ := hstep
    obtain ⟨rs2, b2, h2⟩ := ih b1 (fun r hr => hall r (List.mem_cons_of_mem _ hr))
    exact ⟨r1 :: rs2, b2, by simp [updateRocketsLoop, h1, h2]⟩

theorem updateRocket_brain_ne_none (M : MathFns α) (target : Target α) (rocket rocket' : Rocket α)
    (b b' : α) (h : updateRocket M target rocket b = some (rocket', b'))
    (hb : rocket.brain ≠ none) : rocket'.brain ≠ none := by
  cases hact : rocket.active with
  | false =>
    rw [updateRocket_inactive M target rocket b hact] at h
    simp only [Option.some.injEq, Prod.mk.injEq] at h
    rw [← h.1]
    exact hb
  | true =>
    obtain ⟨g, hg⟩ := Option.ne_none_iff_exists'.mp hb
    obtain ⟨r1, b1, h1, hfacts⟩ := updateRocket_active M target rocket b g hact hg
    rw [h1] at h
    simp only [Option.some.injEq, Prod.mk.injEq] at h
    rw [← h.1, hfacts.2.2.2.2.2.2.2.2.2.2.2.1]
    simp

theorem updateRockets_spec (M : MathFns α) (s s' : GameState α σ)
    (h : updateRockets M s = some s') :
    s'.collectionTarget = s.collectionTarget ∧ s'.neat = s.neat ∧
    s'.generation = s.generation ∧ s'.currentFrame = s.currentFrame ∧ s'.env = s.env ∧
    List.Forall₂ (fun rocket rocket' =>
        ∃ b b', updateRocket M s.collectionTarget rocket b = some (rocket', b'))
      s.rockets s'.rockets := by
  unfold updateRockets at h
  cases h1 : updateRocketsLoop M s.collectionTarget s.rockets s.bestFitness with
  | none => simp [h1] at h
  | some p =>
    obtain ⟨rs, b⟩ := p
    simp only [h1, Option.some.injEq] at h
    subst h
    exact ⟨rfl, rfl, rfl, rfl, rfl, updateRocketsLoop_forall₂ M _ _ _ _ _ h1⟩

theorem updateRockets_isSome (M : MathFns α) (s : GameState α σ)
    (hb : ∀ rocket ∈ s.rockets, rocket.brain ≠ none) :
    ∃ s', updateRockets M s = some s' := by
  obtain ⟨rs, b, h⟩ := updateRocketsLoop_isSome M s.collectionTarget s.rockets s.bestFitness hb
  exact ⟨{ s with rockets := rs, bestFitness := b }, by simp [updateRockets, h]⟩

theorem updateRockets_getElem? (M : MathFns α) (s s' : GameState α σ)
    (h : updateRockets M s = some s') (i : Nat) (rocket : Rocket α)
    (hi : s.rockets[i]? = some rocket) :
    ∃ rocket' b b', s'.rockets[i]? = some rocket' ∧
      updateRocket M s.collectionTarget rocket b = some (rocket', b') := by
  obtain ⟨-, -, -, -, -, hall⟩ := updateRockets_spec M s s' h
  have hlen := hall.length_eq
  obtain ⟨hlt, hget⟩ := List.getElem?_eq_some_iff.mp hi
  have hlt' : i < s'.rockets.length := hlen ▸ hlt
  obtain ⟨b, b', hstep⟩ := (List.forall₂_iff_get.mp hall).2 i hlt hlt'
  refine ⟨s'.rockets[i], b, b', List.getElem?_eq_getElem hlt', ?_⟩
  simp only [List.get_eq_getElem] at hstep
  rw [← hget]
  exact hstep

theorem updateRockets_mem (M : MathFns α) (s s' : GameState α σ)
    (h : updateRockets M s = some s') (rocket' : Rocket α) (hmem : rocket' ∈ s'.rockets) :
    ∃ rocket ∈ s.rockets, ∃ b b',
      updateRocket M s.collectionTarget rocket b = some (rocket', b') := by
  obtain ⟨-, -, -, -, -, hall⟩ := updateRockets_spec M s s' h
  obtain ⟨i, hi, hget⟩ := List.getElem_of_mem hmem
  have hlt : i < s.rockets.length := hall.length_eq ▸ hi
  obtain ⟨b, b', hstep⟩ := (List.forall₂_iff_get.mp hall).2 i hlt hi
  simp only [List.get_eq_getElem] at hstep
  exact ⟨s.rockets[i], List.getElem_mem hlt, b, b', hget ▸ hstep⟩

theorem runTicks_target (M : MathFns α) :
    ∀ (n : Nat) (s s' : GameState α σ), runTicks M n s = some s' →
      s'.collectionTarget = s.collectionTarget ∧ s'.neat = s.neat ∧
      s'.generation = s.generation ∧ s'.currentFrame = s.currentFrame ∧ s'.env = s.env ∧
      s'.rockets.length = s.rockets.length := by
  intro n
  induction n with
  | zero =>
    intro s s' h
    simp only [runTicks, Option.some.injEq] at h
    subst h
    exact ⟨rfl, rfl, rfl, rfl, rfl, rfl⟩
  | succ n ih =>
    intro s s' h
    simp only [runTicks, Option.bind_eq_some] at h
    obtain ⟨s1, h1, h2⟩ := h
    obtain ⟨a1, a2, a3, a4, a5, a6⟩ := ih s s1 h1
    obtain ⟨c1, c2, c3, c4, c5, c6⟩ := updateRockets_spec M s1 s' h2
    exact ⟨c1.trans a1, c2.trans a2, c3.trans a3, c4.trans a4, c5.trans a5,
      c6.length_eq.symm.trans a6⟩

/-- Invariant rule: a property of rockets that holds at the start of a run and
is kept by the per-rocket tick holds in every state of the run. -/
theorem runTicks_invariant (M : MathFns α) (P : Target α → Rocket α → Prop)
    (hstep : ∀ (target : Target α) (rocket rocket' : Rocket α) (b b' : α),
      P target rocket → updateRocket M target rocket b = some (rocket', b') → P target rocket') :
    ∀ (n : Nat) (s s' : GameState α σ), runTicks M n s = some s' →
      (∀ rocket ∈ s.rockets, P s.collectionTarget rocket) →
      ∀ rocket ∈ s'.rockets, P s'.collectionTarget rocket := by
  intro n
  induction n with
  | zero =>
    intro s s' h hP
    simp only [runTicks, Option.some.injEq] at h
    subst h
    exact hP
  | succ n ih =>
    intro s s' h hP rocket' hmem
    simp only [runTicks, Option.bind_eq_some] at h
    obtain ⟨s1, h1, h2⟩ := h
    have hP1 := ih s s1 h1 hP
    obtain ⟨rocket, hr, b, b', hupd⟩ := updateRockets_mem M s1 s' h2 rocket' hmem
    have ht := (updateRockets_spec M s1 s' h2).1
    rw [ht]
    exact hstep _ rocket rocket' b b' (hP1 rocket hr) hupd

theorem runTicks_isSome (M : MathFns α) :
    ∀ (n : Nat) (s : GameState α σ), (∀ rocket ∈ s.rockets, rocket.brain ≠ none) →
      ∃ s', runTicks M n s = some s' ∧ ∀ rocket ∈ s'.rockets, rocket.brain ≠ none := by
  intro n
  induction n with
  | zero => intro s hb; exact ⟨s, rfl, hb⟩
  | succ n ih =>
    intro s hb
    obtain ⟨s1, h1, hb1⟩ := ih s hb
    obtain ⟨s2, h2⟩ := updateRockets_isSome M s1 hb1
    refine ⟨s2, by simp [runTicks, h1, h2], ?_⟩
    intro rocket' hmem
    obtain ⟨rocket, hr, b, b', hupd⟩ := updateRockets_mem M s1 s2 h2 rocket' hmem
    exact updateRocket_brain_ne_none M _ rocket rocket' b b' hupd (hb1 rocket hr)

theorem runTicks_inactive_getElem? (M : MathFns α) :
    ∀ (n : Nat) (s s' : GameState α σ), runTicks M n s = some s' →
      ∀ (i : Nat) (rocket : Rocket α), s.rockets[i]? = some rocket → rocket.active = false →
        s'.rockets[i]? = some rocket := by
  intro n
  induction n with
  | zero =>
    intro s s' h i rocket hi _
    simp only [runTicks, Option.some.injEq] at h
    subst h
    exact hi
  | succ n ih =>
    intro s s' h i rocket hi hin
    simp only [runTicks, Option.bind_eq_some] at h
    obtain ⟨s1, h1, h2⟩ := h
    have hi1 := ih s s1 h1 i rocket hi hin
    obtain ⟨rocket', b, b', hget, hupd⟩ := updateRockets_getElem? M s1 s' h2 i rocket hi1
    rw [updateRocket_inactive M _ rocket b hin] at hupd
    simp only [Option.some.injEq, Prod.mk.injEq] at hupd
    rw [hget, hupd.1]

end Loop

section Invariants

variable {α : Type} [LinearOrderedField α] [FloorRing α] {σ : Type}

/-! ## Inactive rockets -/

theorem updateRockets_inactive_getElem? (M : MathFns α) (s s' : GameState α σ)
    (h : updateRockets M s = some s') (i : Nat) (rocket : Rocket α)
    (hi : s.rockets[i]? = some rocket) (hin : rocket.active = false) :
    s'.rockets[i]? = some rocket := by
  obtain ⟨rocket', b, b', hget, hupd⟩ := updateRockets_getElem? M s s' h i rocket hi
  rw [updateRocket_inactive M _ rocket b hin] at hupd
  simp only [Option.some.injEq, Prod.mk.injEq] at hupd
  rw [hget, hupd.1]

/-- C9. `updateRockets` returns every rocket that is inactive before the tick
unchanged, field for field (the copy of its brain, hence the brain's score,
included), and so does every run of ticks: an inactive rocket never becomes
active again and its lifetime and fitness keep the values they had when it was
deactivated. -/
theorem inactive_rocket_unchanged (M : MathFns α) :
    (∀ (s s' : GameState α σ), updateRockets M s = some s' →
      ∀ (i : Nat) (rocket : Rocket α), s.rockets[i]? = some rocket → rocket.active = false →
        s'.rockets[i]? = some rocket)
    ∧ (∀ (n : Nat) (s s' : GameState α σ), runTicks M n s = some s' →
      ∀ (i : Nat) (rocket : Rocket α), s.rockets[i]? = some rocket → rocket.active = false →
        s'.rockets[i]? = some rocket) :=
  ⟨fun s s' h i rocket hi hin => updateRockets_inactive_getElem? M s s' h i rocket hi hin,
   runTicks_inactive_getElem? M⟩

/-- The invariant behind C1: the box is no larger than the playfield, and an
inactive rocket is inside the playfield and either has zero velocity or is on
the target. -/
theorem updateRocket_inactive_invariant (M : MathFns α) (target : Target α)
    (rocket rocket' : Rocket α) (b b' : α)
    (hinv : rocket.width ≤ CANVAS_WIDTH ∧ rocket.height ≤ CANVAS_HEIGHT ∧
      (rocket.active = false → InBounds rocket ∧
        ((rocket.speedX = 0 ∧ rocket.speedY = 0) ∨
          checkCollision M.sqrt rocket target = true)))
    (h : updateRocket M target rocket b = some (rocket', b')) :
    rocket'.width ≤ CANVAS_WIDTH ∧ rocket'.height ≤ CANVAS_HEIGHT ∧
      (rocket'.active = false → InBounds rocket' ∧
        ((rocket'.speedX = 0 ∧ rocket'.speedY = 0) ∨
          checkCollision M.sqrt rocket' target = true)) := by
  obtain ⟨hw, hh, hinact⟩ := hinv
  cases hact : rocket.active with
  | false =>
    rw [updateRocket_inactive M target rocket b hact] at h
    simp only [Option.some.injEq, Prod.mk.injEq] at h
    rw [← h.1]
    exact ⟨hw, hh, hinact⟩
  | true =>
    cases hbr : rocket.brain with
    | none =>
      rw [updateRocket_no_brain M target rocket b hact hbr] at h
      exact absurd h (by simp)
    | some g =>
      obtain ⟨r1, b1, h1, hx, hy, hsx, hsy, -, -, -, hw1, hh1, -, -, -, -, hact1⟩ :=
        updateRocket_active M target rocket b g hact hbr
      rw [h1] at h
      simp only [Option.some.injEq, Prod.mk.injEq] at h
      obtain ⟨rfl, -⟩ := h
      obtain ⟨fw, fh, -⟩ := afterPhysics_frame M target rocket g
      have hw' : r1.width ≤ CANVAS_WIDTH := by rw [hw1, fw]; exact hw
      have hh' : r1.height ≤ CANVAS_HEIGHT := by rw [hh1, fh]; exact hh
      refine ⟨hw', hh', fun hoff => ?_⟩
      have hcc : checkCollision M.sqrt r1 target
          = checkCollision M.sqrt (afterPhysics M target rocket g) target :=
        checkCollision_congr M.sqrt _ _ target hx hy hw1 hh1
      have hb : InBounds (afterPhysics M target rocket g) := by
        have hk := keepRocketInBounds_frame (updatePosition (applyNetworkOutputs M
          { rocket with lifetime := rocket.lifetime + 1 }
          (g.activate (calculateNeuralInputs M target
            { rocket with lifetime := rocket.lifetime + 1 }))))
        apply keepRocketInBounds_inBounds
        · have := fw; simp only [afterPhysics] at this; rw [hk.1] at this; rw [this]; exact hw
        · have := fh; simp only [afterPhysics] at this; rw [hk.2.1] at this; rw [this]; exact hh
      constructor
      · unfold InBounds at hb ⊢
        rw [hx, hy, hw1, hh1]
        exact hb
      · rw [hact1] at hoff
        simp only [Bool.and_eq_false_imp, Bool.not_eq_eq_eq_not, Bool.not_false] at hoff
        by_cases hc : checkCollision M.sqrt (afterPhysics M target rocket g) target = true
        · right
          rw [hcc]
          exact hc
        · left
          have hoff' : (afterPhysics M target rocket g).active = false := by
            cases hA : (afterPhysics M target rocket g).active with
            | false => rfl
            | true => exact absurd (hoff hA) hc
          have hcases := keepRocketInBounds_cases (updatePosition (applyNetworkOutputs M
            { rocket with lifetime := rocket.lifetime + 1 }
            (g.activate (calculateNeuralInputs M target
              { rocket with lifetime := rocket.lifetime + 1 }))))
          rcases hcases with hsame | ⟨-, h0x, h0y⟩
          · exfalso
            have hA : (afterPhysics M target rocket g).active = true := by
              simp only [afterPhysics]
              rw [hsame, (updatePosition_frame _).2.2.2.1,
                (applyNetworkOutputs_frame M _ _).2.2.2.2.2.2.1]
              exact hact
            rw [hoff'] at hA
            exact absurd hA (by simp)
          · exact ⟨hsx.trans h0x, hsy.trans h0y⟩

/-- C1 (amended). In every state reached from `createRockets` by `updateRockets`
ticks, every inactive rocket lies inside the playfield, and has zero velocity
unless it is on the target (the collision test holds for it): a rocket
deactivated by leaving the bounds is clamped and stopped, a rocket deactivated
by reaching the target keeps the velocity of that tick. -/
theorem inactive_rocket_in_bounds (M : MathFns α) (population : List (Option (Genome α)))
    (n : Nat) (s0 s : GameState α σ) (hstart : s0.rockets = createRockets population)
    (hrun : runTicks M n s0 = some s) (rocket : Rocket α) (hmem : rocket ∈ s.rockets)
    (hinactive : rocket.active = false) :
    InBounds rocket ∧
      ((rocket.speedX = 0 ∧ rocket.speedY = 0) ∨
        checkCollision M.sqrt rocket s.collectionTarget = true) := by
  have hinv := runTicks_invariant M
    (fun target rocket => rocket.width ≤ CANVAS_WIDTH ∧ rocket.height ≤ CANVAS_HEIGHT ∧
      (rocket.active = false → InBounds rocket ∧
        ((rocket.speedX = 0 ∧ rocket.speedY = 0) ∨
          checkCollision M.sqrt rocket target = true)))
    (fun target rocket rocket' b b' hP hupd =>
      updateRocket_inactive_invariant M target rocket rocket' b b' hP hupd)
    n s0 s hrun
    (by
      intro r hr
      rw [hstart] at hr
      obtain ⟨-, -, -, -, -, -, hw, hh, -, -, hact, -⟩ := createRockets_mem population r hr
      refine ⟨?_, ?_, fun hoff => ?_⟩
      · rw [hw]; simp only [CANVAS_WIDTH]; norm_num
      · rw [hh]; simp only [CANVAS_HEIGHT]; norm_num
      · rw [hact] at hoff
        exact absurd hoff (by simp))
    rocket hmem
  exact hinv.2.2 hinactive

end Invariants

section Evolution

variable {α : Type} {σ : Type}

/-! ## Assembling the next population (`evolve`) -/

theorem elitismLoop_length (population : List (Option (Genome α))) (elitism : Nat) :
    (elitismLoop population elitism).length = elitism := by
  simp [elitismLoop]

theorem breedLoop_length (E : External α σ) (population : List (Option (Genome α))) :
    ∀ (count : Nat) (newPopulation : List (Option (Genome α))) (env : σ),
      (breedLoop E population count newPopulation env).1.length
        = newPopulation.length + count := by
  intro count
  induction count with
  | zero => intro newPopulation env; rfl
  | succ count ih =>
    intro newPopulation env
    simp only [breedLoop]
    rw [ih]
    simp only [List.length_append, List.length_singleton]
    omega

/-- C3 (amended). The population assembled by `evolve` has length
`max(popsize, elitism)`: exactly `popsize` whenever `elitism <= popsize`
(`elitism = 0` included), and `elitism` when `elitism > popsize`. -/
theorem assemblePopulation_length (E : External α σ) (neat : Neat α) (env : σ) :
    (assemblePopulation E neat env).1.length = max neat.popsize neat.elitism
    ∧ (neat.elitism ≤ neat.popsize → (assemblePopulation E neat env).1.length = neat.popsize) := by
  have h : (assemblePopulation E neat env).1.length
      = neat.elitism + (neat.popsize - neat.elitism) := by
    simp only [assemblePopulation]
    rw [breedLoop_length, elitismLoop_length]
  constructor
  · rw [h]; omega
  · intro hle
    rw [h]; omega

variable [LinearOrderedField α]

theorem evolve_eq_some (E : External α σ) (s : GameState α σ)
    (hne : s.rockets ≠ []) (hb : ∀ rocket ∈ s.rockets, rocket.brain ≠ none) :
    ∃ s', evolve E s = some s' ∧ s'.generation = s.generation + 1 ∧ s'.currentFrame = 0 ∧
      s'.bestFitness = 0 ∧ s'.rockets = createRockets s'.neat.population ∧
      s'.neat.population
        = (E.mutate (assemblePopulation E
            { s.neat with population := E.sort (s.rockets.map (fun rocket => rocket.brain)) }
            s.env).1
          (assemblePopulation E
            { s.neat with population := E.sort (s.rockets.map (fun rocket => rocket.brain)) }
            s.env).2).1 := by
  have h1 : s.rockets.isEmpty = false := by
    cases hr : s.rockets with
    | nil => exact absurd hr hne
    | cons a l => rfl
  have h2 : s.rockets.any (fun rocket => rocket.brain.isNone) = false := by
    rw [List.any_eq_false]
    intro r hr
    have := hb r hr
    cases hbr : r.brain with
    | none => exact absurd hbr this
    | some g => simp
  simp only [evolve, h1, h2, Bool.or_self, Bool.false_eq_true, if_false]
  exact ⟨_, rfl, rfl, rfl, rfl, rfl, rfl⟩

theorem evolve_currentFrame (E : External α σ) (s s' : GameState α σ)
    (h : evolve E s = some s') : s'.currentFrame = 0 ∧ s'.generation = s.generation + 1 := by
  unfold evolve at h
  split at h
  · exact absurd h (by simp)
  · simp only [Option.some.injEq] at h
    subst h
    exact ⟨rfl, rfl⟩

end Evolution

section Generation

variable {α : Type} [LinearOrderedField α] [FloorRing α] {σ : Type}

/-! ## The generation loop (`gameLoop`) -/

theorem updateRockets_currentFrame (M : MathFns α) (s : GameState α σ) (k : Nat) :
    updateRockets M { s with currentFrame := k }
      = (updateRockets M s).map (fun s' => { s' with currentFrame := k }) := by
  unfold updateRockets
  cases updateRocketsLoop M s.collectionTarget s.rockets s.bestFitness with
  | none => rfl
  | some p => rfl

theorem gameLoop_evolve (M : MathFns α) (E : External α σ) (s : GameState α σ)
    (h : LIFESPAN ≤ s.currentFrame ∨ allRocketsInactive s.rockets = true) :
    gameLoop M E s = evolve E s := by
  unfold gameLoop
  rw [if_pos]
  rcases h with h | h
  · simp [h]
  · simp [h]

theorem gameLoop_tick (M : MathFns α) (E : External α σ) (s : GameState α σ)
    (h1 : s.currentFrame < LIFESPAN) (h2 : allRocketsInactive s.rockets = false) :
    gameLoop M E s
      = (updateRockets M s).map (fun s' => { s' with currentFrame := s.currentFrame + 1 }) := by
  unfold gameLoop
  rw [if_neg (by simp [h2, Nat.not_le.mpr h1])]
  cases hu : updateRockets M s with
  | none => rfl
  | some s' =>
    have := (updateRockets_spec M s s' hu).2.2.2.1
    simp [this]

theorem gameLoop_currentFrame_le (M : MathFns α) (E : External α σ) (s s' : GameState α σ)
    (h : gameLoop M E s = some s') : s'.currentFrame ≤ LIFESPAN := by
  by_cases hc : LIFESPAN ≤ s.currentFrame ∨ allRocketsInactive s.rockets = true
  · rw [gameLoop_evolve M E s hc] at h
    rw [(evolve_currentFrame E s s' h).1]
    exact Nat.zero_le _
  · simp only [not_or, not_le, Bool.not_eq_true] at hc
    rw [gameLoop_tick M E s hc.1 hc.2] at h
    simp only [Option.map_eq_some'] at h
    obtain ⟨s1, -, rfl⟩ := h
    exact hc.1

theorem runFrames_currentFrame_le (M : MathFns α) (E : External α σ) :
    ∀ (m : Nat) (s s' : GameState α σ), runFrames M E m s = some s' →
      s.currentFrame ≤ LIFESPAN → s'.currentFrame ≤ LIFESPAN := by
  intro m
  cases m with
  | zero =>
    intro s s' h hle
    simp only [runFrames, Option.some.injEq] at h
    subst h
    exact hle
  | succ m =>
    intro s s' h _
    simp only [runFrames, Option.bind_eq_some] at h
    obtain ⟨s1, -, h2⟩ := h
    exact gameLoop_currentFrame_le M E s1 s' h2

theorem runFrames_of_runTicks (M : MathFns α) (E : External α σ) (s0 : GameState α σ)
    (h0 : s0.currentFrame = 0) :
    ∀ (n : Nat), n ≤ LIFESPAN →
      (∀ j < n, ∀ sj, runTicks M j s0 = some sj → allRocketsInactive sj.rockets = false) →
      ∀ sn, runTicks M n s0 = some sn →
        runFrames M E n s0 = some { sn with currentFrame := n } := by
  intro n
  induction n with
  | zero =>
    intro _ _ sn h
    simp only [runTicks, Option.some.injEq] at h
    subst h
    simp only [runFrames, ← h0]
  | succ n ih =>
    intro hn hact sn h
    simp only [runTicks, Option.bind_eq_some] at h
    obtain ⟨s1, h1, h2⟩ := h
    have hprev := ih (Nat.le_of_succ_le hn)
      (fun j hj sj hsj => hact j (Nat.lt_succ_of_lt hj) sj hsj) s1 h1
    have hgo := hact n (Nat.lt_succ_self n) s1 h1
    simp only [runFrames, hprev, Option.some_bind]
    rw [gameLoop_tick M E _ (by simpa using hn) (by simpa using hgo)]
    rw [updateRockets_currentFrame, h2]
    rfl

/-- C5. Start a generation at `currentFrame = 0` and let `n <= LIFESPAN` be a
number of ticks such that some rocket is still active after each of the first
`j < n` ticks.  Then the first `n` frames of `gameLoop` are exactly `n` ticks of
`updateRockets` with `currentFrame` counting them (the generation counter is
untouched); frame `n + 1` is one more tick if `n < LIFESPAN` and a rocket is
still active, and is `evolve` on the state after those `n` ticks, with no tick,
as soon as `n = LIFESPAN` or every rocket is inactive; with a non-empty rocket
list whose brains are defined that `evolve` succeeds, increments the generation
and resets the frame.  `currentFrame` never exceeds `LIFESPAN`. -/
theorem generation_ends_after_min_ticks (M : MathFns α) (E : External α σ)
    (s0 : GameState α σ) (h0 : s0.currentFrame = 0) (n : Nat) (hn : n ≤ LIFESPAN)
    (hactive : ∀ j < n, ∀ sj, runTicks M j s0 = some sj →
      allRocketsInactive sj.rockets = false)
    (sn : GameState α σ) (hrun : runTicks M n s0 = some sn) :
    runFrames M E n s0 = some { sn with currentFrame := n }
    ∧ sn.generation = s0.generation
    ∧ (n < LIFESPAN → allRocketsInactive sn.rockets = false →
        runFrames M E (n + 1) s0
          = (updateRockets M sn).map (fun s => { s with currentFrame := n + 1 }))
    ∧ (n = LIFESPAN ∨ allRocketsInactive sn.rockets = true →
        runFrames M E (n + 1) s0 = evolve E { sn with currentFrame := n })
    ∧ (n = LIFESPAN ∨ allRocketsInactive sn.rockets = true →
        sn.rockets ≠ [] → (∀ rocket ∈ sn.rockets, rocket.brain ≠ none) →
        ∃ s', runFrames M E (n + 1) s0 = some s' ∧ s'.generation = s0.generation + 1 ∧
          s'.currentFrame = 0)
    ∧ (∀ (m : Nat) (s : GameState α σ), runFrames M E m s0 = some s →
        s.currentFrame ≤ LIFESPAN) := by
  have hframes := runFrames_of_runTicks M E s0 h0 n hn hactive sn hrun
  have hgen := (runTicks_target M n s0 sn hrun).2.2.1
  have hstop : n = LIFESPAN ∨ allRocketsInactive sn.rockets = true →
      runFrames M E (n + 1) s0 = evolve E { sn with currentFrame := n } := by
    intro hend
    simp only [runFrames, hframes, Option.some_bind]
    apply gameLoop_evolve
    rcases hend with h | h
    · left; exact le_of_eq h.symm
    · right; exact h
  refine ⟨hframes, hgen, ?_, hstop, ?_, ?_⟩
  · intro hlt hgo
    simp only [runFrames, hframes, Option.some_bind]
    rw [gameLoop_tick M E _ (by simpa using hlt) (by simpa using hgo)]
    rw [updateRockets_currentFrame]
    cases updateRockets M sn with
    | none => rfl
    | some s => rfl
  · intro hend hne hb
    rw [hstop hend]
    obtain ⟨s', h1, h2, h3, -⟩ := evolve_eq_some E { sn with currentFrame := n } hne hb
    exact ⟨s', h1, by rw [h2]; exact congrArg (· + 1) hgen, h3⟩
  · intro m s hm
    exact runFrames_currentFrame_le M E m s0 s hm (by rw [h0]; exact Nat.zero_le _)

end Generation

section Thrust

variable {α : Type} [LinearOrderedField α]

/-! ## Straight ascent: a policy that always answers `[1, 0, 0]` -/

theorem updatePosition_fields (rocket : Rocket α) :
    (updatePosition rocket).speedX = rocket.speedX * DRAG ∧
    (updatePosition rocket).speedY = rocket.speedY + GRAVITY ∧
    (updatePosition rocket).x = rocket.x + rocket.speedX * DRAG ∧
    (updatePosition rocket).y = rocket.y + (rocket.speedY + GRAVITY) := by
  simp [updatePosition]

theorem physics_thrust (M : MathFns α) (hsin : M.sin 0 = 0) (hcos : M.cos 0 = 1)
    (rocket : Rocket α) (outputs : List (JsNum α))
    (ho0 : gtHalf outputs[0]? = true) (ho1 : gtHalf outputs[1]? = false)
    (ho2 : gtHalf outputs[2]? = false)
    (hangle : rocket.angle = 0) (hsx : rocket.speedX = 0)
    (hx0 : 0 ≤ rocket.x) (hx1 : rocket.x ≤ CANVAS_WIDTH - rocket.width)
    (hy0 : 0 ≤ rocket.y + rocket.speedY - 1 / 20)
    (hy1 : rocket.y + rocket.speedY - 1 / 20 ≤ CANVAS_HEIGHT - rocket.height) :
    (keepRocketInBounds (updatePosition (applyNetworkOutputs M rocket outputs))).x = rocket.x ∧
    (keepRocketInBounds (updatePosition (applyNetworkOutputs M rocket outputs))).y
      = rocket.y + rocket.speedY - 1 / 20 ∧
    (keepRocketInBounds (updatePosition (applyNetworkOutputs M rocket outputs))).speedX = 0 ∧
    (keepRocketInBounds (updatePosition (applyNetworkOutputs M rocket outputs))).speedY
      = rocket.speedY - 1 / 20 ∧
    (keepRocketInBounds (updatePosition (applyNetworkOutputs M rocket outputs))).angle = 0 ∧
    (keepRocketInBounds (updatePosition (applyNetworkOutputs M rocket outputs))).active
      = rocket.active := by
  have hfr := applyNetworkOutputs_frame M rocket outputs
  have hSX := applyNetworkOutputs_speedX M rocket outputs
  have hSY := applyNetworkOutputs_speedY M rocket outputs
  have hA := applyNetworkOutputs_angle M rocket outputs
  rw [ho0, if_pos rfl, hangle, hsx, hsin, mul_zero, add_zero] at hSX
  rw [ho0, if_pos rfl, hangle, hcos, mul_one] at hSY
  rw [ho1, ho2, if_neg (by simp), if_neg (by simp), hangle] at hA
  have hUP := updatePosition_fields (applyNetworkOutputs M rocket outputs)
  have hUF := updatePosition_frame (applyNetworkOutputs M rocket outputs)
  rw [hSX, hSY, hfr.1, hfr.2.1] at hUP
  simp only [zero_mul, add_zero] at hUP
  have hg : rocket.speedY - THRUST + GRAVITY = rocket.speedY - 1 / 20 := by
    simp only [THRUST, GRAVITY]; ring
  rw [hg] at hUP
  have hyy : rocket.y + (rocket.speedY - 1 / 20) = rocket.y + rocket.speedY - 1 / 20 := by ring
  have hin : InBounds (updatePosition (applyNetworkOutputs M rocket outputs)) := by
    unfold InBounds
    rw [hUP.2.2.1, hUP.2.2.2, hUF.1, hUF.2.1, hfr.2.2.1, hfr.2.2.2.1, hyy]
    exact ⟨hx0, hx1, hy0, hy1⟩
  rw [keepRocketInBounds_of_inBounds _ hin]
  refine ⟨hUP.2.2.1, ?_, hUP.1, hUP.2.1, ?_, ?_⟩
  · rw [hUP.2.2.2]; ring
  · rw [hUF.2.2.2.2.2, hA]
  · rw [hUF.2.2.2.1, hfr.2.2.2.2.2.2.1]

variable [FloorRing α] {σ : Type}

/-- One tick of an upright rocket with no sideways speed under a policy whose
outputs always compare as `true, false, false`: it stays upright, keeps its
`x`, and gains `THRUST - GRAVITY = 1/20` of upward speed, provided the new
position is inside the playfield. -/
theorem afterPhysics_thrust (M : MathFns α) (hsin : M.sin 0 = 0) (hcos : M.cos 0 = 1)
    (target : Target α) (rocket : Rocket α) (brain : Genome α)
    (hout : ∀ inputs, gtHalf (brain.activate inputs)[0]? = true ∧
      gtHalf (brain.activate inputs)[1]? = false ∧ gtHalf (brain.activate inputs)[2]? = false)
    (hangle : rocket.angle = 0) (hsx : rocket.speedX = 0)
    (hx0 : 0 ≤ rocket.x) (hx1 : rocket.x ≤ CANVAS_WIDTH - rocket.width)
    (hy0 : 0 ≤ rocket.y + rocket.speedY - 1 / 20)
    (hy1 : rocket.y + rocket.speedY - 1 / 20 ≤ CANVAS_HEIGHT - rocket.height) :
    (afterPhysics M target rocket brain).x = rocket.x ∧
    (afterPhysics M target rocket brain).y = rocket.y + rocket.speedY - 1 / 20 ∧
    (afterPhysics M target rocket brain).speedX = 0 ∧
    (afterPhysics M target rocket brain).speedY = rocket.speedY - 1 / 20 ∧
    (afterPhysics M target rocket brain).angle = 0 ∧
    (afterPhysics M target rocket brain).active = rocket.active := by
  obtain ⟨ho0, ho1, ho2⟩ := hout (calculateNeuralInputs M target
    { rocket with lifetime := rocket.lifetime + 1 })
  exact physics_thrust M hsin hcos { rocket with lifetime := rocket.lifetime + 1 } _
    ho0 ho1 ho2 hangle hsx hx0 hx1 hy0 hy1

end Thrust

section Trajectory

variable {α : Type} [LinearOrderedField α] [FloorRing α] {σ : Type}

/-- Closed form of the straight ascent.  A rocket in the `createRockets` start
state whose policy always answers thrust-only climbs along
`y = 780 - n (n + 1) / 40` with `speedY = -n / 20` for as long as it has not
reached the target, up to tick 176. -/
theorem thrust_trajectory (M : MathFns α) (hsin : M.sin 0 = 0) (hcos : M.cos 0 = 1)
    (s0 : GameState α σ) (i : Nat) (r0 : Rocket α) (brain : Genome α)
    (hi : s0.rockets[i]? = some r0)
    (hr0 : r0.x = 960 ∧ r0.y = 780 ∧ r0.speedX = 0 ∧ r0.speedY = 0 ∧ r0.angle = 0 ∧
      r0.width = 450 ∧ r0.height = 280 ∧ r0.active = true ∧ r0.lifetime = 0)
    (hb : r0.brain = some brain)
    (hout : ∀ inputs, gtHalf (brain.activate inputs)[0]? = true ∧
      gtHalf (brain.activate inputs)[1]? = false ∧ gtHalf (brain.activate inputs)[2]? = false) :
    ∀ (n : Nat), n ≤ 176 →
      (∀ j : Nat, 1 ≤ j → j ≤ n → ∀ r : Rocket α, r.x = 960 →
        r.y = 780 - (j : α) * ((j : α) + 1) / 40 → r.width = 450 → r.height = 280 →
        checkCollision M.sqrt r s0.collectionTarget = false) →
      ∀ s, runTicks M n s0 = some s →
        ∃ r g, s.rockets[i]? = some r ∧ r.x = 960 ∧
          r.y = 780 - (n : α) * ((n : α) + 1) / 40 ∧ r.speedX = 0 ∧
          r.speedY = -((n : α) / 20) ∧ r.angle = 0 ∧ r.width = 450 ∧ r.height = 280 ∧
          r.active = true ∧ r.lifetime = n ∧ r.brain = some g ∧
          g.activate = brain.activate := by
  intro n
  induction n with
  | zero =>
    intro _ _ s hs
    simp only [runTicks, Option.some.injEq] at hs
    subst hs
    obtain ⟨h1, h2, h3, h4, h5, h6, h7, h8, h9⟩ := hr0
    refine ⟨r0, brain, hi, h1, ?_, h3, ?_, h5, h6, h7, h8, h9, hb, rfl⟩
    · rw [h2]; simp
    · rw [h4]; simp
  | succ n ih =>
    intro hn hno s hs
    simp only [runTicks, Option.bind_eq_some] at hs
    obtain ⟨s1, hs1, hs2⟩ := hs
    obtain ⟨r, g, hget, hx, hy, hsx, hsy, hang, hw, hh, hact, hlife, hbr, hg⟩ :=
      ih (Nat.le_of_succ_le hn) (fun j h1 h2 => hno j h1 (Nat.le_succ_of_le h2)) s1 hs1
    have ht : s1.collectionTarget = s0.collectionTarget := (runTicks_target M n s0 s1 hs1).1
    obtain ⟨r', b, b', hget', hupd⟩ := updateRockets_getElem? M s1 s hs2 i r hget
    obtain ⟨r2, b2, hupd2, fx, fy, fsx, fsy, fang, -, -, fw, fh, fl, -, fbr, -, fact⟩ :=
      updateRocket_active M s1.collectionTarget r b g hact hbr
    rw [hupd2] at hupd
    simp only [Option.some.injEq, Prod.mk.injEq] at hupd
    obtain ⟨rfl, -⟩ := hupd
    have hcast : ((n + 1 : Nat) : α) = (n : α) + 1 := by push_cast; ring
    have hn' : (n : α) + 1 ≤ 176 := by
      rw [← hcast]; exact_mod_cast hn
    have hn0 : (0 : α) ≤ (n : α) := Nat.cast_nonneg n
    have hynew : r.y + r.speedY - 1 / 20 = 780 - ((n : α) + 1) * ((n : α) + 1 + 1) / 40 := by
      rw [hy, hsy]; ring
    have hprod0 : 0 ≤ ((n : α) + 1) * ((n : α) + 1 + 1) := by positivity
    have hprod1 : ((n : α) + 1) * ((n : α) + 1 + 1) ≤ 176 * 177 :=
      mul_le_mul hn' (by linarith) (by linarith) (by norm_num)
    obtain ⟨px, py, psx, psy, pang, pact⟩ := afterPhysics_thrust M hsin hcos s1.collectionTarget
      r g (by intro inputs; rw [hg]; exact hout inputs) hang hsx
      (by rw [hx]; norm_num)
      (by rw [hx, hw]; simp only [CANVAS_WIDTH]; norm_num)
      (by rw [hynew]; linarith)
      (by rw [hynew, hh]; simp only [CANVAS_HEIGHT]; linarith)
    obtain ⟨qw, qh, ql⟩ := afterPhysics_frame M s1.collectionTarget r g
    have hnocol : checkCollision M.sqrt (afterPhysics M s1.collectionTarget r g)
        s1.collectionTarget = false := by
      have hfree := hno (n + 1) (Nat.succ_le_succ (Nat.zero_le n)) (Nat.le_refl _)
        (afterPhysics M s1.collectionTarget r g) (by rw [px, hx]) (by rw [py, hynew, hcast])
        (by rw [qw, hw]) (by rw [qh, hh])
      rw [← ht] at hfree
      exact hfree
    refine ⟨r2, ⟨g.activate, some r2.fitness⟩, hget', ?_, ?_, ?_, ?_, ?_, ?_, ?_, ?_, ?_, fbr, hg⟩
    · rw [fx, px, hx]
    · rw [fy, py, hynew, hcast]
    · rw [fsx, psx]
    · rw [fsy, psy, hsy, hcast]; ring
    · rw [fang, pang]
    · rw [fw, qw, hw]
    · rw [fh, qh, hh]
    · rw [fact, pact, hact, hnocol]; rfl
    · rw [fl, ql, hlife]

end Trajectory

section Coast

variable {α : Type} [LinearOrderedField α]

/-- One tick of the physics under outputs whose three comparisons are all
false (no thrust, no rotation), when the new position is inside the playfield. -/
theorem physics_coast (M : MathFns α) (rocket : Rocket α) (outputs : List (JsNum α))
    (ho0 : gtHalf outputs[0]? = false) (ho1 : gtHalf outputs[1]? = false)
    (ho2 : gtHalf outputs[2]? = false)
    (hx0 : 0 ≤ rocket.x + rocket.speedX * DRAG)
    (hx1 : rocket.x + rocket.speedX * DRAG ≤ CANVAS_WIDTH - rocket.width)
    (hy0 : 0 ≤ rocket.y + (rocket.speedY + GRAVITY))
    (hy1 : rocket.y + (rocket.speedY + GRAVITY) ≤ CANVAS_HEIGHT - rocket.height) :
    (keepRocketInBounds (updatePosition (applyNetworkOutputs M rocket outputs))).x
      = rocket.x + rocket.speedX * DRAG ∧
    (keepRocketInBounds (updatePosition (applyNetworkOutputs M rocket outputs))).y
      = rocket.y + (rocket.speedY + GRAVITY) ∧
    (keepRocketInBounds (updatePosition (applyNetworkOutputs M rocket outputs))).speedX
      = rocket.speedX * DRAG ∧
    (keepRocketInBounds (updatePosition (applyNetworkOutputs M rocket outputs))).speedY
      = rocket.speedY + GRAVITY ∧
    (keepRocketInBounds (updatePosition (applyNetworkOutputs M rocket outputs))).angle
      = rocket.angle ∧
    (keepRocketInBounds (updatePosition (applyNetworkOutputs M rocket outputs))).active
      = rocket.active := by
  have hfr := applyNetworkOutputs_frame M rocket outputs
  have hSX := applyNetworkOutputs_speedX M rocket outputs
  have hSY := applyNetworkOutputs_speedY M rocket outputs
  have hA := applyNetworkOutputs_angle M rocket outputs
  rw [ho0, if_neg (by simp)] at hSX hSY
  rw [ho1, ho2, if_neg (by simp), if_neg (by simp)] at hA
  have hUP := updatePosition_fields (applyNetworkOutputs M rocket outputs)
  have hUF := updatePosition_frame (applyNetworkOutputs M rocket outputs)
  rw [hSX, hSY, hfr.1, hfr.2.1] at hUP
  have hin : InBounds (updatePosition (applyNetworkOutputs M rocket outputs)) := by
    unfold InBounds
    rw [hUP.2.2.1, hUP.2.2.2, hUF.1, hUF.2.1, hfr.2.2.1, hfr.2.2.2.1]
    exact ⟨hx0, hx1, hy0, hy1⟩
  rw [keepRocketInBounds_of_inBounds _ hin]
  refine ⟨hUP.2.2.1, hUP.2.2.2, hUP.1, hUP.2.1, ?_, ?_⟩
  · rw [hUF.2.2.2.2.2, hA]
  · rw [hUF.2.2.2.1, hfr.2.2.2.2.2.2.1]

end Coast

section Malformed

variable {α : Type} [LinearOrderedField α]

/-! ## Output vectors are read through three comparisons only -/

theorem applyNetworkOutputs_congr (M : MathFns α) (rocket : Rocket α)
    (outputs outputs' : List (JsNum α))
    (h0 : gtHalf outputs[0]? = gtHalf outputs'[0]?)
    (h1 : gtHalf outputs[1]? = gtHalf outputs'[1]?)
    (h2 : gtHalf outputs[2]? = gtHalf outputs'[2]?) :
    applyNetworkOutputs M rocket outputs = applyNetworkOutputs M rocket outputs' := by
  unfold applyNetworkOutputs
  rw [h0, h1, h2]

theorem gtHalf_comparisons (outputs : List (JsNum α)) :
    gtHalf (comparisons outputs)[0]? = gtHalf outputs[0]? ∧
    gtHalf (comparisons outputs)[1]? = gtHalf outputs[1]? ∧
    gtHalf (comparisons outputs)[2]? = gtHalf outputs[2]? := by
  have key : ∀ b : Bool, gtHalf (some (JsNum.num (if b then (1 : α) else 0))) = b := by
    intro b
    cases b
    · simp only [gtHalf, Bool.false_eq_true, if_false, decide_eq_false_iff_not, not_lt]
      norm_num
    · simp only [gtHalf, if_true, decide_eq_true_eq]
      norm_num
  refine ⟨?_, ?_, ?_⟩
  · exact key _
  · exact key _
  · exact key _

theorem keepRocketInBounds_active_iff (rocket : Rocket α) :
    (keepRocketInBounds rocket).active = true ↔ rocket.active = true ∧ InBounds rocket := by
  unfold keepRocketInBounds InBounds
  split
  · rename_i h
    simp only [Bool.false_eq_true, false_iff]
    rintro ⟨-, hin1, hin2, hin3, hin4⟩
    rcases h with h | h | h | h
    · exact absurd hin1 (not_le.mpr h)
    · exact absurd hin2 (not_le.mpr h)
    · exact absurd hin3 (not_le.mpr h)
    · exact absurd hin4 (not_le.mpr h)
  · rename_i h
    simp only [not_or, not_lt, gt_iff_lt] at h
    constructor
    · intro ha; exact ⟨ha, h.1, h.2.1, h.2.2.1, h.2.2.2⟩
    · intro ha; exact ha.1

variable [FloorRing α]

theorem malformed_outputs_frame (M : MathFns α) (target : Target α)
    (rocket : Rocket α) (bestFitness : α) (brain : Genome α)
    (hactive : rocket.active = true) (hbrain : rocket.brain = some brain) :
    (∀ outputs : List (JsNum α),
      applyNetworkOutputs M rocket outputs = applyNetworkOutputs M rocket (comparisons outputs))
    ∧ ∃ rocket' bestFitness',
        updateRocket M target rocket bestFitness = some (rocket', bestFitness') ∧
        (rocket'.active = true ↔
          InBounds (updatePosition (applyNetworkOutputs M
            { rocket with lifetime := rocket.lifetime + 1 }
            (comparisons (brain.activate (calculateNeuralInputs M target
              { rocket with lifetime := rocket.lifetime + 1 })))))
          ∧ checkCollision M.sqrt rocket' target = false) := by
  constructor
  · intro outputs
    obtain ⟨h0, h1, h2⟩ := gtHalf_comparisons outputs
    exact applyNetworkOutputs_congr M rocket _ _ h0.symm h1.symm h2.symm
  · obtain ⟨r1, b1, hupd, fx, fy, -, -, -, -, -, fw, fh, -, -, -, -, fact⟩ :=
      updateRocket_active M target rocket bestFitness brain hactive hbrain
    refine ⟨r1, b1, hupd, ?_⟩
    have hcc : checkCollision M.sqrt r1 target
        = checkCollision M.sqrt (afterPhysics M target rocket brain) target :=
      checkCollision_congr M.sqrt _ _ target fx fy fw fh
    obtain ⟨h0, h1, h2⟩ := gtHalf_comparisons (brain.activate (calculateNeuralInputs M target
      { rocket with lifetime := rocket.lifetime + 1 }))
    rw [← applyNetworkOutputs_congr M { rocket with lifetime := rocket.lifetime + 1 } _ _
      h0.symm h1.symm h2.symm]
    have hA : (afterPhysics M target rocket brain).active = true ↔
        InBounds (updatePosition (applyNetworkOutputs M
          { rocket with lifetime := rocket.lifetime + 1 }
          (brain.activate (calculateNeuralInputs M target
            { rocket with lifetime := rocket.lifetime + 1 })))) := by
      simp only [afterPhysics]
      rw [keepRocketInBounds_active_iff, (updatePosition_frame _).2.2.2.1,
        (applyNetworkOutputs_frame M _ _).2.2.2.2.2.2.1]
      constructor
      · intro h; exact h.2
      · intro h; exact ⟨hactive, h⟩
    rw [fact, hcc, ← hA]
    simp

/-- C4 (amended). A malformed output vector is not detected.  `updateRockets`
reads the array only through the comparisons `outputs[i] > 0.5` (false for a
missing or `NaN` component): `applyNetworkOutputs` acts exactly as on the
well-formed vector with the same three comparison results, and an active rocket
with a brain is still active after its tick if and only if the move leaves it
inside the playfield and off the target.  No component of the array is stored
in the rocket. -/
theorem malformed_outputs_not_detected (M : MathFns α) (target : Target α)
    (rocket : Rocket α) (bestFitness : α) (brain : Genome α)
    (hactive : rocket.active = true) (hbrain : rocket.brain = some brain) :
    (∀ outputs : List (JsNum α),
      applyNetworkOutputs M rocket outputs = applyNetworkOutputs M rocket (comparisons outputs))
    ∧ ∃ rocket' bestFitness',
        updateRocket M target rocket bestFitness = some (rocket', bestFitness') ∧
        (rocket'.active = true ↔
          InBounds (updatePosition (applyNetworkOutputs M
            { rocket with lifetime := rocket.lifetime + 1 }
            (comparisons (brain.activate (calculateNeuralInputs M target
              { rocket with lifetime := rocket.lifetime + 1 })))))
          ∧ checkCollision M.sqrt rocket' target = false) :=
  malformed_outputs_frame M target rocket bestFitness brain hactive hbrain

end Malformed

section RealExamples

/-! ## Worked examples over the real numbers -/

theorem checkCollision_real_false (rocket : Rocket ℝ) (target : Target ℝ)
    (hpos : 0 < (rocket.width + target.width) / 4)
    (h : ((rocket.width + target.width) / 4) ^ 2
      ≤ (target.x + target.width / 2 - (rocket.x + rocket.width / 2)) ^ 2
        + (target.y + target.height / 2 - (rocket.y + rocket.height / 2)) ^ 2) :
    checkCollision Real.sqrt rocket target = false := by
  simp only [checkCollision, decide_eq_false_iff_not, not_lt]
  exact (Real.le_sqrt' hpos).mpr h

theorem checkCollision_real_true (rocket : Rocket ℝ) (target : Target ℝ)
    (hpos : 0 < (rocket.width + target.width) / 4)
    (h : (target.x + target.width / 2 - (rocket.x + rocket.width / 2)) ^ 2
        + (target.y + target.height / 2 - (rocket.y + rocket.height / 2)) ^ 2
      < ((rocket.width + target.width) / 4) ^ 2) :
    checkCollision Real.sqrt rocket target = true := by
  simp only [checkCollision, decide_eq_true_eq]
  exact (Real.sqrt_lt' hpos).mpr h

theorem soloStart_fields (genome : Genome ℝ) (draw : ℝ) :
    (soloStart genome draw).rockets = createRockets [some genome] ∧
    (soloStart genome draw).collectionTarget = ⟨768 + draw * 284, 432 + draw * 116, 100, 100⟩ := by
  refine ⟨rfl, ?_⟩
  simp only [soloStart, resetSimulation, fixedExternal, createCollectionTarget, CANVAS_WIDTH,
    CANVAS_HEIGHT, CENTER_MARGIN]
  congr 1 <;> ring

theorem thrustGenome_outputs (inputs : List ℝ) :
    gtHalf ((thrustGenome : Genome ℝ).activate inputs)[0]? = true ∧
    gtHalf ((thrustGenome : Genome ℝ).activate inputs)[1]? = false ∧
    gtHalf ((thrustGenome : Genome ℝ).activate inputs)[2]? = false := by
  simp only [thrustGenome, constantGenome, gtHalf, List.getElem?_cons_zero,
    List.getElem?_cons_succ, decide_eq_true_eq, decide_eq_false_iff_not]
  norm_num

theorem singleton_of_getElem? {β : Type} (l : List β) (a : β) (hlen : l.length = 1)
    (h : l[0]? = some a) : l = [a] := by
  match l, hlen, h with
  | [b], _, h =>
    simp only [List.getElem?_cons_zero, Option.some.injEq] at h
    rw [h]

theorem ascent_no_hit (j : Nat) (hj : j ≤ 102) (r : Rocket ℝ) (hx : r.x = 960)
    (hy : r.y = 780 - (j : ℝ) * ((j : ℝ) + 1) / 40) (hw : r.width = 450)
    (hh : r.height = 280) :
    checkCollision Real.sqrt r (soloStart (thrustGenome : Genome ℝ) (7 / 8)).collectionTarget
      = false := by
  rw [(soloStart_fields (thrustGenome : Genome ℝ) (7 / 8)).2]
  have hj0 : (0 : ℝ) ≤ (j : ℝ) := Nat.cast_nonneg j
  have hj1 : (j : ℝ) ≤ 102 := by exact_mod_cast hj
  have hp : (j : ℝ) * ((j : ℝ) + 1) ≤ 102 * 103 :=
    mul_le_mul hj1 (by linarith) (by linarith) (by norm_num)
  apply checkCollision_real_false
  · simp only [hw]; norm_num
  · simp only [hx, hy, hw, hh]
    nlinarith

theorem ascent_start :
    (soloStart (thrustGenome : Genome ℝ) (7 / 8)).rockets[0]?
      = some ⟨CANVAS_WIDTH / 2, CANVAS_HEIGHT - 300, 0, 0, 0, 0, 450, 280, 0,
          some thrustGenome, false, true, 0⟩ := by
  rw [(soloStart_fields (thrustGenome : Genome ℝ) (7 / 8)).1]; rfl

/-- During the first 102 ticks of the straight ascent the rocket is active. -/
theorem ascent_active_before (j : Nat) (hj : j < 103) (sj : GameState ℝ Unit)
    (hrun : runTicks
      ⟨Real.sin, Real.cos, Real.exp, Real.sqrt, fun y x => Complex.arg ⟨x, y⟩, Real.pi⟩
      j (soloStart thrustGenome (7 / 8)) = some sj) :
    allRocketsInactive sj.rockets = false := by
  obtain ⟨r, g, hget, -, -, -, -, -, -, -, hact, -⟩ :=
    thrust_trajectory ⟨Real.sin, Real.cos, Real.exp, Real.sqrt, fun y x => Complex.arg ⟨x, y⟩,
      Real.pi⟩ Real.sin_zero Real.cos_zero (soloStart (thrustGenome : Genome ℝ) (7 / 8)) 0 _
      thrustGenome ascent_start
      ⟨by simp only [CANVAS_WIDTH]; norm_num, by simp only [CANVAS_HEIGHT]; norm_num,
        rfl, rfl, rfl, rfl, rfl, rfl, rfl⟩
      rfl thrustGenome_outputs j (by omega)
      (fun k _ hk r hx hy hw hh => ascent_no_hit k (by omega) r hx hy hw hh) sj hrun
  simp only [allRocketsInactive, List.all_eq_false]
  exact ⟨r, List.getElem?_mem hget, by simp [hact]⟩

/-- The straight ascent towards the target drawn with both draws `7/8`: the
rocket reaches the target on tick 103 and is deactivated there with the
velocity of that tick. -/
theorem ascent_reaches_target :
    ∃ (s : GameState ℝ Unit) (rocket : Rocket ℝ),
      runTicks ⟨Real.sin, Real.cos, Real.exp, Real.sqrt, fun y x => Complex.arg ⟨x, y⟩, Real.pi⟩
        103 (soloStart thrustGenome (7 / 8)) = some s ∧
      s.rockets = [rocket] ∧ rocket.active = false ∧ rocket.speedX = 0 ∧
      rocket.speedY = -(103 / 20) := by
  obtain ⟨hrockets, htarget⟩ := soloStart_fields (thrustGenome : Genome ℝ) (7 / 8)
  have hi := ascent_start
  have hbrains : ∀ rocket ∈ (soloStart (thrustGenome : Genome ℝ) (7 / 8)).rockets,
      rocket.brain ≠ none := by
    intro r hr
    rw [hrockets] at hr
    have hmem := (createRockets_mem _ r hr).2.2.2.2.2.2.2.2.2.2.2.2
    simp only [List.mem_singleton] at hmem
    rw [hmem]
    simp
  obtain ⟨s, hs, -⟩ := runTicks_isSome
    ⟨Real.sin, Real.cos, Real.exp, Real.sqrt, fun y x => Complex.arg ⟨x, y⟩, Real.pi⟩ 103 _ hbrains
  have hs' := hs
  rw [show (103 : Nat) = 102 + 1 from rfl, runTicks, Option.bind_eq_some] at hs'
  obtain ⟨s1, hs1, hstep⟩ := hs'
  have hno : ∀ j : Nat, 1 ≤ j → j ≤ 102 → ∀ r : Rocket ℝ, r.x = 960 →
      r.y = 780 - (j : ℝ) * ((j : ℝ) + 1) / 40 → r.width = 450 → r.height = 280 →
      checkCollision Real.sqrt r (soloStart (thrustGenome : Genome ℝ) (7 / 8)).collectionTarget
        = false := fun j _ hj r hx hy hw hh => ascent_no_hit j hj r hx hy hw hh
  obtain ⟨r, g, hget, hx, hy, hsx, hsy, hang, hw, hh, hact, -, hbr, hg⟩ :=
    thrust_trajectory ⟨Real.sin, Real.cos, Real.exp, Real.sqrt, fun y x => Complex.arg ⟨x, y⟩,
      Real.pi⟩ Real.sin_zero Real.cos_zero (soloStart (thrustGenome : Genome ℝ) (7 / 8)) 0 _
      thrustGenome hi
      ⟨by simp only [CANVAS_WIDTH]; norm_num, by simp only [CANVAS_HEIGHT]; norm_num,
        rfl, rfl, rfl, rfl, rfl, rfl, rfl⟩
      rfl thrustGenome_outputs 102 (by norm_num) hno s1 hs1
  have ht : s1.collectionTarget = ⟨768 + 7 / 8 * 284, 432 + 7 / 8 * 116, 100, 100⟩ := by
    rw [(runTicks_target _ 102 _ s1 hs1).1, htarget]
  obtain ⟨r', b, b', hget', hupd⟩ := updateRockets_getElem? _ s1 s hstep 0 r hget
  obtain ⟨r2, b2, hupd2, fx, fy, fsx, fsy, -, -, -, fw, fh, -, -, -, -, fact⟩ :=
    updateRocket_active ⟨Real.sin, Real.cos, Real.exp, Real.sqrt, fun y x => Complex.arg ⟨x, y⟩,
      Real.pi⟩ s1.collectionTarget r b g hact hbr
  rw [hupd2] at hupd
  simp only [Option.some.injEq, Prod.mk.injEq] at hupd
  obtain ⟨rfl, -⟩ := hupd
  have hynew : r.y + r.speedY - 1 / 20 = 5122 / 10 := by
    rw [hy, hsy]; norm_num
  obtain ⟨px, py, psx, psy, -, -⟩ := afterPhysics_thrust
    ⟨Real.sin, Real.cos, Real.exp, Real.sqrt, fun y x => Complex.arg ⟨x, y⟩, Real.pi⟩
    Real.sin_zero Real.cos_zero s1.collectionTarget r g
    (by intro inputs; rw [hg]; exact thrustGenome_outputs inputs) hang hsx
    (by rw [hx]; norm_num)
    (by rw [hx, hw]; simp only [CANVAS_WIDTH]; norm_num)
    (by rw [hynew]; norm_num)
    (by rw [hynew, hh]; simp only [CANVAS_HEIGHT]; norm_num)
  obtain ⟨qw, qh, -⟩ := afterPhysics_frame
    ⟨Real.sin, Real.cos, Real.exp, Real.sqrt, fun y x => Complex.arg ⟨x, y⟩, Real.pi⟩
    s1.collectionTarget r g
  have hhit : checkCollision Real.sqrt (afterPhysics
      ⟨Real.sin, Real.cos, Real.exp, Real.sqrt, fun y x => Complex.arg ⟨x, y⟩, Real.pi⟩
      s1.collectionTarget r g) s1.collectionTarget = true := by
    apply checkCollision_real_true
    · rw [qw, hw, ht]; norm_num
    · rw [px, py, qw, qh, hx, hynew, hw, hh, ht]; norm_num
  have hlen : s.rockets.length = 1 := by
    rw [(runTicks_target _ 103 _ s hs).2.2.2.2.2, hrockets]; rfl
  refine ⟨s, r2, hs, singleton_of_getElem? _ _ hlen hget', ?_, ?_, ?_⟩
  · rw [fact, hhit]; simp
  · rw [fsx, psx]
  · rw [fsy, psy, hsy]; norm_num

end RealExamples

section Examples

/-! ## Counterexamples and instances -/

/-- C1 (counterexample). Population of one policy that always answers
`[1, 0, 0]`, target drawn with both `Math.random()` draws equal to `7/8`: after
103 ticks the rocket has reached the target and is inactive with
`speedY = -103/20`, not zero. -/
theorem target_hit_keeps_velocity :
    ∃ (s : GameState ℝ Unit) (rocket : Rocket ℝ),
      (soloStart (thrustGenome : Genome ℝ) (7 / 8)).rockets = createRockets [some thrustGenome] ∧
      runTicks ⟨Real.sin, Real.cos, Real.exp, Real.sqrt, fun y x => Complex.arg ⟨x, y⟩, Real.pi⟩
        103 (soloStart thrustGenome (7 / 8)) = some s ∧
      rocket ∈ s.rockets ∧ rocket.active = false ∧
      ¬ (InBounds rocket ∧ rocket.speedX = 0 ∧ rocket.speedY = 0) := by
  obtain ⟨s, rocket, hs, hrockets, hoff, -, hsy⟩ := ascent_reaches_target
  refine ⟨s, rocket, rfl, hs, by rw [hrockets]; exact List.mem_singleton_self _, hoff, ?_⟩
  rintro ⟨-, -, h0⟩
  rw [hsy] at h0
  norm_num at h0

/-- C1 (instance of the amended statement): the rocket of the straight ascent,
inactive after 103 ticks. -/
theorem inactive_rocket_in_bounds_witness :
    ∃ (s : GameState ℝ Unit) (rocket : Rocket ℝ),
      runTicks ⟨Real.sin, Real.cos, Real.exp, Real.sqrt, fun y x => Complex.arg ⟨x, y⟩, Real.pi⟩
        103 (soloStart thrustGenome (7 / 8)) = some s ∧
      rocket ∈ s.rockets ∧ rocket.active = false ∧
      (InBounds rocket ∧ ((rocket.speedX = 0 ∧ rocket.speedY = 0) ∨
        checkCollision Real.sqrt rocket s.collectionTarget = true)) := by
  obtain ⟨s, rocket, hs, hrockets, hoff, -, -⟩ := ascent_reaches_target
  have hmem : rocket ∈ s.rockets := by rw [hrockets]; exact List.mem_singleton_self _
  exact ⟨s, rocket, hs, hmem, hoff,
    inactive_rocket_in_bounds
      ⟨Real.sin, Real.cos, Real.exp, Real.sqrt, fun y x => Complex.arg ⟨x, y⟩, Real.pi⟩
      [some thrustGenome] 103 (soloStart thrustGenome (7 / 8)) s rfl hs rocket hmem hoff⟩

/-- C2 (counterexample). A rocket at rest heading `π/2` that thrusts: the code
gives `speedX' = DRAG * THRUST = 0.4455`, the claimed formula
`DRAG * speedX + THRUST * sin a` gives `0.45`. -/
theorem thrust_before_drag_counterexample :
    (launchRocket none (Real.pi / 2)).active = true ∧
    gtHalf ([JsNum.num 1, JsNum.num 0, JsNum.num 0] : List (JsNum ℝ))[0]? = true ∧
    (updatePosition (applyNetworkOutputs
        ⟨Real.sin, Real.cos, Real.exp, Real.sqrt, fun y x => Complex.arg ⟨x, y⟩, Real.pi⟩
        (launchRocket none (Real.pi / 2)) [JsNum.num 1, JsNum.num 0, JsNum.num 0])).speedX
      ≠ DRAG * (launchRocket none (Real.pi / 2)).speedX
        + THRUST * Real.sin (launchRocket none (Real.pi / 2)).angle := by
  have h0 : gtHalf ([JsNum.num 1, JsNum.num 0, JsNum.num 0] : List (JsNum ℝ))[0]? = true := by
    simp only [gtHalf, List.getElem?_cons_zero, decide_eq_true_eq]
    norm_num
  refine ⟨rfl, h0, ?_⟩
  rw [(updatePosition_fields _).1, applyNetworkOutputs_speedX, h0, if_pos rfl]
  simp only [launchRocket, Real.sin_pi_div_two, DRAG, THRUST]
  norm_num

/-- C2 (instance of the amended statement) at the same rocket and outputs. -/
theorem tick_kinematics_witness :
    gtHalf ([JsNum.num 1, JsNum.num 0, JsNum.num 0] : List (JsNum ℝ))[0]? = true ∧
    (updatePosition (applyNetworkOutputs
        ⟨Real.sin, Real.cos, Real.exp, Real.sqrt, fun y x => Complex.arg ⟨x, y⟩, Real.pi⟩
        (launchRocket none (Real.pi / 2)) [JsNum.num 1, JsNum.num 0, JsNum.num 0])).speedX
      = DRAG * ((launchRocket none (Real.pi / 2)).speedX
        + THRUST * Real.sin (launchRocket none (Real.pi / 2)).angle) := by
  have h0 : gtHalf ([JsNum.num 1, JsNum.num 0, JsNum.num 0] : List (JsNum ℝ))[0]? = true := by
    simp only [gtHalf, List.getElem?_cons_zero, decide_eq_true_eq]
    norm_num
  exact ⟨h0, ((tick_kinematics
    ⟨Real.sin, Real.cos, Real.exp, Real.sqrt, fun y x => Complex.arg ⟨x, y⟩, Real.pi⟩
    (launchRocket none (Real.pi / 2)) [JsNum.num 1, JsNum.num 0, JsNum.num 0]).1 h0).1⟩

/-- C3 (counterexample). With `popsize = 2` and `elitism = 3` the elitism loop
alone pushes three entries (the third one `undefined`), so the assembled
population has length 3, not `popsize`. -/
theorem elitism_above_popsize_counterexample :
    (assemblePopulation (fixedExternal (emptyGenome : Genome ℚ) 0) overElitistNeat ()).1.length = 3
    ∧ (overElitistNeat : Neat ℚ).popsize = 2 :=
  ⟨rfl, rfl⟩

/-- C3 (instance of the amended statement): `popsize = 3`, `elitism = 1`. -/
theorem assemblePopulation_length_witness :
    1 ≤ 3 ∧
    (assemblePopulation (fixedExternal (emptyGenome : Genome ℚ) 0)
      ⟨[some emptyGenome, some emptyGenome, some emptyGenome], 3, 1⟩ ()).1.length = 3 :=
  ⟨by decide, (assemblePopulation_length (fixedExternal (emptyGenome : Genome ℚ) 0)
      ⟨[some emptyGenome, some emptyGenome, some emptyGenome], 3, 1⟩ ()).2 (by decide)⟩

end Examples

section Examples2

/-- C4 (counterexample). A population of one policy that answers the empty
array (length 0, not 3), target drawn with both draws `1/2`: after
`updateRockets` the rocket is still active. -/
theorem malformed_output_stays_active :
    ∃ (s : GameState ℝ Unit) (rocket : Rocket ℝ),
      (∀ inputs, ((emptyGenome : Genome ℝ).activate inputs).length ≠ 3) ∧
      (soloStart (emptyGenome : Genome ℝ) (1 / 2)).rockets
        = [launchRocket (some emptyGenome) 0] ∧
      updateRockets
        ⟨Real.sin, Real.cos, Real.exp, Real.sqrt, fun y x => Complex.arg ⟨x, y⟩, Real.pi⟩
        (soloStart emptyGenome (1 / 2)) = some s ∧
      s.rockets = [rocket] ∧ rocket.active = true := by
  obtain ⟨hrockets, htarget⟩ := soloStart_fields (emptyGenome : Genome ℝ) (1 / 2)
  have hstart : (soloStart (emptyGenome : Genome ℝ) (1 / 2)).rockets
      = [launchRocket (some emptyGenome) 0] := by rw [hrockets]; rfl
  have hbrains : ∀ rocket ∈ (soloStart (emptyGenome : Genome ℝ) (1 / 2)).rockets,
      rocket.brain ≠ none := by
    intro r hr
    rw [hstart, List.mem_singleton] at hr
    rw [hr]
    simp [launchRocket]
  obtain ⟨s, hs⟩ := updateRockets_isSome
    ⟨Real.sin, Real.cos, Real.exp, Real.sqrt, fun y x => Complex.arg ⟨x, y⟩, Real.pi⟩ _ hbrains
  have hget : (soloStart (emptyGenome : Genome ℝ) (1 / 2)).rockets[0]?
      = some (launchRocket (some emptyGenome) 0) := by rw [hstart]; rfl
  obtain ⟨r', b, b', hget', hupd⟩ := updateRockets_getElem? _ _ s hs 0 _ hget
  obtain ⟨r1, b1, hupd1, fx, fy, -, -, -, -, -, fw, fh, -, -, -, -, fact⟩ := updateRocket_active
    ⟨Real.sin, Real.cos, Real.exp, Real.sqrt, fun y x => Complex.arg ⟨x, y⟩, Real.pi⟩
    (soloStart (emptyGenome : Genome ℝ) (1 / 2)).collectionTarget
    (launchRocket (some emptyGenome) 0) b emptyGenome rfl rfl
  rw [hupd1] at hupd
  simp only [Option.some.injEq, Prod.mk.injEq] at hupd
  obtain ⟨rfl, -⟩ := hupd
  have hlen : s.rockets.length = 1 := by
    rw [← (updateRockets_spec _ _ s hs).2.2.2.2.2.length_eq, hstart]; rfl
  refine ⟨s, r1, fun inputs => by simp [emptyGenome, constantGenome], hstart, hs,
    singleton_of_getElem? _ _ hlen hget', ?_⟩
  obtain ⟨px, py, -, -, -, pact⟩ := physics_coast
    ⟨Real.sin, Real.cos, Real.exp, Real.sqrt, fun y x => Complex.arg ⟨x, y⟩, Real.pi⟩
    { launchRocket (some (emptyGenome : Genome ℝ)) 0 with lifetime := 0 + 1 }
    ((emptyGenome : Genome ℝ).activate (calculateNeuralInputs
      ⟨Real.sin, Real.cos, Real.exp, Real.sqrt, fun y x => Complex.arg ⟨x, y⟩, Real.pi⟩
      (soloStart (emptyGenome : Genome ℝ) (1 / 2)).collectionTarget
      { launchRocket (some (emptyGenome : Genome ℝ)) 0 with lifetime := 0 + 1 }))
    rfl rfl rfl
    (by simp only [launchRocket, CANVAS_WIDTH, DRAG]; norm_num)
    (by simp only [launchRocket, CANVAS_WIDTH, DRAG]; norm_num)
    (by simp only [launchRocket, CANVAS_HEIGHT, GRAVITY]; norm_num)
    (by simp only [launchRocket, CANVAS_HEIGHT, GRAVITY]; norm_num)
  obtain ⟨qw, qh, -⟩ := afterPhysics_frame
    ⟨Real.sin, Real.cos, Real.exp, Real.sqrt, fun y x => Complex.arg ⟨x, y⟩, Real.pi⟩
    (soloStart (emptyGenome : Genome ℝ) (1 / 2)).collectionTarget
    (launchRocket (some emptyGenome) 0) emptyGenome
  have hmiss : checkCollision Real.sqrt (afterPhysics
      ⟨Real.sin, Real.cos, Real.exp, Real.sqrt, fun y x => Complex.arg ⟨x, y⟩, Real.pi⟩
      (soloStart (emptyGenome : Genome ℝ) (1 / 2)).collectionTarget
      (launchRocket (some emptyGenome) 0) emptyGenome)
      (soloStart (emptyGenome : Genome ℝ) (1 / 2)).collectionTarget = false := by
    apply checkCollision_real_false
    · rw [qw, htarget]; simp only [launchRocket]; norm_num
    · have hx : (afterPhysics
          ⟨Real.sin, Real.cos, Real.exp, Real.sqrt, fun y x => Complex.arg ⟨x, y⟩, Real.pi⟩
          (soloStart (emptyGenome : Genome ℝ) (1 / 2)).collectionTarget
          (launchRocket (some emptyGenome) 0) emptyGenome).x = 960 := by
        refine Eq.trans px ?_
        simp only [launchRocket, CANVAS_WIDTH, DRAG]; norm_num
      have hy : (afterPhysics
          ⟨Real.sin, Real.cos, Real.exp, Real.sqrt, fun y x => Complex.arg ⟨x, y⟩, Real.pi⟩
          (soloStart (emptyGenome : Genome ℝ) (1 / 2)).collectionTarget
          (launchRocket (some emptyGenome) 0) emptyGenome).y = 7804 / 10 := by
        refine Eq.trans py ?_
        simp only [launchRocket, CANVAS_HEIGHT, GRAVITY]; norm_num
      rw [hx, hy, qw, qh, htarget]
      simp only [launchRocket]
      norm_num
  rw [fact, hmiss]
  have hact : (afterPhysics
      ⟨Real.sin, Real.cos, Real.exp, Real.sqrt, fun y x => Complex.arg ⟨x, y⟩, Real.pi⟩
      (soloStart (emptyGenome : Genome ℝ) (1 / 2)).collectionTarget
      (launchRocket (some emptyGenome) 0) emptyGenome).active = true := pact
  rw [hact]
  rfl

end Examples2

section Examples3

/-- C4 (instance of the amended statement): the start rocket with the policy
that answers the empty array. -/
theorem malformed_outputs_not_detected_witness :
    (launchRocket (some (emptyGenome : Genome ℝ)) 0).active = true ∧
    (launchRocket (some (emptyGenome : Genome ℝ)) 0).brain = some emptyGenome ∧
    applyNetworkOutputs
        ⟨Real.sin, Real.cos, Real.exp, Real.sqrt, fun y x => Complex.arg ⟨x, y⟩, Real.pi⟩
        (launchRocket (some (emptyGenome : Genome ℝ)) 0) []
      = applyNetworkOutputs
        ⟨Real.sin, Real.cos, Real.exp, Real.sqrt, fun y x => Complex.arg ⟨x, y⟩, Real.pi⟩
        (launchRocket (some (emptyGenome : Genome ℝ)) 0) (comparisons []) :=
  ⟨rfl, rfl, (malformed_outputs_not_detected
    ⟨Real.sin, Real.cos, Real.exp, Real.sqrt, fun y x => Complex.arg ⟨x, y⟩, Real.pi⟩
    ⟨910, 490, 100, 100⟩ (launchRocket (some (emptyGenome : Genome ℝ)) 0) 0 emptyGenome
    rfl rfl).1 []⟩

/-- C5 (instance): in the straight ascent every rocket is inactive after 103
ticks, so frame 104 of `gameLoop` is `evolve`, long before `LIFESPAN = 500`. -/
theorem generation_ends_after_min_ticks_witness :
    ∃ sn : GameState ℝ Unit,
      (soloStart (thrustGenome : Genome ℝ) (7 / 8)).currentFrame = 0 ∧ 103 ≤ LIFESPAN ∧
      runTicks ⟨Real.sin, Real.cos, Real.exp, Real.sqrt, fun y x => Complex.arg ⟨x, y⟩, Real.pi⟩
        103 (soloStart thrustGenome (7 / 8)) = some sn ∧
      allRocketsInactive sn.rockets = true ∧
      runFrames ⟨Real.sin, Real.cos, Real.exp, Real.sqrt, fun y x => Complex.arg ⟨x, y⟩, Real.pi⟩
        (fixedExternal thrustGenome (7 / 8)) 104 (soloStart thrustGenome (7 / 8))
        = evolve (fixedExternal thrustGenome (7 / 8)) { sn with currentFrame := 103 } := by
  obtain ⟨s, rocket, hs, hrockets, hoff, -, -⟩ := ascent_reaches_target
  have hall : allRocketsInactive s.rockets = true := by
    rw [hrockets]
    simp [allRocketsInactive, hoff]
  exact ⟨s, rfl, by decide, hs, hall,
    (generation_ends_after_min_ticks
      ⟨Real.sin, Real.cos, Real.exp, Real.sqrt, fun y x => Complex.arg ⟨x, y⟩, Real.pi⟩
      (fixedExternal thrustGenome (7 / 8)) (soloStart thrustGenome (7 / 8)) rfl 103 (by decide)
      ascent_active_before s hs).2.2.2.1 (Or.inr hall)⟩

/-- C6 (instance): the start rocket and a target centred on it. -/
theorem calculateFitness_closed_form_witness :
    rocketCentre (launchRocket none (0 : ℝ)) = targetCentre ⟨1135, 870, 100, 100⟩ ∧
    calculateFitness Real.sqrt Real.exp ⟨1135, 870, 100, 100⟩ (launchRocket none (0 : ℝ))
      = 1000 + 0.1 * ((launchRocket none (0 : ℝ)).lifetime : ℝ) := by
  have h : rocketCentre (launchRocket none (0 : ℝ)) = targetCentre ⟨1135, 870, 100, 100⟩ := by
    simp only [rocketCentre, targetCentre, launchRocket, CANVAS_WIDTH, CANVAS_HEIGHT]
    norm_num
  exact ⟨h, (calculateFitness_closed_form (launchRocket none (0 : ℝ)) ⟨1135, 870, 100, 100⟩).2 h⟩

/-- C7 (instance): the start rocket on the target against the same rocket moved
to `x = 0`. -/
theorem calculateFitness_strictly_decreasing_witness :
    (launchRocket none (0 : ℝ)).lifetime
      = ({ launchRocket none (0 : ℝ) with x := 0 } : Rocket ℝ).lifetime ∧
    dist ((WithLp.equiv 2 (Fin 2 → ℝ)).symm (rocketCentre (launchRocket none (0 : ℝ))))
        ((WithLp.equiv 2 (Fin 2 → ℝ)).symm (targetCentre ⟨1135, 870, 100, 100⟩))
      < dist ((WithLp.equiv 2 (Fin 2 → ℝ)).symm
          (rocketCentre ({ launchRocket none (0 : ℝ) with x := 0 } : Rocket ℝ)))
        ((WithLp.equiv 2 (Fin 2 → ℝ)).symm (targetCentre ⟨1135, 870, 100, 100⟩)) ∧
    calculateFitness Real.sqrt Real.exp ⟨1135, 870, 100, 100⟩
        ({ launchRocket none (0 : ℝ) with x := 0 } : Rocket ℝ)
      < calculateFitness Real.sqrt Real.exp ⟨1135, 870, 100, 100⟩ (launchRocket none (0 : ℝ)) := by
  have hd : dist ((WithLp.equiv 2 (Fin 2 → ℝ)).symm (rocketCentre (launchRocket none (0 : ℝ))))
        ((WithLp.equiv 2 (Fin 2 → ℝ)).symm (targetCentre ⟨1135, 870, 100, 100⟩))
      < dist ((WithLp.equiv 2 (Fin 2 → ℝ)).symm
          (rocketCentre ({ launchRocket none (0 : ℝ) with x := 0 } : Rocket ℝ)))
        ((WithLp.equiv 2 (Fin 2 → ℝ)).symm (targetCentre ⟨1135, 870, 100, 100⟩)) := by
    rw [dist_centres, dist_centres]
    apply Real.sqrt_lt_sqrt
    · positivity
    · simp only [launchRocket, CANVAS_WIDTH, CANVAS_HEIGHT]
      norm_num
  exact ⟨rfl, hd, calculateFitness_strictly_decreasing.1 _ _ _ rfl hd⟩

/-- C8 (instance): the start rocket touches a target centred on it. -/
theorem checkCollision_iff_witness :
    checkCollision Real.sqrt (launchRocket none (0 : ℝ)) ⟨1135, 870, 100, 100⟩ = true := by
  rw [checkCollision_iff, dist_centres]
  simp only [launchRocket, CANVAS_WIDTH, CANVAS_HEIGHT]
  norm_num

/-- C9 (instance): the rocket stopped on the target after 103 ticks of the
straight ascent is returned unchanged by the next tick. -/
theorem inactive_rocket_unchanged_witness :
    ∃ (s s' : GameState ℝ Unit) (rocket : Rocket ℝ),
      updateRockets
        ⟨Real.sin, Real.cos, Real.exp, Real.sqrt, fun y x => Complex.arg ⟨x, y⟩, Real.pi⟩ s
        = some s' ∧
      s.rockets[0]? = some rocket ∧ rocket.active = false ∧ s'.rockets[0]? = some rocket := by
  obtain ⟨s, rocket, hs, hrockets, hoff, -, -⟩ := ascent_reaches_target
  have hbrains : ∀ r ∈ (soloStart (thrustGenome : Genome ℝ) (7 / 8)).rockets,
      r.brain ≠ none := by
    intro r hr
    rw [(soloStart_fields _ _).1] at hr
    have hmem := (createRockets_mem _ r hr).2.2.2.2.2.2.2.2.2.2.2.2
    simp only [List.mem_singleton] at hmem
    rw [hmem]
    simp
  obtain ⟨s1, hs1, hb1⟩ := runTicks_isSome
    ⟨Real.sin, Real.cos, Real.exp, Real.sqrt, fun y x => Complex.arg ⟨x, y⟩, Real.pi⟩ 103 _ hbrains
  rw [hs] at hs1
  simp only [Option.some.injEq] at hs1
  subst hs1
  obtain ⟨s', hs'⟩ := updateRockets_isSome
    ⟨Real.sin, Real.cos, Real.exp, Real.sqrt, fun y x => Complex.arg ⟨x, y⟩, Real.pi⟩ s hb1
  have hget : s.rockets[0]? = some rocket := by rw [hrockets]; rfl
  exact ⟨s, s', rocket, hs', hget, hoff,
    (inactive_rocket_unchanged
      ⟨Real.sin, Real.cos, Real.exp, Real.sqrt, fun y x => Complex.arg ⟨x, y⟩, Real.pi⟩).1
      s s' hs' 0 rocket hget hoff⟩

/-- C10 (counterexample). The output vector `[0, NaN, 1]`: `o[1] > 0.5` and
`o[1] <= 0.5` are both false, so the case split of the claim leaves the heading
unchanged, but the code turns the rocket right by `TARGET_ROTATION_SPEED`. -/
theorem nan_output_turns_right :
    gtHalf (some (JsNum.nan : JsNum ℝ)) = false ∧
    leHalf (some (JsNum.nan : JsNum ℝ)) = false ∧
    gtHalf (some (JsNum.num (1 : ℝ))) = true ∧
    (applyNetworkOutputs
        ⟨Real.sin, Real.cos, Real.exp, Real.sqrt, fun y x => Complex.arg ⟨x, y⟩, Real.pi⟩
        (launchRocket none 0) [JsNum.num 0, JsNum.nan, JsNum.num 1]).angle
      = (launchRocket none (0 : ℝ)).angle + TARGET_ROTATION_SPEED Real.pi ∧
    (applyNetworkOutputs
        ⟨Real.sin, Real.cos, Real.exp, Real.sqrt, fun y x => Complex.arg ⟨x, y⟩, Real.pi⟩
        (launchRocket none 0) [JsNum.num 0, JsNum.nan, JsNum.num 1]).angle
      ≠ (launchRocket none (0 : ℝ)).angle := by
  have h2 : gtHalf (some (JsNum.num (1 : ℝ))) = true := by
    simp only [gtHalf, decide_eq_true_eq]
    norm_num
  have hturn : (applyNetworkOutputs
        ⟨Real.sin, Real.cos, Real.exp, Real.sqrt, fun y x => Complex.arg ⟨x, y⟩, Real.pi⟩
        (launchRocket none 0) [JsNum.num 0, JsNum.nan, JsNum.num 1]).angle
      = (launchRocket none (0 : ℝ)).angle + TARGET_ROTATION_SPEED Real.pi := by
    rw [applyNetworkOutputs_angle]
    have e1 : gtHalf ([JsNum.num 0, JsNum.nan, JsNum.num 1] : List (JsNum ℝ))[1]? = false := rfl
    have e2 : gtHalf ([JsNum.num 0, JsNum.nan, JsNum.num 1] : List (JsNum ℝ))[2]? = true := h2
    rw [e1, e2, if_neg (by simp), if_pos rfl]
  refine ⟨rfl, rfl, h2, hturn, ?_⟩
  rw [hturn]
  have hpos : (0 : ℝ) < TARGET_ROTATION_SPEED Real.pi := by
    simp only [TARGET_ROTATION_SPEED]
    positivity
  linarith

/-- C10 (instance of the amended statement): on `[0, NaN, 1]` the rocket turns
right. -/
theorem applyNetworkOutputs_controls_witness :
    gtHalf (some (JsNum.nan : JsNum ℝ)) = false ∧
    gtHalf (some (JsNum.num (1 : ℝ))) = true ∧
    (applyNetworkOutputs
        ⟨Real.sin, Real.cos, Real.exp, Real.sqrt, fun y x => Complex.arg ⟨x, y⟩, Real.pi⟩
        (launchRocket none 0) [JsNum.num 0, JsNum.nan, JsNum.num 1]).angle
      = (launchRocket none (0 : ℝ)).angle + TARGET_ROTATION_SPEED Real.pi := by
  have h2 : gtHalf (some (JsNum.num (1 : ℝ))) = true := by
    simp only [gtHalf, decide_eq_true_eq]
    norm_num
  exact ⟨rfl, h2, (applyNetworkOutputs_controls
    ⟨Real.sin, Real.cos, Real.exp, Real.sqrt, fun y x => Complex.arg ⟨x, y⟩, Real.pi⟩
    (launchRocket none 0) (JsNum.num 0) JsNum.nan (JsNum.num 1)).2.2.1 rfl h2⟩

end Examples3

section Target

variable {α : Type} [LinearOrderedField α]

/-! ## Target placement (`createCollectionTarget`) -/

/-- C11. For draws `r1`, `r2` in `[0, 1)` the target built by
`createCollectionTarget` is a 100 x 100 rectangle inside the central region
`[CANVAS_WIDTH * CENTER_MARGIN, CANVAS_WIDTH * (1 - CENTER_MARGIN)]` x
`[CANVAS_HEIGHT * CENTER_MARGIN, CANVAS_HEIGHT * (1 - CENTER_MARGIN)]`, hence
strictly inside the playfield. -/
theorem createCollectionTarget_central (r1 r2 : α) (h1 : 0 ≤ r1) (h1' : r1 < 1)
    (h2 : 0 ≤ r2) (h2' : r2 < 1) :
    (createCollectionTarget r1 r2).width = 100 ∧
    (createCollectionTarget r1 r2).height = 100 ∧
    CANVAS_WIDTH * CENTER_MARGIN ≤ (createCollectionTarget r1 r2).x ∧
    (createCollectionTarget r1 r2).x + 100 ≤ CANVAS_WIDTH * (1 - CENTER_MARGIN) ∧
    CANVAS_HEIGHT * CENTER_MARGIN ≤ (createCollectionTarget r1 r2).y ∧
    (createCollectionTarget r1 r2).y + 100 ≤ CANVAS_HEIGHT * (1 - CENTER_MARGIN) ∧
    0 < (createCollectionTarget r1 r2).x ∧
    (createCollectionTarget r1 r2).x + (createCollectionTarget r1 r2).width < CANVAS_WIDTH ∧
    0 < (createCollectionTarget r1 r2).y ∧
    (createCollectionTarget r1 r2).y + (createCollectionTarget r1 r2).height < CANVAS_HEIGHT := by
  have hx : (createCollectionTarget r1 r2).x = 768 + r1 * 284 := by
    simp only [createCollectionTarget, CANVAS_WIDTH, CENTER_MARGIN]; ring
  have hy : (createCollectionTarget r1 r2).y = 432 + r2 * 116 := by
    simp only [createCollectionTarget, CANVAS_HEIGHT, CENTER_MARGIN]; ring
  have hw : (createCollectionTarget r1 r2).width = 100 := rfl
  have hh : (createCollectionTarget r1 r2).height = 100 := rfl
  rw [hx, hy, hw, hh]
  simp only [CANVAS_WIDTH, CANVAS_HEIGHT, CENTER_MARGIN]
  refine ⟨trivial, trivial, ?_, ?_, ?_, ?_, ?_, ?_, ?_, ?_⟩ <;> nlinarith

/-- C11 (instance): both draws equal to `1/2`. -/
theorem createCollectionTarget_central_witness :
    (0 : ℚ) ≤ 1 / 2 ∧ (1 / 2 : ℚ) < 1 ∧
    CANVAS_WIDTH * CENTER_MARGIN ≤ (createCollectionTarget (1 / 2 : ℚ) (1 / 2)).x ∧
    (createCollectionTarget (1 / 2 : ℚ) (1 / 2)).x + 100 ≤ CANVAS_WIDTH * (1 - CENTER_MARGIN) :=
  ⟨by norm_num, by norm_num,
    (createCollectionTarget_central (1 / 2 : ℚ) (1 / 2) (by norm_num) (by norm_num)
      (by norm_num) (by norm_num)).2.2.1,
    (createCollectionTarget_central (1 / 2 : ℚ) (1 / 2) (by norm_num) (by norm_num)
      (by norm_num) (by norm_num)).2.2.2.1⟩

end Target

section Sensors

variable {α : Type} [LinearOrderedField α] [FloorRing α]

/-! ## Sensor encoding (`calculateNeuralInputs`) -/

theorem calculateNeuralInputs_length (M : MathFns α) (target : Target α) (rocket : Rocket α) :
    (calculateNeuralInputs M target rocket).length = 11 := rfl

theorem calculateNeuralInputs_walls (M : MathFns α) (target : Target α) (rocket : Rocket α) :
    (calculateNeuralInputs M target rocket)[7]? = some (rocket.x / CANVAS_WIDTH) ∧
    (calculateNeuralInputs M target rocket)[8]?
      = some ((CANVAS_WIDTH - (rocket.x + rocket.width)) / CANVAS_WIDTH) ∧
    (calculateNeuralInputs M target rocket)[9]? = some (rocket.y / CANVAS_HEIGHT) ∧
    (calculateNeuralInputs M target rocket)[10]?
      = some ((CANVAS_HEIGHT - (rocket.y + rocket.height)) / CANVAS_HEIGHT) :=
  ⟨rfl, rfl, rfl, rfl⟩

/-- C12. `calculateNeuralInputs` returns 11 components.  For a rocket whose box
(of non-negative width and height) is inside the playfield the last four
components, the normalised distances to the left, right, top and bottom wall,
lie in `[0, 1]`; a box that crosses a side makes the component of that side
negative. -/
theorem calculateNeuralInputs_wall_distances (M : MathFns α) (target : Target α)
    (rocket : Rocket α) :
    (calculateNeuralInputs M target rocket).length = 11
    ∧ (0 ≤ rocket.width → 0 ≤ rocket.height → InBounds rocket →
        ∀ i : Nat, 7 ≤ i → i < 11 → ∃ v, (calculateNeuralInputs M target rocket)[i]? = some v ∧
          0 ≤ v ∧ v ≤ 1)
    ∧ (rocket.x < 0 →
        ∃ v, (calculateNeuralInputs M target rocket)[7]? = some v ∧ v < 0)
    ∧ (CANVAS_WIDTH < rocket.x + rocket.width →
        ∃ v, (calculateNeuralInputs M target rocket)[8]? = some v ∧ v < 0)
    ∧ (rocket.y < 0 →
        ∃ v, (calculateNeuralInputs M target rocket)[9]? = some v ∧ v < 0)
    ∧ (CANVAS_HEIGHT < rocket.y + rocket.height →
        ∃ v, (calculateNeuralInputs M target rocket)[10]? = some v ∧ v < 0) := by
  obtain ⟨e7, e8, e9, e10⟩ := calculateNeuralInputs_walls M target rocket
  have hW : (0 : α) < CANVAS_WIDTH := by simp only [CANVAS_WIDTH]; norm_num
  have hH : (0 : α) < CANVAS_HEIGHT := by simp only [CANVAS_HEIGHT]; norm_num
  refine ⟨rfl, ?_, ?_, ?_, ?_, ?_⟩
  · intro hw hh hin i h7 h11
    obtain ⟨hx0, hx1, hy0, hy1⟩ := hin
    have hi : i = 7 ∨ i = 8 ∨ i = 9 ∨ i = 10 := by omega
    rcases hi with rfl | rfl | rfl | rfl
    · refine ⟨_, e7, div_nonneg hx0 hW.le, ?_⟩
      rw [div_le_one hW]; linarith
    · refine ⟨_, e8, div_nonneg (by linarith) hW.le, ?_⟩
      rw [div_le_one hW]; linarith
    · refine ⟨_, e9, div_nonneg hy0 hH.le, ?_⟩
      rw [div_le_one hH]; linarith
    · refine ⟨_, e10, div_nonneg (by linarith) hH.le, ?_⟩
      rw [div_le_one hH]; linarith
  · intro h; exact ⟨_, e7, div_neg_of_neg_of_pos h hW⟩
  · intro h; exact ⟨_, e8, div_neg_of_neg_of_pos (by linarith) hW⟩
  · intro h; exact ⟨_, e9, div_neg_of_neg_of_pos h hH⟩
  · intro h; exact ⟨_, e10, div_neg_of_neg_of_pos (by linarith) hH⟩

end Sensors

section FireAngle

variable {α : Type} [LinearOrderedField α]

/-! ## The exhaust angle (`applyNetworkOutputs`) -/

theorem applyNetworkOutputs_fireAngle (M : MathFns α) (rocket : Rocket α)
    (outputs : List (JsNum α)) :
    (applyNetworkOutputs M rocket outputs).fireAngle
      = if gtHalf outputs[1]? then min (rocket.fireAngle + 1 / 10) (MAX_FIRE_ANGLE M.pi)
        else if gtHalf outputs[2]? then max (rocket.fireAngle - 1 / 10) (-MAX_FIRE_ANGLE M.pi)
        else rocket.fireAngle + (0 - rocket.fireAngle) * (1 / 10) := by
  unfold applyNetworkOutputs
  by_cases h0 : gtHalf outputs[0]? = true <;> by_cases h1 : gtHalf outputs[1]? = true <;>
    by_cases h2 : gtHalf outputs[2]? = true <;> simp [h0, h1, h2]

theorem applyNetworkOutputs_fireAngle_bounds (M : MathFns α) (hpi : 0 ≤ M.pi)
    (rocket : Rocket α) (outputs : List (JsNum α))
    (hlo : -MAX_FIRE_ANGLE M.pi ≤ rocket.fireAngle)
    (hhi : rocket.fireAngle ≤ MAX_FIRE_ANGLE M.pi) :
    -MAX_FIRE_ANGLE M.pi ≤ (applyNetworkOutputs M rocket outputs).fireAngle ∧
    (applyNetworkOutputs M rocket outputs).fireAngle ≤ MAX_FIRE_ANGLE M.pi := by
  have hmax : 0 ≤ MAX_FIRE_ANGLE M.pi := by
    simp only [MAX_FIRE_ANGLE]; exact div_nonneg hpi (by norm_num)
  rw [applyNetworkOutputs_fireAngle]
  split
  · exact ⟨le_min (by linarith) (by linarith), min_le_right _ _⟩
  · split
    · exact ⟨le_max_right _ _, max_le (by linarith) (by linarith)⟩
    · constructor <;> linarith

theorem foldl_applyNetworkOutputs_fireAngle_bounds (M : MathFns α) (hpi : 0 ≤ M.pi) :
    ∀ (calls : List (List (JsNum α))) (rocket : Rocket α),
      -MAX_FIRE_ANGLE M.pi ≤ rocket.fireAngle → rocket.fireAngle ≤ MAX_FIRE_ANGLE M.pi →
      -MAX_FIRE_ANGLE M.pi ≤ (calls.foldl (applyNetworkOutputs M) rocket).fireAngle ∧
      (calls.foldl (applyNetworkOutputs M) rocket).fireAngle ≤ MAX_FIRE_ANGLE M.pi := by
  intro calls
  induction calls with
  | nil => intro rocket hlo hhi; exact ⟨hlo, hhi⟩
  | cons outputs rest ih =>
    intro rocket hlo hhi
    obtain ⟨h1, h2⟩ := applyNetworkOutputs_fireAngle_bounds M hpi rocket outputs hlo hhi
    exact ih _ h1 h2

end FireAngle

/-- C13. Starting from `fireAngle = 0`, after any sequence of
`applyNetworkOutputs` calls with arbitrary output arrays the exhaust angle lies
in `[-MAX_FIRE_ANGLE, MAX_FIRE_ANGLE]`; and a call with no rotation command
multiplies it by `0.9`. -/
theorem fireAngle_clamped (rocket : Rocket ℝ) (hzero : rocket.fireAngle = 0)
    (calls : List (List (JsNum ℝ))) :
    (-MAX_FIRE_ANGLE Real.pi
        ≤ (calls.foldl (applyNetworkOutputs
            ⟨Real.sin, Real.cos, Real.exp, Real.sqrt, fun y x => Complex.arg ⟨x, y⟩, Real.pi⟩)
            rocket).fireAngle
      ∧ (calls.foldl (applyNetworkOutputs
            ⟨Real.sin, Real.cos, Real.exp, Real.sqrt, fun y x => Complex.arg ⟨x, y⟩, Real.pi⟩)
            rocket).fireAngle ≤ MAX_FIRE_ANGLE Real.pi)
    ∧ (∀ (other : Rocket ℝ) (outputs : List (JsNum ℝ)),
        gtHalf outputs[1]? = false → gtHalf outputs[2]? = false →
        (applyNetworkOutputs
            ⟨Real.sin, Real.cos, Real.exp, Real.sqrt, fun y x => Complex.arg ⟨x, y⟩, Real.pi⟩
            other outputs).fireAngle = 0.9 * other.fireAngle) := by
  have hmax : (0 : ℝ) ≤ MAX_FIRE_ANGLE Real.pi := by
    simp only [MAX_FIRE_ANGLE]; exact div_nonneg Real.pi_pos.le (by norm_num)
  constructor
  · exact foldl_applyNetworkOutputs_fireAngle_bounds
      ⟨Real.sin, Real.cos, Real.exp, Real.sqrt, fun y x => Complex.arg ⟨x, y⟩, Real.pi⟩
      Real.pi_pos.le calls rocket (by rw [hzero]; linarith) (by rw [hzero]; exact hmax)
  · intro other outputs h1 h2
    rw [applyNetworkOutputs_fireAngle, h1, h2]
    simp only [Bool.false_eq_true, if_false]
    ring

/-- C13 (instance): the start rocket after one left and one right command. -/
theorem fireAngle_clamped_witness :
    (launchRocket none (0 : ℝ)).fireAngle = 0 ∧
    -MAX_FIRE_ANGLE Real.pi
      ≤ (([[JsNum.num 0, JsNum.num 1, JsNum.num 0],
           [JsNum.num 0, JsNum.num 0, JsNum.num 1]] : List (List (JsNum ℝ))).foldl
          (applyNetworkOutputs
            ⟨Real.sin, Real.cos, Real.exp, Real.sqrt, fun y x => Complex.arg ⟨x, y⟩, Real.pi⟩)
          (launchRocket none 0)).fireAngle :=
  ⟨rfl, (fireAngle_clamped (launchRocket none 0) rfl _).1.1⟩

/-- C12 (instance): the start rocket is half a playfield away from the left
wall. -/
theorem calculateNeuralInputs_wall_distances_witness :
    (0 : ℝ) ≤ (launchRocket none (0 : ℝ)).width ∧ (0 : ℝ) ≤ (launchRocket none (0 : ℝ)).height ∧
    InBounds (launchRocket none (0 : ℝ)) ∧
    ∃ v, (calculateNeuralInputs
        ⟨Real.sin, Real.cos, Real.exp, Real.sqrt, fun y x => Complex.arg ⟨x, y⟩, Real.pi⟩
        ⟨910, 490, 100, 100⟩ (launchRocket none (0 : ℝ)))[7]? = some v ∧ 0 ≤ v ∧ v ≤ 1 := by
  have hw : (0 : ℝ) ≤ (launchRocket none (0 : ℝ)).width := by
    simp only [launchRocket]; norm_num
  have hh : (0 : ℝ) ≤ (launchRocket none (0 : ℝ)).height := by
    simp only [launchRocket]; norm_num
  have hin : InBounds (launchRocket none (0 : ℝ)) := by
    simp only [InBounds, launchRocket, CANVAS_WIDTH, CANVAS_HEIGHT]; norm_num
  exact ⟨hw, hh, hin, (calculateNeuralInputs_wall_distances
    ⟨Real.sin, Real.cos, Real.exp, Real.sqrt, fun y x => Complex.arg ⟨x, y⟩, Real.pi⟩
    ⟨910, 490, 100, 100⟩ (launchRocket none (0 : ℝ))).2.1 hw hh hin 7 (le_refl 7) (by decide)⟩

section NextGeneration

variable {α : Type} {σ : Type}

/-! ## The next generation (`evolve`) -/

theorem elitismLoop_getElem? (population : List (Option (Genome α))) (elitism i : Nat)
    (hi : i < elitism) :
    (elitismLoop population elitism)[i]? = some (population[i]?).join := by
  simp [elitismLoop, List.getElem?_map, List.getElem?_range hi]

theorem elitismLoop_eq_take (population : List (Option (Genome α))) (elitism : Nat)
    (h : elitism ≤ population.length) :
    elitismLoop population elitism = population.take elitism := by
  apply List.ext_getElem?
  intro i
  by_cases hi : i < elitism
  · rw [elitismLoop_getElem? population elitism i hi, List.getElem?_take_of_lt hi,
      List.getElem?_eq_getElem (lt_of_lt_of_le hi h)]
    rfl
  · have h1 : (elitismLoop population elitism).length ≤ i := by
      rw [elitismLoop_length]; exact Nat.le_of_not_lt hi
    have h2 : (population.take elitism).length ≤ i := by
      rw [List.length_take]; exact le_trans (min_le_left _ _) (Nat.le_of_not_lt hi)
    rw [List.getElem?_eq_none h1, List.getElem?_eq_none h2]

theorem breedLoop_spec (E : External α σ) (population : List (Option (Genome α))) :
    ∀ (count : Nat) (newPopulation : List (Option (Genome α))) (env : σ),
      (breedLoop E population count newPopulation env).2 = offspringEnv E population count env ∧
      (∀ i, i < newPopulation.length →
        (breedLoop E population count newPopulation env).1[i]? = newPopulation[i]?) ∧
      (∀ j, j < count →
        (breedLoop E population count newPopulation env).1[newPopulation.length + j]?
          = some (some (E.getOffspring population (offspringEnv E population j env)).1)) := by
  intro count
  induction count with
  | zero =>
    intro newPopulation env
    exact ⟨rfl, fun i _ => rfl, fun j hj => absurd hj (Nat.not_lt_zero j)⟩
  | succ count ih =>
    intro newPopulation env
    obtain ⟨h1, h2, h3⟩ := ih (newPopulation ++ [some (E.getOffspring population env).1])
      (E.getOffspring population env).2
    have hlen : (newPopulation ++ [some (E.getOffspring population env).1]).length
        = newPopulation.length + 1 := by simp
    refine ⟨h1, ?_, ?_⟩
    · intro i hi
      have := h2 i (by rw [hlen]; exact Nat.lt_succ_of_lt hi)
      simp only [breedLoop]
      rw [this, List.getElem?_append_left hi]
    · intro j hj
      simp only [breedLoop]
      cases j with
      | zero =>
        have := h2 newPopulation.length (by rw [hlen]; exact Nat.lt_succ_self _)
        rw [Nat.add_zero, this]
        simp [offspringEnv]
      | succ k =>
        have := h3 k (Nat.lt_of_succ_lt_succ hj)
        rw [hlen] at this
        have hidx : newPopulation.length + (k + 1) = newPopulation.length + 1 + k := by omega
        rw [hidx, this]
        rfl

theorem assemblePopulation_spec (E : External α σ) (neat : Neat α) (env : σ) :
    (assemblePopulation E neat env).2
      = offspringEnv E neat.population (neat.popsize - neat.elitism) env ∧
    (∀ i, i < neat.elitism →
      (assemblePopulation E neat env).1[i]? = some (neat.population[i]?).join) ∧
    (∀ j, j < neat.popsize - neat.elitism →
      (assemblePopulation E neat env).1[neat.elitism + j]?
        = some (some (E.getOffspring neat.population
            (offspringEnv E neat.population j env)).1)) := by
  obtain ⟨h1, h2, h3⟩ := breedLoop_spec E neat.population (neat.popsize - neat.elitism)
    (elitismLoop neat.population neat.elitism) env
  rw [elitismLoop_length] at h2 h3
  refine ⟨h1, ?_, h3⟩
  intro i hi
  rw [← elitismLoop_getElem? neat.population neat.elitism i hi]
  exact h2 i hi

theorem assemblePopulation_take (E : External α σ) (neat : Neat α) (env : σ)
    (h : neat.elitism ≤ neat.population.length) :
    (assemblePopulation E neat env).1.take neat.elitism
      = neat.population.take neat.elitism := by
  apply List.ext_getElem?
  intro i
  by_cases hi : i < neat.elitism
  · rw [List.getElem?_take_of_lt hi, List.getElem?_take_of_lt hi,
      (assemblePopulation_spec E neat env).2.1 i hi,
      List.getElem?_eq_getElem (lt_of_lt_of_le hi h)]
    rfl
  · have h1 : ((assemblePopulation E neat env).1.take neat.elitism).length ≤ i := by
      rw [List.length_take]; exact le_trans (min_le_left _ _) (Nat.le_of_not_lt hi)
    have h2 : (neat.population.take neat.elitism).length ≤ i := by
      rw [List.length_take]; exact le_trans (min_le_left _ _) (Nat.le_of_not_lt hi)
    rw [List.getElem?_eq_none h1, List.getElem?_eq_none h2]

end NextGeneration

section NextGeneration2

variable {α : Type} [LinearOrderedField α] {σ : Type}

theorem createRockets_eq_map (population : List (Option (Genome α))) :
    createRockets population = population.map (fun genome => launchRocket genome 0) := rfl

theorem evolve_some_eq (E : External α σ) (s s' : GameState α σ) (h : evolve E s = some s') :
    s' = { rockets := createRockets (E.mutate (assembled E s).1 (assembled E s).2).1
           neat := { s.neat with
             population := (E.mutate (assembled E s).1 (assembled E s).2).1 }
           generation := s.generation + 1
           collectionTarget := createCollectionTarget
             (E.random (E.mutate (assembled E s).1 (assembled E s).2).2).1
             (E.random (E.random (E.mutate (assembled E s).1 (assembled E s).2).2).2).1
           currentFrame := 0
           bestFitness := 0
           env := (E.random (E.random (E.mutate (assembled E s).1 (assembled E s).2).2).2).2 } := by
  unfold evolve at h
  split at h
  · exact absurd h (by simp)
  · simp only [Option.some.injEq] at h
    rw [← h]
    rfl

/-- C14. When `evolve` completes (it does whenever the rocket list is non-empty
and every rocket has a brain) the generation counter is incremented by one,
`currentFrame` and `bestFitness` are reset to 0, the target is rebuilt from two
fresh draws, and the rocket list is `createRockets` of the new population:
rocket `i` carries policy `i`, and every rocket is active with lifetime 0,
fitness 0, zero velocity, angle 0, `fireAngle` 0 at
`(CANVAS_WIDTH / 2, CANVAS_HEIGHT - 300)`, so two rockets differ only in their
brain. -/
theorem evolve_starts_fresh_generation (E : External α σ) (s : GameState α σ) :
    (s.rockets ≠ [] → (∀ rocket ∈ s.rockets, rocket.brain ≠ none) →
      ∃ s', evolve E s = some s')
    ∧ ∀ s', evolve E s = some s' →
        s'.generation = s.generation + 1 ∧ s'.currentFrame = 0 ∧ s'.bestFitness = 0 ∧
        s'.collectionTarget = createCollectionTarget
          (E.random (E.mutate (assembled E s).1 (assembled E s).2).2).1
          (E.random (E.random (E.mutate (assembled E s).1 (assembled E s).2).2).2).1 ∧
        s'.rockets = createRockets s'.neat.population ∧
        s'.rockets.length = s'.neat.population.length ∧
        (∀ (i : Nat) (genome : Option (Genome α)), s'.neat.population[i]? = some genome →
          s'.rockets[i]? = some (launchRocket genome 0)) ∧
        (∀ rocket ∈ s'.rockets, rocket.active = true ∧ rocket.lifetime = 0 ∧
          rocket.fitness = 0 ∧ rocket.speedX = 0 ∧ rocket.speedY = 0 ∧ rocket.angle = 0 ∧
          rocket.fireAngle = 0 ∧ rocket.x = CANVAS_WIDTH / 2 ∧
          rocket.y = CANVAS_HEIGHT - 300) ∧
        (∀ rocket1 ∈ s'.rockets, ∀ rocket2 ∈ s'.rockets,
          { rocket1 with brain := rocket2.brain } = rocket2) := by
  constructor
  · intro hne hb
    obtain ⟨s', h, -⟩ := evolve_eq_some E s hne hb
    exact ⟨s', h⟩
  · intro s' h
    have hs := evolve_some_eq E s s' h
    have hrockets : s'.rockets = createRockets s'.neat.population := by rw [hs]
    have hmem : ∀ rocket ∈ s'.rockets, ∃ genome, rocket = launchRocket genome 0 := by
      intro rocket hr
      rw [hrockets, createRockets_eq_map, List.mem_map] at hr
      obtain ⟨genome, -, rfl⟩ := hr
      exact ⟨genome, rfl⟩
    refine ⟨by rw [hs], by rw [hs], by rw [hs], by rw [hs], hrockets, ?_, ?_, ?_, ?_⟩
    · rw [hrockets, createRockets_eq_map, List.length_map]
    · intro i genome hi
      rw [hrockets, createRockets_eq_map, List.getElem?_map, hi]
      rfl
    · intro rocket hr
      obtain ⟨genome, rfl⟩ := hmem rocket hr
      exact ⟨rfl, rfl, rfl, rfl, rfl, rfl, rfl, rfl, rfl⟩
    · intro rocket1 h1 rocket2 h2
      obtain ⟨g1, rfl⟩ := hmem rocket1 h1
      obtain ⟨g2, rfl⟩ := hmem rocket2 h2
      rfl

end NextGeneration2

section Elitism

variable {α : Type} [LinearOrderedField α] {σ : Type}

theorem scoreBefore_total (a b : Option (Genome α)) :
    scoreBefore a b = true ∨ scoreBefore b a = true := by
  unfold scoreBefore
  cases ha : scoreOf a <;> cases hb : scoreOf b <;> simp
  exact le_total _ _

theorem scoreBefore_trans (a b c : Option (Genome α))
    (h1 : scoreBefore a b = true) (h2 : scoreBefore b c = true) : scoreBefore a c = true := by
  unfold scoreBefore at *
  cases ha : scoreOf a <;> cases hb : scoreOf b <;> cases hc : scoreOf c <;>
    simp [ha, hb, hc] at h1 h2 ⊢
  exact le_trans h2 h1

theorem scoreBefore_scoreGE (a b : Option (Genome α))
    (ha : ∃ g sc, a = some g ∧ g.score = some sc) (hb : ∃ g sc, b = some g ∧ g.score = some sc)
    (h : scoreBefore a b = true) : ScoreGE a b := by
  obtain ⟨g1, s1, rfl, e1⟩ := ha
  obtain ⟨g2, s2, rfl, e2⟩ := hb
  refine ⟨g1, g2, s1, s2, rfl, rfl, e1, e2, ?_⟩
  simpa [scoreBefore, scoreOf, e1, e2] using h

theorem sortByScore_perm (population : List (Option (Genome α))) :
    List.Perm (sortByScore population) population :=
  List.perm_insertionSort _ _

theorem sortByScore_pairwise (population : List (Option (Genome α)))
    (h : ∀ slot ∈ population, ∃ g sc, slot = some g ∧ g.score = some sc) :
    List.Pairwise ScoreGE (sortByScore population) := by
  haveI : IsTotal (Option (Genome α)) (fun first second => scoreBefore first second = true) :=
    ⟨scoreBefore_total⟩
  haveI : IsTrans (Option (Genome α)) (fun first second => scoreBefore first second = true) :=
    ⟨scoreBefore_trans⟩
  have hs : List.Pairwise (fun first second => scoreBefore first second = true)
      (sortByScore population) :=
    List.sorted_insertionSort (fun first second => scoreBefore first second = true) population
  refine hs.imp_of_mem ?_
  intro a b ha hb hab
  exact scoreBefore_scoreGE a b (h a ((sortByScore_perm population).subset ha))
    (h b ((sortByScore_perm population).subset hb)) hab

/-- C15 (amended). The population assembled by `evolve`, before
`neat.mutate()`: its first `elitism` entries are the first `elitism` entries of
the population as ordered by `neat.sort()`, entry `elitism + j` is the result
of the `j`-th `getOffspring()` call, and the hidden state has then seen exactly
`popsize - elitism` such calls.  When `neat.sort()` is the descending
`sortByScore()` of the specification, the sorted population is a rearrangement
of the previous population; when moreover every policy has been scored it is in
descending score order, so that (for `elitism` at most the number of rockets)
the first `elitism` entries are highest-scoring policies of the previous
population in descending order, each scoring at least as much as every policy
left out.  `mutate` is applied once, to that whole assembled population, elites
included: the population installed by `evolve` is its result. -/
theorem evolve_population (E : External α σ) (s : GameState α σ) :
    (∀ i, i < s.neat.elitism →
      (assembled E s).1[i]? = some ((sortedPopulation E s)[i]?).join)
    ∧ (∀ j, j < s.neat.popsize - s.neat.elitism →
      (assembled E s).1[s.neat.elitism + j]?
        = some (some (E.getOffspring (sortedPopulation E s)
            (offspringEnv E (sortedPopulation E s) j s.env)).1))
    ∧ (assembled E s).2
        = offspringEnv E (sortedPopulation E s) (s.neat.popsize - s.neat.elitism) s.env
    ∧ (∀ s', evolve E s = some s' →
        s'.neat.population = (E.mutate (assembled E s).1 (assembled E s).2).1 ∧
        s'.env = (E.random (E.random (E.mutate (assembled E s).1 (assembled E s).2).2).2).2)
    ∧ (s.neat.elitism ≤ (sortedPopulation E s).length →
        List.Pairwise ScoreGE (sortedPopulation E s) →
        (assembled E s).1.take s.neat.elitism = (sortedPopulation E s).take s.neat.elitism ∧
        List.Pairwise ScoreGE ((assembled E s).1.take s.neat.elitism) ∧
        ∀ elite ∈ (assembled E s).1.take s.neat.elitism,
          ∀ other ∈ (sortedPopulation E s).drop s.neat.elitism, ScoreGE elite other)
    ∧ (List.Perm (sortedPopulation E s) (s.rockets.map (fun rocket => rocket.brain)) →
        ∀ elite ∈ (sortedPopulation E s).take s.neat.elitism,
          elite ∈ s.rockets.map (fun rocket => rocket.brain))
    ∧ (E.sort = sortByScore →
        List.Perm (sortedPopulation E s) (s.rockets.map (fun rocket => rocket.brain)) ∧
        ((∀ rocket ∈ s.rockets, ∃ genome score,
            rocket.brain = some genome ∧ genome.score = some score) →
          List.Pairwise ScoreGE (sortedPopulation E s) ∧
          (s.neat.elitism ≤ s.rockets.length →
            (assembled E s).1.take s.neat.elitism
              = (sortedPopulation E s).take s.neat.elitism ∧
            List.Pairwise ScoreGE ((assembled E s).1.take s.neat.elitism) ∧
            ∀ elite ∈ (assembled E s).1.take s.neat.elitism,
              ∀ other ∈ (sortedPopulation E s).drop s.neat.elitism, ScoreGE elite other))) := by
  obtain ⟨h1, h2, h3⟩ := assemblePopulation_spec E
    { s.neat with population := sortedPopulation E s } s.env
  have hcarry : s.neat.elitism ≤ (sortedPopulation E s).length →
      List.Pairwise ScoreGE (sortedPopulation E s) →
      (assembled E s).1.take s.neat.elitism = (sortedPopulation E s).take s.neat.elitism ∧
      List.Pairwise ScoreGE ((assembled E s).1.take s.neat.elitism) ∧
      ∀ elite ∈ (assembled E s).1.take s.neat.elitism,
        ∀ other ∈ (sortedPopulation E s).drop s.neat.elitism, ScoreGE elite other := by
    intro hle hsorted
    have htake : (assembled E s).1.take s.neat.elitism
        = (sortedPopulation E s).take s.neat.elitism :=
      assemblePopulation_take E { s.neat with population := sortedPopulation E s } s.env hle
    have hsplit := List.take_append_drop s.neat.elitism (sortedPopulation E s)
    rw [← hsplit, List.pairwise_append] at hsorted
    rw [htake]
    exact ⟨rfl, hsorted.1, hsorted.2.2⟩
  refine ⟨h2, h3, h1, ?_, hcarry, ?_, ?_⟩
  · intro s' h
    have hs := evolve_some_eq E s s' h
    constructor <;> rw [hs]
  · intro hperm elite helite
    exact hperm.subset (List.mem_of_mem_take helite)
  · intro hsort
    have hsp : sortedPopulation E s
        = sortByScore (s.rockets.map (fun rocket => rocket.brain)) := by
      unfold sortedPopulation
      rw [hsort]
    have hperm : List.Perm (sortedPopulation E s)
        (s.rockets.map (fun rocket => rocket.brain)) := by
      rw [hsp]
      exact sortByScore_perm _
    refine ⟨hperm, ?_⟩
    intro hscored
    have hpw : List.Pairwise ScoreGE (sortedPopulation E s) := by
      rw [hsp]
      apply sortByScore_pairwise
      intro slot hslot
      rw [List.mem_map] at hslot
      obtain ⟨rocket, hr, rfl⟩ := hslot
      exact hscored rocket hr
    refine ⟨hpw, ?_⟩
    intro hle
    apply hcarry _ hpw
    rw [hperm.length_eq, List.length_map]
    exact hle

end Elitism

/-- C14 (instance): the generation of `eliteState` is evolved. -/
theorem evolve_starts_fresh_generation_witness :
    ∃ s' : GameState ℚ Unit,
      evolve (fixedExternal emptyGenome (1 / 2)) (eliteState : GameState ℚ Unit) = some s' ∧
      s'.generation = (eliteState : GameState ℚ Unit).generation + 1 ∧ s'.currentFrame = 0 := by
  obtain ⟨s', h⟩ := (evolve_starts_fresh_generation (fixedExternal emptyGenome (1 / 2))
    (eliteState : GameState ℚ Unit)).1 (by simp [eliteState])
    (by simp [eliteState, launchRocket])
  obtain ⟨h1, h2, -⟩ := (evolve_starts_fresh_generation (fixedExternal emptyGenome (1 / 2))
    (eliteState : GameState ℚ Unit)).2 s' h
  exact ⟨s', h, h1, h2⟩

/-- C15 (counterexample). One rocket whose policy has score 5, `popsize = 1`,
`elitism = 1`, and an evolver whose `mutate` rewires every policy: the elite is
first in the assembled population, but the policy installed by `evolve` answers
`[1, 0, 0]` where the elite answered `[]`. -/
theorem elite_is_mutated :
    ∃ s' : GameState ℚ Unit,
      evolve rewiringExternal (eliteState : GameState ℚ Unit) = some s' ∧
      (sortedPopulation rewiringExternal (eliteState : GameState ℚ Unit))[0]?
        = some (some (scoredGenome 5)) ∧
      (assembled rewiringExternal (eliteState : GameState ℚ Unit)).1[0]?
        = some (some (scoredGenome 5)) ∧
      s'.neat.population[0]? ≠ some (some (scoredGenome 5)) := by
  refine ⟨_, rfl, rfl, rfl, ?_⟩
  intro h
  have hlen := congrArg (fun slot : Option (Option (Genome ℚ)) =>
    (slot.bind id).map (fun genome => (genome.activate []).length)) h
  simp [rewiringExternal, assembled, sortedPopulation, assemblePopulation, elitismLoop,
    breedLoop, eliteState, launchRocket, scoredGenome] at hlen

/-- C15 (instance of the amended statement): four policies scored 1, 5, 3, 2
with `elitism = 2`, `popsize = 4` and the descending sort: the population is
ordered 5, 3, 2, 1, the elites 5 and 3 head the assembled population, each
scores at least as much as the policies 2 and 1 left out, and entries 2 and 3
are the results of the first and the second `getOffspring()` call. -/
theorem evolve_population_witness :
    (countingExternal : External ℚ Nat).sort = sortByScore ∧
    (∀ rocket ∈ (rankedState : GameState ℚ Nat).rockets, ∃ genome score,
      rocket.brain = some genome ∧ genome.score = some score) ∧
    (rankedState : GameState ℚ Nat).neat.elitism
      ≤ (rankedState : GameState ℚ Nat).rockets.length ∧
    sortedPopulation countingExternal (rankedState : GameState ℚ Nat)
      = [some (scoredGenome 5), some (scoredGenome 3), some (scoredGenome 2),
         some (scoredGenome 1)] ∧
    List.Pairwise ScoreGE (sortedPopulation countingExternal (rankedState : GameState ℚ Nat)) ∧
    (assembled countingExternal (rankedState : GameState ℚ Nat)).1.take 2
      = [some (scoredGenome 5), some (scoredGenome 3)] ∧
    (∀ elite ∈ [some (scoredGenome (5 : ℚ)), some (scoredGenome 3)],
      ∀ other ∈ [some (scoredGenome (2 : ℚ)), some (scoredGenome 1)], ScoreGE elite other) ∧
    (assembled countingExternal (rankedState : GameState ℚ Nat)).1[2]?
      = some (some (taggedGenome 0)) ∧
    (assembled countingExternal (rankedState : GameState ℚ Nat)).1[3]?
      = some (some (taggedGenome 1)) ∧
    (assembled countingExternal (rankedState : GameState ℚ Nat)).2 = 2 := by
  have hsorted : sortedPopulation countingExternal (rankedState : GameState ℚ Nat)
      = [some (scoredGenome 5), some (scoredGenome 3), some (scoredGenome 2),
         some (scoredGenome 1)] := by
    simp [sortedPopulation, countingExternal, rankedState, sortByScore, scoredRocket,
      launchRocket, List.insertionSort, List.orderedInsert, scoreBefore, scoreOf, scoredGenome]
  have hscored : ∀ rocket ∈ (rankedState : GameState ℚ Nat).rockets, ∃ genome score,
      rocket.brain = some genome ∧ genome.score = some score := by
    intro rocket hmem
    simp only [rankedState, List.mem_cons, List.mem_singleton, List.not_mem_nil, or_false]
      at hmem
    rcases hmem with rfl | rfl | rfl | rfl
    · exact ⟨scoredGenome 1, 1, rfl, rfl⟩
    · exact ⟨scoredGenome 5, 5, rfl, rfl⟩
    · exact ⟨scoredGenome 3, 3, rfl, rfl⟩
    · exact ⟨scoredGenome 2, 2, rfl, rfl⟩
  have hle : (rankedState : GameState ℚ Nat).neat.elitism
      ≤ (rankedState : GameState ℚ Nat).rockets.length := by
    show 2 ≤ 4
    decide
  obtain ⟨-, hoff, henv, -, -, -, hrank⟩ :=
    evolve_population countingExternal (rankedState : GameState ℚ Nat)
  obtain ⟨-, hrest⟩ := hrank rfl
  obtain ⟨hpw, hcarry⟩ := hrest hscored
  obtain ⟨htake, -, hge⟩ := hcarry hle
  have htake2 : (assembled countingExternal (rankedState : GameState ℚ Nat)).1.take 2
      = [some (scoredGenome 5), some (scoredGenome 3)] := by
    have h := htake
    rw [hsorted] at h
    exact h
  refine ⟨rfl, hscored, hle, hsorted, hpw, htake2, ?_, hoff 0 (by decide), hoff 1 (by decide),
    henv⟩
  intro elite helite other hother
  apply hge elite
  · have h : (assembled countingExternal (rankedState : GameState ℚ Nat)).1.take
        (rankedState : GameState ℚ Nat).neat.elitism
        = [some (scoredGenome 5), some (scoredGenome 3)] := htake2
    rw [h]
    exact helite
  · rw [hsorted]
    exact hother

section AscentRun

variable {α : Type} [LinearOrderedField α] [FloorRing α] {σ : Type}

/-! ## Straight ascent, stated on the run itself -/

theorem runTicks_prefix (M : MathFns α) :
    ∀ (n : Nat) (s0 s : GameState α σ), runTicks M n s0 = some s →
      ∀ j, j ≤ n → ∃ sj, runTicks M j s0 = some sj := by
  intro n
  induction n with
  | zero =>
    intro s0 s h j hj
    have : j = 0 := Nat.le_zero.mp hj
    subst this
    exact ⟨s, h⟩
  | succ n ih =>
    intro s0 s h j hj
    rcases Nat.lt_or_ge j (n + 1) with hlt | hge
    · simp only [runTicks, Option.bind_eq_some] at h
      obtain ⟨s1, h1, -⟩ := h
      exact ih s0 s1 h1 j (Nat.le_of_lt_succ hlt)
    · have : j = n + 1 := Nat.le_antisymm hj hge
      subst this
      exact ⟨s, h⟩

/-- One tick of the straight ascent: from the closed-form state after `n` ticks
to the closed-form state after `n + 1` ticks; the rocket stays active exactly
when it is not on the target. -/
theorem thrust_step (M : MathFns α) (hsin : M.sin 0 = 0) (hcos : M.cos 0 = 1)
    (s1 s : GameState α σ) (hs : updateRockets M s1 = some s) (i n : Nat) (hn : n + 1 ≤ 176)
    (r : Rocket α) (g : Genome α) (hget : s1.rockets[i]? = some r)
    (hx : r.x = 960) (hy : r.y = 780 - (n : α) * ((n : α) + 1) / 40) (hsx : r.speedX = 0)
    (hsy : r.speedY = -((n : α) / 20)) (hang : r.angle = 0) (hw : r.width = 450)
    (hh : r.height = 280) (hact : r.active = true) (hlife : r.lifetime = n)
    (hbr : r.brain = some g)
    (hout : ∀ inputs, gtHalf (g.activate inputs)[0]? = true ∧
      gtHalf (g.activate inputs)[1]? = false ∧ gtHalf (g.activate inputs)[2]? = false) :
    ∃ r' g', s.rockets[i]? = some r' ∧ r'.x = 960 ∧
      r'.y = 780 - ((n + 1 : Nat) : α) * (((n + 1 : Nat) : α) + 1) / 40 ∧ r'.speedX = 0 ∧
      r'.speedY = -(((n + 1 : Nat) : α) / 20) ∧ r'.angle = 0 ∧ r'.width = 450 ∧
      r'.height = 280 ∧
      r'.active = !checkCollision M.sqrt r' s1.collectionTarget ∧
      r'.lifetime = n + 1 ∧ r'.brain = some g' ∧ g'.activate = g.activate := by
  obtain ⟨r', b, b', hget', hupd⟩ := updateRockets_getElem? M s1 s hs i r hget
  obtain ⟨r2, b2, hupd2, fx, fy, fsx, fsy, fang, -, -, fw, fh, fl, -, fbr, -, fact⟩ :=
    updateRocket_active M s1.collectionTarget r b g hact hbr
  rw [hupd2] at hupd
  simp only [Option.some.injEq, Prod.mk.injEq] at hupd
  obtain ⟨rfl, -⟩ := hupd
  have hcast : ((n + 1 : Nat) : α) = (n : α) + 1 := by push_cast; ring
  have hn' : (n : α) + 1 ≤ 176 := by
    rw [← hcast]; exact_mod_cast hn
  have hn0 : (0 : α) ≤ (n : α) := Nat.cast_nonneg n
  have hynew : r.y + r.speedY - 1 / 20 = 780 - ((n : α) + 1) * ((n : α) + 1 + 1) / 40 := by
    rw [hy, hsy]; ring
  have hprod0 : 0 ≤ ((n : α) + 1) * ((n : α) + 1 + 1) := by positivity
  have hprod1 : ((n : α) + 1) * ((n : α) + 1 + 1) ≤ 176 * 177 :=
    mul_le_mul hn' (by linarith) (by linarith) (by norm_num)
  obtain ⟨px, py, psx, psy, pang, pact⟩ := afterPhysics_thrust M hsin hcos s1.collectionTarget
    r g hout hang hsx
    (by rw [hx]; norm_num)
    (by rw [hx, hw]; simp only [CANVAS_WIDTH]; norm_num)
    (by rw [hynew]; linarith)
    (by rw [hynew, hh]; simp only [CANVAS_HEIGHT]; linarith)
  obtain ⟨qw, qh, ql⟩ := afterPhysics_frame M s1.collectionTarget r g
  have hcc : checkCollision M.sqrt r2 s1.collectionTarget
      = checkCollision M.sqrt (afterPhysics M s1.collectionTarget r g) s1.collectionTarget :=
    checkCollision_congr M.sqrt _ _ _ fx fy fw fh
  refine ⟨r2, ⟨g.activate, some r2.fitness⟩, hget', ?_, ?_, ?_, ?_, ?_, ?_, ?_, ?_, ?_, fbr, rfl⟩
  · rw [fx, px, hx]
  · rw [fy, py, hynew, hcast]
  · rw [fsx, psx]
  · rw [fsy, psy, hsy, hcast]; ring
  · rw [fang, pang]
  · rw [fw, qw, hw]
  · rw [fh, qh, hh]
  · rw [fact, pact, hact, hcc]; rfl
  · rw [fl, ql, hlife]

/-- Closed form of the straight ascent, with the absence of a hit stated on the
rockets of the run. -/
theorem thrust_trajectory_run (M : MathFns α) (hsin : M.sin 0 = 0) (hcos : M.cos 0 = 1)
    (s0 : GameState α σ) (i : Nat) (r0 : Rocket α) (brain : Genome α)
    (hi : s0.rockets[i]? = some r0)
    (hr0 : r0.x = 960 ∧ r0.y = 780 ∧ r0.speedX = 0 ∧ r0.speedY = 0 ∧ r0.angle = 0 ∧
      r0.width = 450 ∧ r0.height = 280 ∧ r0.active = true ∧ r0.lifetime = 0)
    (hb : r0.brain = some brain)
    (hout : ∀ inputs, gtHalf (brain.activate inputs)[0]? = true ∧
      gtHalf (brain.activate inputs)[1]? = false ∧ gtHalf (brain.activate inputs)[2]? = false) :
    ∀ (n : Nat), n ≤ 176 → ∀ s, runTicks M n s0 = some s →
      (∀ j : Nat, 1 ≤ j → j ≤ n → ∀ sj r, runTicks M j s0 = some sj →
        sj.rockets[i]? = some r → checkCollision M.sqrt r s0.collectionTarget = false) →
        ∃ r g, s.rockets[i]? = some r ∧ r.x = 960 ∧
          r.y = 780 - (n : α) * ((n : α) + 1) / 40 ∧ r.speedX = 0 ∧
          r.speedY = -((n : α) / 20) ∧ r.angle = 0 ∧ r.width = 450 ∧ r.height = 280 ∧
          r.active = true ∧ r.lifetime = n ∧ r.brain = some g ∧
          g.activate = brain.activate := by
  intro n
  induction n with
  | zero =>
    intro _ s hs _
    simp only [runTicks, Option.some.injEq] at hs
    subst hs
    obtain ⟨h1, h2, h3, h4, h5, h6, h7, h8, h9⟩ := hr0
    refine ⟨r0, brain, hi, h1, ?_, h3, ?_, h5, h6, h7, h8, h9, hb, rfl⟩
    · rw [h2]; simp
    · rw [h4]; simp
  | succ n ih =>
    intro hn s hs hmiss
    have hs' := hs
    simp only [runTicks, Option.bind_eq_some] at hs'
    obtain ⟨s1, hs1, hs2⟩ := hs'
    obtain ⟨r, g, hget, hx, hy, hsx, hsy, hang, hw, hh, hact, hlife, hbr, hg⟩ :=
      ih (Nat.le_of_succ_le hn) s1 hs1
        (fun j h1 h2 sj rj hsj hrj => hmiss j h1 (Nat.le_succ_of_le h2) sj rj hsj hrj)
    have ht : s1.collectionTarget = s0.collectionTarget := (runTicks_target M n s0 s1 hs1).1
    obtain ⟨r', g', hget', hx', hy', hsx', hsy', hang', hw', hh', hact', hlife', hbr', hg'⟩ :=
      thrust_step M hsin hcos s1 s hs2 i n hn r g hget hx hy hsx hsy hang hw hh hact hlife hbr
        (by intro inputs; rw [hg]; exact hout inputs)
    have hfree := hmiss (n + 1) (Nat.succ_le_succ (Nat.zero_le n)) (Nat.le_refl _) s r' hs hget'
    rw [ht, hfree] at hact'
    exact ⟨r', g', hget', hx', hy', hsx', hsy', hang', hw', hh', hact', hlife', hbr',
      hg'.trans hg⟩

end AscentRun

section AscentReal

theorem thrust_policy_outputs (brain : Genome ℝ)
    (hpolicy : ∀ inputs, brain.activate inputs = [JsNum.num 1, JsNum.num 0, JsNum.num 0])
    (inputs : List ℝ) :
    gtHalf (brain.activate inputs)[0]? = true ∧ gtHalf (brain.activate inputs)[1]? = false ∧
    gtHalf (brain.activate inputs)[2]? = false := by
  rw [hpolicy]
  simp only [gtHalf, List.getElem?_cons_zero, List.getElem?_cons_succ, decide_eq_true_eq,
    decide_eq_false_iff_not]
  norm_num

theorem launchRocket_fields (brain : Option (Genome ℝ)) :
    (launchRocket brain (0 : ℝ)).x = 960 ∧ (launchRocket brain (0 : ℝ)).y = 780 ∧
    (launchRocket brain (0 : ℝ)).speedX = 0 ∧ (launchRocket brain (0 : ℝ)).speedY = 0 ∧
    (launchRocket brain (0 : ℝ)).angle = 0 ∧ (launchRocket brain (0 : ℝ)).width = 450 ∧
    (launchRocket brain (0 : ℝ)).height = 280 ∧ (launchRocket brain (0 : ℝ)).active = true ∧
    (launchRocket brain (0 : ℝ)).lifetime = 0 :=
  ⟨by simp only [launchRocket, CANVAS_WIDTH]; norm_num,
   by simp only [launchRocket, CANVAS_HEIGHT]; norm_num, rfl, rfl, rfl, rfl, rfl, rfl, rfl⟩

/-- C16. A rocket in the `createRockets` start state whose policy always
answers `[1, 0, 0]`: for every `n <= 176` such that the rocket has not hit the
target during ticks `1..n`, after `n` ticks of `updateRockets` it is active with
`angle = 0`, `x = 960`, `speedX = 0`, `speedY = -(THRUST - GRAVITY) * n = -0.05 n`
and `y = 780 - 0.025 n (n + 1)`; and `y` strictly decreases on each of those
ticks. -/
theorem constant_thrust_trajectory {σ : Type} (s0 : GameState ℝ σ) (i : Nat)
    (brain : Genome ℝ) (hstart : s0.rockets[i]? = some (launchRocket (some brain) 0))
    (hpolicy : ∀ inputs, brain.activate inputs = [JsNum.num 1, JsNum.num 0, JsNum.num 0])
    (n : Nat) (hn : n ≤ 176) (s : GameState ℝ σ)
    (hrun : runTicks
      ⟨Real.sin, Real.cos, Real.exp, Real.sqrt, fun y x => Complex.arg ⟨x, y⟩, Real.pi⟩
      n s0 = some s)
    (hmiss : ∀ j : Nat, 1 ≤ j → j ≤ n → ∀ sj r,
      runTicks ⟨Real.sin, Real.cos, Real.exp, Real.sqrt, fun y x => Complex.arg ⟨x, y⟩, Real.pi⟩
        j s0 = some sj →
      sj.rockets[i]? = some r → checkCollision Real.sqrt r s0.collectionTarget = false) :
    (∃ r, s.rockets[i]? = some r ∧ r.active = true ∧ r.angle = 0 ∧ r.x = 960 ∧
      r.speedX = 0 ∧ r.speedY = -((THRUST - GRAVITY) * (n : ℝ)) ∧
      r.speedY = -(0.05 * (n : ℝ)) ∧ r.y = 780 - 0.025 * (n : ℝ) * ((n : ℝ) + 1))
    ∧ (∀ j : Nat, j < n → ∃ sj sj' rj rj',
        runTicks ⟨Real.sin, Real.cos, Real.exp, Real.sqrt, fun y x => Complex.arg ⟨x, y⟩, Real.pi⟩
          j s0 = some sj ∧
        runTicks ⟨Real.sin, Real.cos, Real.exp, Real.sqrt, fun y x => Complex.arg ⟨x, y⟩, Real.pi⟩
          (j + 1) s0 = some sj' ∧
        sj.rockets[i]? = some rj ∧ sj'.rockets[i]? = some rj' ∧ rj'.y < rj.y) := by
  have htraj := thrust_trajectory_run
    ⟨Real.sin, Real.cos, Real.exp, Real.sqrt, fun y x => Complex.arg ⟨x, y⟩, Real.pi⟩
    Real.sin_zero Real.cos_zero s0 i (launchRocket (some brain) 0) brain hstart
    (launchRocket_fields (some brain)) rfl (thrust_policy_outputs brain hpolicy)
  constructor
  · obtain ⟨r, g, hget, hx, hy, hsx, hsy, hang, -, -, hact, -⟩ := htraj n hn s hrun hmiss
    refine ⟨r, hget, hact, hang, hx, hsx, ?_, ?_, ?_⟩
    · rw [hsy]; simp only [THRUST, GRAVITY]; ring
    · rw [hsy]; norm_num; ring
    · rw [hy]; norm_num; ring
  · intro j hj
    obtain ⟨sj, hsj⟩ := runTicks_prefix _ n s0 s hrun j (Nat.le_of_lt hj)
    obtain ⟨sj', hsj'⟩ := runTicks_prefix _ n s0 s hrun (j + 1) hj
    obtain ⟨rj, -, hgetj, -, hyj, -⟩ := htraj j (by omega) sj hsj
      (fun k h1 h2 sk rk hsk hrk => hmiss k h1 (by omega) sk rk hsk hrk)
    obtain ⟨rj', -, hgetj', -, hyj', -⟩ := htraj (j + 1) (by omega) sj' hsj'
      (fun k h1 h2 sk rk hsk hrk => hmiss k h1 (by omega) sk rk hsk hrk)
    refine ⟨sj, sj', rj, rj', hsj, hsj', hgetj, hgetj', ?_⟩
    rw [hyj, hyj']
    have hj0 : (0 : ℝ) ≤ (j : ℝ) := Nat.cast_nonneg j
    push_cast
    nlinarith

/-- C16 (instance): the first 102 ticks of the ascent towards the target drawn
with both draws `7/8`. -/
theorem constant_thrust_trajectory_witness :
    ∃ (s : GameState ℝ Unit) (r : Rocket ℝ),
      runTicks ⟨Real.sin, Real.cos, Real.exp, Real.sqrt, fun y x => Complex.arg ⟨x, y⟩, Real.pi⟩
        102 (soloStart thrustGenome (7 / 8)) = some s ∧
      s.rockets[0]? = some r ∧ r.active = true ∧ r.speedY = -(0.05 * ((102 : Nat) : ℝ)) ∧
      r.y = 780 - 0.025 * ((102 : Nat) : ℝ) * (((102 : Nat) : ℝ) + 1) := by
  have hbrains : ∀ rocket ∈ (soloStart (thrustGenome : Genome ℝ) (7 / 8)).rockets,
      rocket.brain ≠ none := by
    intro r hr
    rw [(soloStart_fields _ _).1] at hr
    have hmem := (createRockets_mem _ r hr).2.2.2.2.2.2.2.2.2.2.2.2
    simp only [List.mem_singleton] at hmem
    rw [hmem]
    simp
  obtain ⟨s, hs, -⟩ := runTicks_isSome
    ⟨Real.sin, Real.cos, Real.exp, Real.sqrt, fun y x => Complex.arg ⟨x, y⟩, Real.pi⟩ 102 _ hbrains
  have hmiss : ∀ j : Nat, 1 ≤ j → j ≤ 102 → ∀ sj r,
      runTicks ⟨Real.sin, Real.cos, Real.exp, Real.sqrt, fun y x => Complex.arg ⟨x, y⟩, Real.pi⟩
        j (soloStart (thrustGenome : Genome ℝ) (7 / 8)) = some sj →
      sj.rockets[0]? = some r →
      checkCollision Real.sqrt r (soloStart (thrustGenome : Genome ℝ) (7 / 8)).collectionTarget
        = false := by
    intro j _ hj sj r hsj hr
    obtain ⟨r', -, hget, hx, hy, -, -, -, hw, hh, -⟩ :=
      thrust_trajectory ⟨Real.sin, Real.cos, Real.exp, Real.sqrt, fun y x => Complex.arg ⟨x, y⟩,
        Real.pi⟩ Real.sin_zero Real.cos_zero (soloStart (thrustGenome : Genome ℝ) (7 / 8)) 0 _
        thrustGenome ascent_start (launchRocket_fields (some thrustGenome))
        rfl thrustGenome_outputs j (by omega)
        (fun k _ hk r hx hy hw hh => ascent_no_hit k (by omega) r hx hy hw hh) sj hsj
    rw [hr] at hget
    simp only [Option.some.injEq] at hget
    subst hget
    exact ascent_no_hit j hj r hx hy hw hh
  obtain ⟨r, hget, hact, -, -, -, -, hsy, hy⟩ :=
    (constant_thrust_trajectory (soloStart (thrustGenome : Genome ℝ) (7 / 8)) 0 thrustGenome
      ascent_start (fun _ => rfl) 102 (by norm_num) s hs hmiss).1
  exact ⟨s, r, hs, hget, hact, hsy, hy⟩

end AscentReal

section Playfield

variable {α : Type} [LinearOrderedField α]

/-! ## Every rocket stays inside the playfield -/

theorem keepRocketInBounds_of_not_inBounds (rocket : Rocket α) (h : ¬InBounds rocket) :
    (keepRocketInBounds rocket).active = false ∧ (keepRocketInBounds rocket).speedX = 0 ∧
    (keepRocketInBounds rocket).speedY = 0 := by
  have hout : rocket.x < 0 ∨ rocket.x > CANVAS_WIDTH - rocket.width ∨
      rocket.y < 0 ∨ rocket.y > CANVAS_HEIGHT - rocket.height := by
    by_contra hno
    simp only [not_or, not_lt, gt_iff_lt] at hno
    exact h ⟨hno.1, hno.2.1, hno.2.2.1, hno.2.2.2⟩
  unfold keepRocketInBounds
  rw [if_pos hout]
  exact ⟨rfl, rfl, rfl⟩

variable [FloorRing α] {σ : Type}

theorem updateRocket_inBounds (M : MathFns α) (target : Target α) (rocket rocket' : Rocket α)
    (b b' : α)
    (hinv : rocket.width ≤ CANVAS_WIDTH ∧ rocket.height ≤ CANVAS_HEIGHT ∧ InBounds rocket)
    (h : updateRocket M target rocket b = some (rocket', b')) :
    rocket'.width ≤ CANVAS_WIDTH ∧ rocket'.height ≤ CANVAS_HEIGHT ∧ InBounds rocket' := by
  obtain ⟨hw, hh, hin⟩ := hinv
  cases hact : rocket.active with
  | false =>
    rw [updateRocket_inactive M target rocket b hact] at h
    simp only [Option.some.injEq, Prod.mk.injEq] at h
    rw [← h.1]
    exact ⟨hw, hh, hin⟩
  | true =>
    cases hbr : rocket.brain with
    | none =>
      rw [updateRocket_no_brain M target rocket b hact hbr] at h
      exact absurd h (by simp)
    | some g =>
      obtain ⟨r1, b1, h1, hx, hy, -, -, -, -, -, hw1, hh1, -⟩ :=
        updateRocket_active M target rocket b g hact hbr
      rw [h1] at h
      simp only [Option.some.injEq, Prod.mk.injEq] at h
      obtain ⟨rfl, -⟩ := h
      obtain ⟨fw, fh, -⟩ := afterPhysics_frame M target rocket g
      have hk := keepRocketInBounds_frame (updatePosition (applyNetworkOutputs M
        { rocket with lifetime := rocket.lifetime + 1 }
        (g.activate (calculateNeuralInputs M target
          { rocket with lifetime := rocket.lifetime + 1 }))))
      have hb : InBounds (afterPhysics M target rocket g) := by
        apply keepRocketInBounds_inBounds
        · have := fw; simp only [afterPhysics] at this; rw [hk.1] at this; rw [this]; exact hw
        · have := fh; simp only [afterPhysics] at this; rw [hk.2.1] at this; rw [this]; exact hh
      refine ⟨by rw [hw1, fw]; exact hw, by rw [hh1, fh]; exact hh, ?_⟩
      unfold InBounds at hb ⊢
      rw [hx, hy, hw1, hh1]
      exact hb

/-- C17. In every state reached from `createRockets` by `updateRockets` ticks,
whatever the policies and the target, every rocket (active or not) is inside
the playfield.  `keepRocketInBounds` returns a rocket already inside the bounds
unchanged, and otherwise (for a box no larger than the playfield) returns a
rocket inside the bounds that is inactive and has zero velocity. -/
theorem rockets_stay_in_playfield (M : MathFns α) :
    (∀ (population : List (Option (Genome α))) (n : Nat) (s0 s : GameState α σ),
      s0.rockets = createRockets population → runTicks M n s0 = some s →
      ∀ rocket ∈ s.rockets, rocket.width ≤ CANVAS_WIDTH ∧ rocket.height ≤ CANVAS_HEIGHT ∧
        0 ≤ rocket.x ∧ rocket.x ≤ CANVAS_WIDTH - rocket.width ∧
        0 ≤ rocket.y ∧ rocket.y ≤ CANVAS_HEIGHT - rocket.height)
    ∧ (∀ rocket : Rocket α, InBounds rocket → keepRocketInBounds rocket = rocket)
    ∧ (∀ rocket : Rocket α, rocket.width ≤ CANVAS_WIDTH → rocket.height ≤ CANVAS_HEIGHT →
        ¬InBounds rocket →
        InBounds (keepRocketInBounds rocket) ∧ (keepRocketInBounds rocket).active = false ∧
        (keepRocketInBounds rocket).speedX = 0 ∧ (keepRocketInBounds rocket).speedY = 0) := by
  refine ⟨?_, keepRocketInBounds_of_inBounds, ?_⟩
  · intro population n s0 s hstart hrun rocket hmem
    exact runTicks_invariant M
      (fun _ rocket => rocket.width ≤ CANVAS_WIDTH ∧ rocket.height ≤ CANVAS_HEIGHT ∧
        InBounds rocket)
      (fun target rocket rocket' b b' hP hupd =>
        updateRocket_inBounds M target rocket rocket' b b' hP hupd)
      n s0 s hrun
      (by
        intro r hr
        rw [hstart] at hr
        obtain ⟨hx, hy, -, -, -, -, hw, hh, -⟩ := createRockets_mem population r hr
        refine ⟨?_, ?_, ?_⟩
        · rw [hw]; simp only [CANVAS_WIDTH]; norm_num
        · rw [hh]; simp only [CANVAS_HEIGHT]; norm_num
        · unfold InBounds
          rw [hx, hy, hw, hh]
          simp only [CANVAS_WIDTH, CANVAS_HEIGHT]
          norm_num)
      rocket hmem
  · intro rocket hw hh hout
    exact ⟨keepRocketInBounds_inBounds rocket hw hh, keepRocketInBounds_of_not_inBounds rocket hout⟩

end Playfield

section Lifetime

variable {α : Type} [LinearOrderedField α] {σ : Type}

/-! ## Lifetimes and the frame counter -/

theorem createRockets_lifetimeInv (population : List (Option (Genome α)))
    (s : GameState α σ) (hframe : s.currentFrame = 0)
    (hstart : s.rockets = createRockets population) : LifetimeInv s := by
  intro rocket hr
  rw [hstart] at hr
  obtain ⟨-, -, -, -, -, -, -, -, -, -, hact, hlife, -⟩ := createRockets_mem population rocket hr
  rw [hframe, hlife, hact]
  exact ⟨fun _ => rfl, fun h => absurd h (by simp)⟩

variable [FloorRing α]

theorem updateRocket_cases (M : MathFns α) (target : Target α) (rocket rocket' : Rocket α)
    (b b' : α) (h : updateRocket M target rocket b = some (rocket', b')) :
    (rocket.active = false ∧ rocket' = rocket ∧ b' = b) ∨
    (rocket.active = true ∧ rocket'.lifetime = rocket.lifetime + 1 ∧
      b' = max b rocket'.fitness ∧
      ∃ genome, rocket.brain = some genome ∧
        rocket'.fitness
          = calculateFitness M.sqrt M.exp target (afterPhysics M target rocket genome) ∧
        (afterPhysics M target rocket genome).lifetime = rocket'.lifetime ∧
        rocket'.brain = some { genome with score := some rocket'.fitness }) := by
  cases hact : rocket.active with
  | false =>
    rw [updateRocket_inactive M target rocket b hact] at h
    simp only [Option.some.injEq, Prod.mk.injEq] at h
    exact Or.inl ⟨rfl, h.1.symm, h.2.symm⟩
  | true =>
    cases hbr : rocket.brain with
    | none =>
      rw [updateRocket_no_brain M target rocket b hact hbr] at h
      exact absurd h (by simp)
    | some g =>
      obtain ⟨r1, b1, h1, -, -, -, -, -, -, -, -, -, hl, hf, hbrain, hbest, -⟩ :=
        updateRocket_active M target rocket b g hact hbr
      rw [h1] at h
      simp only [Option.some.injEq, Prod.mk.injEq] at h
      obtain ⟨rfl, rfl⟩ := h
      have hlife := (afterPhysics_frame M target rocket g).2.2
      exact Or.inr ⟨rfl, by rw [hl, hlife], hbest, g, rfl, hf, hl.symm, hbrain⟩

theorem gameLoop_lifetimeInv (M : MathFns α) (E : External α σ) (s s' : GameState α σ)
    (h : gameLoop M E s = some s') (hinv : LifetimeInv s) : LifetimeInv s' := by
  by_cases hc : LIFESPAN ≤ s.currentFrame ∨ allRocketsInactive s.rockets = true
  · rw [gameLoop_evolve M E s hc] at h
    have hs := evolve_some_eq E s s' h
    exact createRockets_lifetimeInv _ s' (by rw [hs]) (by rw [hs])
  · simp only [not_or, not_le, Bool.not_eq_true] at hc
    rw [gameLoop_tick M E s hc.1 hc.2] at h
    simp only [Option.map_eq_some'] at h
    obtain ⟨s1, hs1, rfl⟩ := h
    intro rocket' hmem
    obtain ⟨rocket, hr, b, b', hupd⟩ := updateRockets_mem M s s1 hs1 rocket' hmem
    obtain ⟨ha, hi⟩ := hinv rocket hr
    rcases updateRocket_cases M _ rocket rocket' b b' hupd with ⟨hoff, rfl, -⟩ | ⟨hon, hl, -⟩
    · constructor
      · intro hact'
        rw [hoff] at hact'
        exact absurd hact' (by simp)
      · intro _
        exact Nat.le_succ_of_le (hi hoff)
    · have hlife : rocket'.lifetime = s.currentFrame + 1 := by rw [hl, ha hon]
      exact ⟨fun _ => hlife, fun _ => le_of_eq hlife⟩

theorem runFrames_lifetimeInv (M : MathFns α) (E : External α σ) :
    ∀ (m : Nat) (s s' : GameState α σ), runFrames M E m s = some s' →
      LifetimeInv s → LifetimeInv s' := by
  intro m
  induction m with
  | zero =>
    intro s s' h hinv
    simp only [runFrames, Option.some.injEq] at h
    subst h
    exact hinv
  | succ m ih =>
    intro s s' h hinv
    simp only [runFrames, Option.bind_eq_some] at h
    obtain ⟨s1, h1, h2⟩ := h
    exact gameLoop_lifetimeInv M E s1 s' h2 (ih s s1 h1 hinv)

theorem gameLoop_lifetime_of_active (M : MathFns α) (E : External α σ) (s s' : GameState α σ)
    (h : gameLoop M E s = some s') (hinv : LifetimeInv s) (i : Nat) (rocket rocket' : Rocket α)
    (hi : s.rockets[i]? = some rocket) (hact : rocket.active = true)
    (hi' : s'.rockets[i]? = some rocket') : rocket'.lifetime = s'.currentFrame := by
  by_cases hc : LIFESPAN ≤ s.currentFrame ∨ allRocketsInactive s.rockets = true
  · rw [gameLoop_evolve M E s hc] at h
    have hs := evolve_some_eq E s s' h
    have hfresh := createRockets_lifetimeInv _ s' (by rw [hs]) (by rw [hs])
    have hmem : rocket' ∈ s'.rockets := List.getElem?_mem hi'
    have hcur : s'.currentFrame = 0 := by rw [hs]
    have hrockets : s'.rockets = createRockets s'.neat.population := by rw [hs]
    rw [hrockets] at hmem
    rw [hcur, (createRockets_mem _ rocket' hmem).2.2.2.2.2.2.2.2.2.2.2.1]
  · simp only [not_or, not_le, Bool.not_eq_true] at hc
    rw [gameLoop_tick M E s hc.1 hc.2] at h
    simp only [Option.map_eq_some'] at h
    obtain ⟨s1, hs1, rfl⟩ := h
    obtain ⟨r1, b, b', hget, hupd⟩ := updateRockets_getElem? M s s1 hs1 i rocket hi
    have hsame : r1 = rocket' := by
      have : s1.rockets[i]? = some rocket' := hi'
      rw [hget] at this
      exact Option.some.inj this
    subst hsame
    rcases updateRocket_cases M _ rocket r1 b b' hupd with ⟨hoff, -, -⟩ | ⟨-, hl, -⟩
    · rw [hact] at hoff
      exact absurd hoff (by simp)
    · rw [hl, (hinv rocket (List.getElem?_mem hi)).1 hact]

/-- C18. In every state reached by `gameLoop` frames from a generation start
(`currentFrame = 0`, rockets fresh from `createRockets`), across any number of
generations, every active rocket has `lifetime = currentFrame`, every inactive
rocket has `lifetime <= currentFrame`, and so every lifetime is at most
`LIFESPAN`; a rocket that is active before a frame has `lifetime = currentFrame`
after it, also when that frame deactivates it (its lifetime is the 1-based
index of that tick). -/
theorem lifetime_tracks_frame (M : MathFns α) (E : External α σ)
    (population : List (Option (Genome α))) (s0 s : GameState α σ) (m : Nat)
    (hframe : s0.currentFrame = 0) (hstart : s0.rockets = createRockets population)
    (hrun : runFrames M E m s0 = some s) :
    (∀ rocket ∈ s.rockets,
      (rocket.active = true → rocket.lifetime = s.currentFrame) ∧
      (rocket.active = false → rocket.lifetime ≤ s.currentFrame) ∧
      0 ≤ rocket.lifetime ∧ rocket.lifetime ≤ LIFESPAN)
    ∧ (∀ (s' : GameState α σ) (i : Nat) (rocket rocket' : Rocket α),
        gameLoop M E s = some s' → s.rockets[i]? = some rocket → rocket.active = true →
        s'.rockets[i]? = some rocket' → rocket'.lifetime = s'.currentFrame) := by
  have hinv := runFrames_lifetimeInv M E m s0 s hrun
    (createRockets_lifetimeInv population s0 hframe hstart)
  have hle : s.currentFrame ≤ LIFESPAN :=
    runFrames_currentFrame_le M E m s0 s hrun (by rw [hframe]; exact Nat.zero_le _)
  constructor
  · intro rocket hmem
    obtain ⟨ha, hi⟩ := hinv rocket hmem
    refine ⟨ha, hi, Nat.zero_le _, ?_⟩
    cases hact : rocket.active with
    | false => exact le_trans (hi hact) hle
    | true => rw [ha hact]; exact hle
  · intro s' i rocket rocket' hstep hi hact hi'
    exact gameLoop_lifetime_of_active M E s s' hstep hinv i rocket rocket' hi hact hi'

end Lifetime

section Fitness

variable {α : Type} [LinearOrderedField α] {σ : Type}

/-! ## Fitness, scores and `bestFitness` along the generation loop -/

theorem forall₂_exists_left {β γ : Type} (R : β → γ → Prop) :
    ∀ (l1 : List β) (l2 : List γ), List.Forall₂ R l1 l2 →
      ∀ c ∈ l2, ∃ a ∈ l1, R a c := by
  intro l1 l2 h
  induction h with
  | nil => intro c hc; exact absurd hc (List.not_mem_nil c)
  | cons hab _ ih =>
    intro c hc
    rcases List.mem_cons.mp hc with rfl | hc'
    · exact ⟨_, List.mem_cons_self _ _, hab⟩
    · obtain ⟨a, ha, hR⟩ := ih c hc'
      exact ⟨a, List.mem_cons_of_mem _ ha, hR⟩

theorem createRockets_fitnessInv (population : List (Option (Genome α)))
    (s : GameState α σ) (hbest : s.bestFitness = 0)
    (hstart : s.rockets = createRockets population) : FitnessInv s := by
  constructor
  · rw [hbest]
    simp only [LIFESPAN]
    norm_num
  · intro rocket hr
    rw [hstart] at hr
    obtain ⟨-, -, -, -, -, -, -, -, hfit, -, -, hlife, -⟩ := createRockets_mem population rocket hr
    rw [hfit, hlife, hbest]
    refine ⟨le_refl _, by norm_num, le_refl _, fun h => absurd h (by decide)⟩

variable [FloorRing α]

theorem updateRocketsLoop_best (M : MathFns α) (target : Target α) :
    ∀ (rockets : List (Rocket α)) (b : α) (rockets' : List (Rocket α)) (b' : α),
      updateRocketsLoop M target rockets b = some (rockets', b') →
      b ≤ b' ∧
      List.Forall₂ (fun rocket rocket' =>
          (∃ c c', updateRocket M target rocket c = some (rocket', c')) ∧
          (rocket.active = true → rocket'.fitness ≤ b')) rockets rockets' ∧
      (∀ B, b ≤ B → (∀ rocket' ∈ rockets', rocket'.fitness ≤ B) → b' ≤ B) := by
  intro rockets
  induction rockets with
  | nil =>
    intro b rockets' b' h
    simp only [updateRocketsLoop, Option.some.injEq, Prod.mk.injEq] at h
    obtain ⟨rfl, rfl⟩ := h
    exact ⟨le_refl _, List.Forall₂.nil, fun B hB _ => hB⟩
  | cons rocket rest ih =>
    intro b rockets' b' h
    unfold updateRocketsLoop at h
    cases h1 : updateRocket M target rocket b with
    | none => simp [h1] at h
    | some p =>
      obtain ⟨r1, b1⟩ := p
      simp only [h1] at h
      cases h2 : updateRocketsLoop M target rest b1 with
      | none => simp [h2] at h
      | some q =>
        obtain ⟨rs2, b2⟩ := q
        simp only [h2, Option.some.injEq, Prod.mk.injEq] at h
        obtain ⟨rfl, rfl⟩ := h
        obtain ⟨hle, hall, hbound⟩ := ih b1 rs2 b2 h2
        have hfirst : b ≤ b1 ∧ (rocket.active = true → r1.fitness ≤ b1) ∧
            (∀ B, b ≤ B → r1.fitness ≤ B → b1 ≤ B) := by
          rcases updateRocket_cases M target rocket r1 b b1 h1 with
            ⟨hoff, -, hb⟩ | ⟨-, -, hb, -⟩
          · rw [hb]
            exact ⟨le_refl _, fun hon => absurd (hoff ▸ hon) (by simp), fun B hB _ => hB⟩
          · rw [hb]
            exact ⟨le_max_left _ _, fun _ => le_max_right _ _, fun B hB hf => max_le hB hf⟩
        refine ⟨le_trans hfirst.1 hle, ?_, ?_⟩
        · exact List.Forall₂.cons ⟨⟨b, b1, h1⟩, fun hon => le_trans (hfirst.2.1 hon) hle⟩ hall
        · intro B hB hfit
          exact hbound B (hfirst.2.2 B hB (hfit r1 (List.mem_cons_self _ _)))
            (fun r' hr' => hfit r' (List.mem_cons_of_mem _ hr'))

theorem updateRockets_loop_eq (M : MathFns α) (s s' : GameState α σ)
    (h : updateRockets M s = some s') :
    updateRocketsLoop M s.collectionTarget s.rockets s.bestFitness
      = some (s'.rockets, s'.bestFitness) := by
  unfold updateRockets at h
  cases h1 : updateRocketsLoop M s.collectionTarget s.rockets s.bestFitness with
  | none => simp [h1] at h
  | some p =>
    obtain ⟨rs, b⟩ := p
    simp only [h1, Option.some.injEq] at h
    subst h
    rfl

theorem gameLoop_fitnessInv (M : MathFns α) (E : External α σ)
    (hfit : ∀ (target : Target α) (rocket : Rocket α),
      0 ≤ calculateFitness M.sqrt M.exp target rocket ∧
      calculateFitness M.sqrt M.exp target rocket ≤ 1000 + (rocket.lifetime : α) * (1 / 10))
    (s s' : GameState α σ) (h : gameLoop M E s = some s')
    (hlife : LifetimeInv s) (hinv : FitnessInv s) : FitnessInv s' := by
  by_cases hc : LIFESPAN ≤ s.currentFrame ∨ allRocketsInactive s.rockets = true
  · rw [gameLoop_evolve M E s hc] at h
    have hs := evolve_some_eq E s s' h
    exact createRockets_fitnessInv _ s' (by rw [hs]) (by rw [hs])
  · simp only [not_or, not_le, Bool.not_eq_true] at hc
    have hlife' : LifetimeInv s' := gameLoop_lifetimeInv M E s s' h hlife
    rw [gameLoop_tick M E s hc.1 hc.2] at h
    simp only [Option.map_eq_some'] at h
    obtain ⟨s1, hs1, rfl⟩ := h
    obtain ⟨hbestle, hall, hbound⟩ := updateRocketsLoop_best M _ _ _ _ _
      (updateRockets_loop_eq M s s1 hs1)
    have hrockets : ∀ rocket' ∈ s1.rockets,
        0 ≤ rocket'.fitness ∧ rocket'.fitness ≤ 1000 + (rocket'.lifetime : α) * (1 / 10) ∧
        rocket'.fitness ≤ s1.bestFitness ∧
        (1 ≤ rocket'.lifetime →
          ∃ genome, rocket'.brain = some genome ∧ genome.score = some rocket'.fitness) := by
      intro rocket' hmem
      obtain ⟨rocket, hr, ⟨c, c', hupd⟩, hnew⟩ := forall₂_exists_left _ _ _ hall rocket' hmem
      obtain ⟨h0, h1, h2, h3⟩ := hinv.2 rocket hr
      rcases updateRocket_cases M _ rocket rocket' c c' hupd with
        ⟨-, rfl, -⟩ | ⟨hon, -, -, g, -, hf, hl, hbr⟩
      · exact ⟨h0, h1, le_trans h2 hbestle, h3⟩
      · have hb := hfit s.collectionTarget (afterPhysics M s.collectionTarget rocket g)
        rw [← hf, hl] at hb
        exact ⟨hb.1, hb.2, hnew hon, fun _ => ⟨_, hbr, rfl⟩⟩
    refine ⟨?_, hrockets⟩
    apply hbound _ hinv.1
    intro rocket' hmem
    obtain ⟨-, hup, -⟩ := hrockets rocket' hmem
    have hl : rocket'.lifetime ≤ LIFESPAN := by
      obtain ⟨ha, hi⟩ := hlife' rocket' hmem
      have hframe : s.currentFrame + 1 ≤ LIFESPAN := hc.1
      cases hact : rocket'.active with
      | false => exact le_trans (hi hact) hframe
      | true => rw [ha hact]; exact hframe
    have hcast : (rocket'.lifetime : α) ≤ (LIFESPAN : α) := by exact_mod_cast hl
    linarith

theorem runFrames_fitnessInv (M : MathFns α) (E : External α σ)
    (hfit : ∀ (target : Target α) (rocket : Rocket α),
      0 ≤ calculateFitness M.sqrt M.exp target rocket ∧
      calculateFitness M.sqrt M.exp target rocket ≤ 1000 + (rocket.lifetime : α) * (1 / 10)) :
    ∀ (m : Nat) (s s' : GameState α σ), runFrames M E m s = some s' →
      LifetimeInv s → FitnessInv s → FitnessInv s' := by
  intro m
  induction m with
  | zero =>
    intro s s' h _ hinv
    simp only [runFrames, Option.some.injEq] at h
    subst h
    exact hinv
  | succ m ih =>
    intro s s' h hlife hinv
    simp only [runFrames, Option.bind_eq_some] at h
    obtain ⟨s1, h1, h2⟩ := h
    exact gameLoop_fitnessInv M E hfit s1 s' h2 (runFrames_lifetimeInv M E m s s1 h1 hlife)
      (ih s s1 h1 hlife hinv)

theorem gameLoop_tick_scores (M : MathFns α) (E : External α σ) (s s' : GameState α σ)
    (h : gameLoop M E s = some s') (h1 : s.currentFrame < LIFESPAN)
    (h2 : allRocketsInactive s.rockets = false) (hlife : LifetimeInv s)
    (i : Nat) (rocket : Rocket α) (hi : s.rockets[i]? = some rocket)
    (hact : rocket.active = true) :
    ∃ rocket' genome, s'.rockets[i]? = some rocket' ∧
      rocket'.lifetime = s.currentFrame + 1 ∧
      rocket.brain = some genome ∧
      rocket'.fitness = calculateFitness M.sqrt M.exp s.collectionTarget
        (afterPhysics M s.collectionTarget rocket genome) ∧
      rocket'.brain = some { genome with score := some rocket'.fitness } := by
  rw [gameLoop_tick M E s h1 h2, Option.map_eq_some'] at h
  obtain ⟨s1, hu, rfl⟩ := h
  obtain ⟨rocket', b, b', hi', hupd⟩ := updateRockets_getElem? M s s1 hu i rocket hi
  rcases updateRocket_cases M _ rocket rocket' b b' hupd with
    ⟨hoff, -, -⟩ | ⟨-, hl, -, genome, hb, hf, -, hbr⟩
  · rw [hact] at hoff
    exact absurd hoff (by simp)
  · refine ⟨rocket', genome, hi', ?_, hb, hf, hbr⟩
    rw [hl, (hlife rocket (List.getElem?_mem hi)).1 hact]

end Fitness

theorem calculateFitness_real_bounds (target : Target ℝ) (rocket : Rocket ℝ) :
    0 ≤ calculateFitness Real.sqrt Real.exp target rocket ∧
    calculateFitness Real.sqrt Real.exp target rocket
      ≤ 1000 + (rocket.lifetime : ℝ) * (1 / 10) := by
  rw [calculateFitness_real]
  have hd : 0 ≤ dist ((WithLp.equiv 2 (Fin 2 → ℝ)).symm (rocketCentre rocket))
      ((WithLp.equiv 2 (Fin 2 → ℝ)).symm (targetCentre target)) := dist_nonneg
  have hpos := Real.exp_pos (-(dist ((WithLp.equiv 2 (Fin 2 → ℝ)).symm (rocketCentre rocket))
      ((WithLp.equiv 2 (Fin 2 → ℝ)).symm (targetCentre target))) / 100)
  have hle : Real.exp (-(dist ((WithLp.equiv 2 (Fin 2 → ℝ)).symm (rocketCentre rocket))
      ((WithLp.equiv 2 (Fin 2 → ℝ)).symm (targetCentre target))) / 100) ≤ 1 :=
    Real.exp_le_one_iff.mpr (by linarith)
  have hl : (0 : ℝ) ≤ (rocket.lifetime : ℝ) := Nat.cast_nonneg _
  constructor
  · have : (0 : ℝ) ≤ 0.1 * (rocket.lifetime : ℝ) := by positivity
    linarith
  · have : (0.1 : ℝ) * (rocket.lifetime : ℝ) = (rocket.lifetime : ℝ) * (1 / 10) := by
      norm_num; ring
    linarith

/-- C19. In every state reached by `gameLoop` frames from a generation start
(`currentFrame = 0`, `bestFitness = 0`, rockets fresh from `createRockets`),
across any number of generations: every rocket has
`0 <= fitness <= 1000 + 0.1 * LIFESPAN = 1050`; once it has been ticked
(`lifetime >= 1`) the score of its policy is that fitness; and `bestFitness`
is at least every rocket's fitness and at most `1000 + 0.1 * LIFESPAN`.  A
rocket has been ticked when a `gameLoop` frame ran `updateRockets` on it while
it was active: such a frame, from any reached state, leaves the rocket with
`lifetime = currentFrame + 1 >= 1`, with the fitness `calculateFitness`
computes on the moved rocket, with that fitness written as the score of its
policy, and with `bestFitness` at least that fitness. -/
theorem fitness_and_best_bounds {σ : Type} (E : External ℝ σ)
    (population : List (Option (Genome ℝ))) (s0 s : GameState ℝ σ) (m : Nat)
    (hframe : s0.currentFrame = 0) (hbest : s0.bestFitness = 0)
    (hstart : s0.rockets = createRockets population)
    (hrun : runFrames
      ⟨Real.sin, Real.cos, Real.exp, Real.sqrt, fun y x => Complex.arg ⟨x, y⟩, Real.pi⟩
      E m s0 = some s) :
    (1000 + 0.1 * (LIFESPAN : ℝ) = 1050)
    ∧ s.bestFitness ≤ 1000 + 0.1 * (LIFESPAN : ℝ)
    ∧ (∀ rocket ∈ s.rockets,
        0 ≤ rocket.fitness ∧ rocket.fitness ≤ 1000 + 0.1 * (LIFESPAN : ℝ) ∧
        (1 ≤ rocket.lifetime →
          ∃ genome, rocket.brain = some genome ∧ genome.score = some rocket.fitness) ∧
        rocket.fitness ≤ s.bestFitness)
    ∧ (∀ s' : GameState ℝ σ,
        gameLoop ⟨Real.sin, Real.cos, Real.exp, Real.sqrt, fun y x => Complex.arg ⟨x, y⟩, Real.pi⟩
          E s = some s' →
        s.currentFrame < LIFESPAN → allRocketsInactive s.rockets = false →
        ∀ (i : Nat) (rocket : Rocket ℝ), s.rockets[i]? = some rocket → rocket.active = true →
          ∃ (rocket' : Rocket ℝ) (genome : Genome ℝ),
            s'.rockets[i]? = some rocket' ∧
            rocket'.lifetime = s.currentFrame + 1 ∧ 1 ≤ rocket'.lifetime ∧
            rocket.brain = some genome ∧
            rocket'.fitness = calculateFitness Real.sqrt Real.exp s.collectionTarget
              (afterPhysics
                ⟨Real.sin, Real.cos, Real.exp, Real.sqrt, fun y x => Complex.arg ⟨x, y⟩, Real.pi⟩
                s.collectionTarget rocket genome) ∧
            rocket'.brain = some { genome with score := some rocket'.fitness } ∧
            rocket'.fitness ≤ s'.bestFitness) := by
  have hlife0 := createRockets_lifetimeInv population s0 hframe hstart
  have hlife := runFrames_lifetimeInv
    ⟨Real.sin, Real.cos, Real.exp, Real.sqrt, fun y x => Complex.arg ⟨x, y⟩, Real.pi⟩ E
    m s0 s hrun hlife0
  have hinv := runFrames_fitnessInv
    ⟨Real.sin, Real.cos, Real.exp, Real.sqrt, fun y x => Complex.arg ⟨x, y⟩, Real.pi⟩ E
    calculateFitness_real_bounds m s0 s hrun hlife0
    (createRockets_fitnessInv population s0 hbest hstart)
  have hconst : (1000 : ℝ) + 0.1 * (LIFESPAN : ℝ) = 1050 := by
    simp only [LIFESPAN]; norm_num
  have hconst' : (1000 : ℝ) + (LIFESPAN : ℝ) * (1 / 10) = 1050 := by
    simp only [LIFESPAN]; norm_num
  refine ⟨hconst, ?_, ?_, ?_⟩
  · rw [hconst, ← hconst']; exact hinv.1
  · intro rocket hmem
    obtain ⟨h0, h1, h2, h3⟩ := hinv.2 rocket hmem
    refine ⟨h0, ?_, h3, h2⟩
    rw [hconst, ← hconst']
    exact le_trans h2 hinv.1
  · intro s' hstep hlt hsome i rocket hi hact
    obtain ⟨rocket', genome, hi', hl, hb, hf, hbr⟩ := gameLoop_tick_scores
      ⟨Real.sin, Real.cos, Real.exp, Real.sqrt, fun y x => Complex.arg ⟨x, y⟩, Real.pi⟩ E
      s s' hstep hlt hsome hlife i rocket hi hact
    have hinv' := gameLoop_fitnessInv
      ⟨Real.sin, Real.cos, Real.exp, Real.sqrt, fun y x => Complex.arg ⟨x, y⟩, Real.pi⟩ E
      calculateFitness_real_bounds s s' hstep hlife hinv
    refine ⟨rocket', genome, hi', hl, ?_, hb, hf, hbr, ?_⟩
    · rw [hl]; exact Nat.le_add_left 1 _
    · exact (hinv'.2 rocket' (List.getElem?_mem hi')).2.2.1

section Remainder

variable {α : Type} [LinearOrderedField α] [FloorRing α]

/-! ## The angle sensors (`calculateNeuralInputs`) -/

theorem jsRem_bounds (a b : α) (hb : 0 < b) :
    (0 ≤ a → 0 ≤ jsRem a b ∧ jsRem a b < b) ∧ (a ≤ 0 → -b < jsRem a b ∧ jsRem a b ≤ 0) := by
  have hq : b * (a / b) = a := mul_div_cancel₀ a (ne_of_gt hb)
  constructor
  · intro ha
    have hq0 : 0 ≤ a / b := div_nonneg ha hb.le
    have h1 : ((Int.floor (a / b) : Int) : α) ≤ a / b := Int.floor_le _
    have h2 : a / b < ((Int.floor (a / b) : Int) : α) + 1 := Int.lt_floor_add_one _
    simp only [jsRem, if_pos hq0]
    constructor
    · have := mul_le_mul_of_nonneg_left h1 hb.le
      rw [hq] at this
      linarith
    · have := mul_lt_mul_of_pos_left h2 hb
      rw [hq] at this
      linarith
  · intro ha
    rcases eq_or_lt_of_le ha with h0 | hneg
    · subst h0
      have hz : jsRem (0 : α) b = 0 := by
        simp [jsRem]
      rw [hz]
      exact ⟨by linarith, le_refl _⟩
    · have hq0 : ¬(0 ≤ a / b) := not_le.mpr (div_neg_of_neg_of_pos hneg hb)
      have h1 : a / b ≤ ((Int.ceil (a / b) : Int) : α) := Int.le_ceil _
      have h2 : ((Int.ceil (a / b) : Int) : α) < a / b + 1 := Int.ceil_lt_add_one _
      simp only [jsRem, if_neg hq0]
      constructor
      · have := mul_lt_mul_of_pos_left h2 hb
        rw [mul_add, hq] at this
        linarith
      · have := mul_le_mul_of_nonneg_left h1 hb.le
        rw [hq] at this
        linarith

theorem calculateNeuralInputs_angles (M : MathFns α) (target : Target α) (rocket : Rocket α) :
    (calculateNeuralInputs M target rocket)[4]?
      = some (M.atan2 (target.y + target.height / 2 - (rocket.y + rocket.height / 2))
          (target.x + target.width / 2 - (rocket.x + rocket.width / 2)) / (2 * M.pi)) ∧
    (calculateNeuralInputs M target rocket)[5]?
      = some (jsRem rocket.angle (2 * M.pi) / (2 * M.pi)) ∧
    (calculateNeuralInputs M target rocket)[6]?
      = some (M.atan2 (target.y + target.height / 2 - (rocket.y + rocket.height / 2))
          (target.x + target.width / 2 - (rocket.x + rocket.width / 2)) / (2 * M.pi)
        - jsRem rocket.angle (2 * M.pi) / (2 * M.pi)) :=
  ⟨rfl, rfl, rfl⟩

theorem jsRem_eq_sub (a b : α) : ∃ k : ℤ, jsRem a b = a - b * (k : α) :=
  ⟨_, rfl⟩

theorem jsRem_eq_zero_iff (a b : α) (hb : 0 < b) :
    jsRem a b = 0 ↔ ∃ k : ℤ, a = (k : α) * b := by
  constructor
  · intro h
    obtain ⟨k, hk⟩ := jsRem_eq_sub a b
    refine ⟨k, ?_⟩
    rw [hk] at h
    linarith [mul_comm b (k : α)]
  · rintro ⟨k, rfl⟩
    have hq : (k : α) * b / b = (k : α) := mul_div_cancel_right₀ _ (ne_of_gt hb)
    simp only [jsRem, hq, Int.floor_intCast, Int.ceil_intCast, ite_self]
    ring

theorem jsRem_of_abs_lt (a b : α) (hb : 0 < b) (h : |a| < b) : jsRem a b = a := by
  obtain ⟨hlo, hhi⟩ := abs_lt.mp h
  have h1 : a / b < 1 := by
    rw [div_lt_iff₀ hb]; linarith
  have h2 : -1 < a / b := by
    rw [lt_div_iff₀ hb]; linarith
  by_cases hq : 0 ≤ a / b
  · have hf : Int.floor (a / b) = 0 := Int.floor_eq_zero_iff.mpr ⟨hq, h1⟩
    simp only [jsRem, if_pos hq, hf, Int.cast_zero, mul_zero, sub_zero]
  · have hc : Int.ceil (a / b) = 0 := Int.ceil_eq_zero_iff.mpr ⟨h2, le_of_lt (not_le.mp hq)⟩
    simp only [jsRem, if_neg hq, hc, Int.cast_zero, mul_zero, sub_zero]

theorem jsRem_sign (a b : α) (hb : 0 < b) (hk : ∀ k : ℤ, a ≠ (k : α) * b) :
    (0 < a → 0 < jsRem a b) ∧ (a < 0 → jsRem a b < 0) := by
  have hne : jsRem a b ≠ 0 := fun h0 => by
    obtain ⟨k, e⟩ := (jsRem_eq_zero_iff a b hb).mp h0
    exact hk k e
  obtain ⟨hpos, hneg⟩ := jsRem_bounds a b hb
  constructor
  · intro ha
    exact lt_of_le_of_ne (hpos ha.le).1 (Ne.symm hne)
  · intro ha
    exact lt_of_le_of_ne (hneg ha.le).2 hne

end Remainder

theorem angle_sensors_range (target : Target ℝ) (rocket : Rocket ℝ) :
    ∃ c5 c6 c7 : ℝ,
      (calculateNeuralInputs
        ⟨Real.sin, Real.cos, Real.exp, Real.sqrt, fun y x => Complex.arg ⟨x, y⟩, Real.pi⟩
        target rocket)[4]? = some c5 ∧
      (calculateNeuralInputs
        ⟨Real.sin, Real.cos, Real.exp, Real.sqrt, fun y x => Complex.arg ⟨x, y⟩, Real.pi⟩
        target rocket)[5]? = some c6 ∧
      (calculateNeuralInputs
        ⟨Real.sin, Real.cos, Real.exp, Real.sqrt, fun y x => Complex.arg ⟨x, y⟩, Real.pi⟩
        target rocket)[6]? = some c7 ∧
      -(1 / 2) ≤ c5 ∧ c5 ≤ 1 / 2 ∧
      (target.y + target.height / 2 < rocket.y + rocket.height / 2 → c5 < 0) ∧
      -1 < c6 ∧ c6 < 1 ∧ (0 ≤ rocket.angle → 0 ≤ c6) ∧ (rocket.angle ≤ 0 → c6 ≤ 0) ∧
      c7 = c5 - c6 ∧ -(3 / 2) < c7 ∧ c7 < 3 / 2 ∧
      (∃ k : ℤ, c6 = rocket.angle / (2 * Real.pi) - (k : ℝ)) ∧
      (c6 = 0 ↔ ∃ k : ℤ, rocket.angle = (k : ℝ) * (2 * Real.pi)) ∧
      ((∀ k : ℤ, rocket.angle ≠ (k : ℝ) * (2 * Real.pi)) →
        (0 < rocket.angle → 0 < c6) ∧ (rocket.angle < 0 → c6 < 0)) ∧
      (|rocket.angle| < 2 * Real.pi → c6 = rocket.angle / (2 * Real.pi)) := by
  obtain ⟨e4, e5, e6⟩ := calculateNeuralInputs_angles
    ⟨Real.sin, Real.cos, Real.exp, Real.sqrt, fun y x => Complex.arg ⟨x, y⟩, Real.pi⟩
    target rocket
  have h2pi : (0 : ℝ) < 2 * Real.pi := by positivity
  have harg1 := Complex.neg_pi_lt_arg
    ⟨target.x + target.width / 2 - (rocket.x + rocket.width / 2),
     target.y + target.height / 2 - (rocket.y + rocket.height / 2)⟩
  have harg2 := Complex.arg_le_pi
    ⟨target.x + target.width / 2 - (rocket.x + rocket.width / 2),
     target.y + target.height / 2 - (rocket.y + rocket.height / 2)⟩
  have hc5lo : -(1 / 2) ≤ Complex.arg
      ⟨target.x + target.width / 2 - (rocket.x + rocket.width / 2),
       target.y + target.height / 2 - (rocket.y + rocket.height / 2)⟩ / (2 * Real.pi) := by
    rw [le_div_iff₀ h2pi]; linarith
  have hc5hi : Complex.arg
      ⟨target.x + target.width / 2 - (rocket.x + rocket.width / 2),
       target.y + target.height / 2 - (rocket.y + rocket.height / 2)⟩ / (2 * Real.pi)
      ≤ 1 / 2 := by
    rw [div_le_iff₀ h2pi]; linarith
  obtain ⟨hpos, hneg⟩ := jsRem_bounds rocket.angle (2 * Real.pi) h2pi
  have hc6 : -1 < jsRem rocket.angle (2 * Real.pi) / (2 * Real.pi) ∧
      jsRem rocket.angle (2 * Real.pi) / (2 * Real.pi) < 1 ∧
      (0 ≤ rocket.angle → 0 ≤ jsRem rocket.angle (2 * Real.pi) / (2 * Real.pi)) ∧
      (rocket.angle ≤ 0 → jsRem rocket.angle (2 * Real.pi) / (2 * Real.pi) ≤ 0) := by
    have hlo : -(2 * Real.pi) < jsRem rocket.angle (2 * Real.pi) := by
      rcases le_total 0 rocket.angle with h | h
      · linarith [(hpos h).1]
      · exact (hneg h).1
    have hhi : jsRem rocket.angle (2 * Real.pi) < 2 * Real.pi := by
      rcases le_total 0 rocket.angle with h | h
      · exact (hpos h).2
      · linarith [(hneg h).2]
    refine ⟨?_, ?_, ?_, ?_⟩
    · rw [lt_div_iff₀ h2pi]; linarith
    · rw [div_lt_iff₀ h2pi]; linarith
    · intro h; exact div_nonneg (hpos h).1 h2pi.le
    · intro h; exact div_nonpos_of_nonpos_of_nonneg (hneg h).2 h2pi.le
  have h2pi0 : (2 * Real.pi : ℝ) ≠ 0 := ne_of_gt h2pi
  refine ⟨_, _, _, e4, e5, e6, hc5lo, hc5hi, ?_, hc6.1, hc6.2.1, hc6.2.2.1, hc6.2.2.2, rfl,
    ?_, ?_, ?_, ?_, ?_, ?_⟩
  · intro hup
    apply div_neg_of_neg_of_pos _ h2pi
    rw [Complex.arg_neg_iff]
    simp only
    linarith
  · linarith [hc6.2.1]
  · linarith [hc6.1]
  · obtain ⟨k, hk⟩ := jsRem_eq_sub rocket.angle (2 * Real.pi)
    refine ⟨k, ?_⟩
    rw [hk]
    field_simp
  · rw [div_eq_zero_iff, or_iff_left h2pi0]
    exact jsRem_eq_zero_iff rocket.angle (2 * Real.pi) h2pi
  · intro hk
    obtain ⟨hp, hn⟩ := jsRem_sign rocket.angle (2 * Real.pi) h2pi hk
    exact ⟨fun h => div_pos (hp h) h2pi, fun h => div_neg_of_neg_of_pos (hn h) h2pi⟩
  · intro h
    rw [jsRem_of_abs_lt rocket.angle (2 * Real.pi) h2pi h]

section Instances

/-- C20 (amended). For every rocket and target the three angle components of
`calculateNeuralInputs` are bounded: component 5 (`atan2` to the target over
`2π`) lies in `[-1/2, 1/2]` and is negative whenever the target centre is above
the rocket centre, which happens for an in-bounds rocket and a target of the
central region; component 6 (`(angle % 2π) / 2π`) lies strictly between -1 and
1, differs from `angle / 2π` by an integer, is zero exactly when `angle` is an
integer multiple of `2π`, has the strict sign of `angle` for every other
heading (and never the opposite sign), and equals `angle / 2π` while
`|angle| < 2π`; component 7, their difference, lies strictly between `-3/2` and
`3/2`. -/
theorem angle_sensors_bounded :
    (∀ (target : Target ℝ) (rocket : Rocket ℝ), ∃ c5 c6 c7 : ℝ,
      (calculateNeuralInputs
        ⟨Real.sin, Real.cos, Real.exp, Real.sqrt, fun y x => Complex.arg ⟨x, y⟩, Real.pi⟩
        target rocket)[4]? = some c5 ∧
      (calculateNeuralInputs
        ⟨Real.sin, Real.cos, Real.exp, Real.sqrt, fun y x => Complex.arg ⟨x, y⟩, Real.pi⟩
        target rocket)[5]? = some c6 ∧
      (calculateNeuralInputs
        ⟨Real.sin, Real.cos, Real.exp, Real.sqrt, fun y x => Complex.arg ⟨x, y⟩, Real.pi⟩
        target rocket)[6]? = some c7 ∧
      -(1 / 2) ≤ c5 ∧ c5 ≤ 1 / 2 ∧
      (target.y + target.height / 2 < rocket.y + rocket.height / 2 → c5 < 0) ∧
      -1 < c6 ∧ c6 < 1 ∧ (0 ≤ rocket.angle → 0 ≤ c6) ∧ (rocket.angle ≤ 0 → c6 ≤ 0) ∧
      c7 = c5 - c6 ∧ -(3 / 2) < c7 ∧ c7 < 3 / 2 ∧
      (∃ k : ℤ, c6 = rocket.angle / (2 * Real.pi) - (k : ℝ)) ∧
      (c6 = 0 ↔ ∃ k : ℤ, rocket.angle = (k : ℝ) * (2 * Real.pi)) ∧
      ((∀ k : ℤ, rocket.angle ≠ (k : ℝ) * (2 * Real.pi)) →
        (0 < rocket.angle → 0 < c6) ∧ (rocket.angle < 0 → c6 < 0)) ∧
      (|rocket.angle| < 2 * Real.pi → c6 = rocket.angle / (2 * Real.pi)))
    ∧ (InBounds (launchRocket none (0 : ℝ)) ∧
      (createCollectionTarget (1 / 2 : ℝ) (1 / 2)).y
          + (createCollectionTarget (1 / 2 : ℝ) (1 / 2)).height / 2
        < (launchRocket none (0 : ℝ)).y + (launchRocket none (0 : ℝ)).height / 2 ∧
      ∃ c5 : ℝ, (calculateNeuralInputs
        ⟨Real.sin, Real.cos, Real.exp, Real.sqrt, fun y x => Complex.arg ⟨x, y⟩, Real.pi⟩
        (createCollectionTarget (1 / 2) (1 / 2)) (launchRocket none 0))[4]? = some c5 ∧
        c5 < 0) := by
  refine ⟨angle_sensors_range, ?_, ?_, ?_⟩
  · simp only [InBounds, launchRocket, CANVAS_WIDTH, CANVAS_HEIGHT]; norm_num
  · simp only [createCollectionTarget, launchRocket, CANVAS_HEIGHT, CENTER_MARGIN]; norm_num
  · obtain ⟨c5, -, -, h4, -, -, -, -, hneg, -⟩ :=
      angle_sensors_range (createCollectionTarget (1 / 2) (1 / 2)) (launchRocket none 0)
    refine ⟨c5, h4, hneg ?_⟩
    simp only [createCollectionTarget, launchRocket, CANVAS_HEIGHT, CENTER_MARGIN]; norm_num

/-- C20 (counterexample). A rocket whose heading is exactly one full turn,
`angle = 2π`: the heading is positive but component 6 is `0`, so it does not
have the sign of `angle`. -/
theorem full_turn_heading_sensor_zero :
    0 < (launchRocket none (2 * Real.pi)).angle ∧
    (calculateNeuralInputs
        ⟨Real.sin, Real.cos, Real.exp, Real.sqrt, fun y x => Complex.arg ⟨x, y⟩, Real.pi⟩
        (createCollectionTarget (1 / 2) (1 / 2)) (launchRocket none (2 * Real.pi)))[5]?
      = some 0 ∧
    ¬ ∃ c6 : ℝ, (calculateNeuralInputs
        ⟨Real.sin, Real.cos, Real.exp, Real.sqrt, fun y x => Complex.arg ⟨x, y⟩, Real.pi⟩
        (createCollectionTarget (1 / 2) (1 / 2)) (launchRocket none (2 * Real.pi)))[5]?
      = some c6 ∧ 0 < c6 := by
  have h2pi : (0 : ℝ) < 2 * Real.pi := by positivity
  have hrem : jsRem (2 * Real.pi) (2 * Real.pi) = 0 :=
    (jsRem_eq_zero_iff (2 * Real.pi) (2 * Real.pi) h2pi).mpr ⟨1, by simp⟩
  have h5 : (calculateNeuralInputs
        ⟨Real.sin, Real.cos, Real.exp, Real.sqrt, fun y x => Complex.arg ⟨x, y⟩, Real.pi⟩
        (createCollectionTarget (1 / 2) (1 / 2)) (launchRocket none (2 * Real.pi)))[5]?
      = some 0 := by
    rw [(calculateNeuralInputs_angles _ _ _).2.1]
    show some (jsRem (2 * Real.pi) (2 * Real.pi) / (2 * Real.pi)) = some 0
    rw [hrem, zero_div]
  refine ⟨h2pi, h5, ?_⟩
  rintro ⟨c6, h, hpos⟩
  rw [h5] at h
  have : (0 : ℝ) = c6 := Option.some.inj h
  linarith

/-- C20 (instance of the amended statement): at the headings `π` and `-π`
component 6 is `1/2` and `-1/2`. -/
theorem angle_sensors_bounded_witness :
    (∃ c6 : ℝ, (calculateNeuralInputs
        ⟨Real.sin, Real.cos, Real.exp, Real.sqrt, fun y x => Complex.arg ⟨x, y⟩, Real.pi⟩
        (createCollectionTarget (1 / 2) (1 / 2)) (launchRocket none Real.pi))[5]? = some c6 ∧
        c6 = 1 / 2) ∧
    (∃ c6 : ℝ, (calculateNeuralInputs
        ⟨Real.sin, Real.cos, Real.exp, Real.sqrt, fun y x => Complex.arg ⟨x, y⟩, Real.pi⟩
        (createCollectionTarget (1 / 2) (1 / 2)) (launchRocket none (-Real.pi)))[5]? = some c6 ∧
        c6 = -(1 / 2)) := by
  have hpi : (0 : ℝ) < Real.pi := Real.pi_pos
  constructor
  · obtain ⟨-, c6, -, -, h5, -, -, -, -, -, -, -, -, -, -, -, -, -, -, hval⟩ :=
      angle_sensors_bounded.1 (createCollectionTarget (1 / 2) (1 / 2))
        (launchRocket none Real.pi)
    refine ⟨c6, h5, ?_⟩
    have ha : (launchRocket none Real.pi : Rocket ℝ).angle = Real.pi := rfl
    rw [ha] at hval
    rw [hval (by rw [abs_of_pos hpi]; linarith)]
    field_simp
    ring
  · obtain ⟨-, c6, -, -, h5, -, -, -, -, -, -, -, -, -, -, -, -, -, -, hval⟩ :=
      angle_sensors_bounded.1 (createCollectionTarget (1 / 2) (1 / 2))
        (launchRocket none (-Real.pi))
    refine ⟨c6, h5, ?_⟩
    have ha : (launchRocket none (-Real.pi) : Rocket ℝ).angle = -Real.pi := rfl
    rw [ha] at hval
    rw [hval (by rw [abs_neg, abs_of_pos hpi]; linarith)]
    field_simp
    ring

/-- C17 (instance): the rocket stopped on the target after 103 ticks of the
straight ascent is inside the playfield. -/
theorem rockets_stay_in_playfield_witness :
    ∃ (s : GameState ℝ Unit) (rocket : Rocket ℝ),
      (soloStart (thrustGenome : Genome ℝ) (7 / 8)).rockets = createRockets [some thrustGenome] ∧
      runTicks ⟨Real.sin, Real.cos, Real.exp, Real.sqrt, fun y x => Complex.arg ⟨x, y⟩, Real.pi⟩
        103 (soloStart thrustGenome (7 / 8)) = some s ∧
      rocket ∈ s.rockets ∧ 0 ≤ rocket.y ∧ rocket.y ≤ CANVAS_HEIGHT - rocket.height := by
  obtain ⟨s, rocket, hs, hrockets, -⟩ := ascent_reaches_target
  have hmem : rocket ∈ s.rockets := by rw [hrockets]; exact List.mem_singleton_self _
  obtain ⟨-, -, -, -, hy0, hy1⟩ := (rockets_stay_in_playfield
    ⟨Real.sin, Real.cos, Real.exp, Real.sqrt, fun y x => Complex.arg ⟨x, y⟩, Real.pi⟩).1
    [some thrustGenome] 103 (soloStart thrustGenome (7 / 8)) s rfl hs rocket hmem
  exact ⟨s, rocket, rfl, hs, hmem, hy0, hy1⟩

theorem ascent_frames :
    ∃ (s : GameState ℝ Unit) (rocket : Rocket ℝ),
      runFrames ⟨Real.sin, Real.cos, Real.exp, Real.sqrt, fun y x => Complex.arg ⟨x, y⟩, Real.pi⟩
        (fixedExternal thrustGenome (7 / 8)) 103 (soloStart thrustGenome (7 / 8)) = some s ∧
      rocket ∈ s.rockets ∧ rocket.active = false ∧ s.currentFrame = 103 := by
  obtain ⟨s, rocket, hs, hrockets, hoff, -⟩ := ascent_reaches_target
  have hframes := runFrames_of_runTicks
    ⟨Real.sin, Real.cos, Real.exp, Real.sqrt, fun y x => Complex.arg ⟨x, y⟩, Real.pi⟩
    (fixedExternal thrustGenome (7 / 8)) (soloStart thrustGenome (7 / 8)) rfl 103 (by decide)
    ascent_active_before s hs
  refine ⟨{ s with currentFrame := 103 }, rocket, hframes, ?_, hoff, rfl⟩
  show rocket ∈ s.rockets
  rw [hrockets]; exact List.mem_singleton_self _

/-- C18 (instance): after the 103 frames of the straight ascent the stopped
rocket has a lifetime of at most 103 frames. -/
theorem lifetime_tracks_frame_witness :
    ∃ (s : GameState ℝ Unit) (rocket : Rocket ℝ),
      (soloStart (thrustGenome : Genome ℝ) (7 / 8)).currentFrame = 0 ∧
      (soloStart (thrustGenome : Genome ℝ) (7 / 8)).rockets = createRockets [some thrustGenome] ∧
      runFrames ⟨Real.sin, Real.cos, Real.exp, Real.sqrt, fun y x => Complex.arg ⟨x, y⟩, Real.pi⟩
        (fixedExternal thrustGenome (7 / 8)) 103 (soloStart thrustGenome (7 / 8)) = some s ∧
      rocket ∈ s.rockets ∧ rocket.active = false ∧ rocket.lifetime ≤ s.currentFrame ∧
      rocket.lifetime ≤ LIFESPAN := by
  obtain ⟨s, rocket, hs, hmem, hoff, -⟩ := ascent_frames
  obtain ⟨-, hi, -, hl⟩ := (lifetime_tracks_frame
    ⟨Real.sin, Real.cos, Real.exp, Real.sqrt, fun y x => Complex.arg ⟨x, y⟩, Real.pi⟩
    (fixedExternal thrustGenome (7 / 8)) [some thrustGenome] (soloStart thrustGenome (7 / 8)) s
    103 rfl rfl hs).1 rocket hmem
  exact ⟨s, rocket, rfl, rfl, hs, hmem, hoff, hi hoff, hl⟩

/-- C19 (instance): the first frame from the start state of a single thrusting
rocket ticks that rocket: afterwards its lifetime is 1, the score of its policy
is its fitness, and the fitness lies between 0 and `bestFitness`. -/
theorem fitness_and_best_bounds_witness :
    ∃ (s : GameState ℝ Unit) (rocket : Rocket ℝ) (genome : Genome ℝ),
      (soloStart (thrustGenome : Genome ℝ) (7 / 8)).currentFrame = 0 ∧
      (soloStart (thrustGenome : Genome ℝ) (7 / 8)).bestFitness = 0 ∧
      (soloStart (thrustGenome : Genome ℝ) (7 / 8)).rockets = createRockets [some thrustGenome] ∧
      runFrames ⟨Real.sin, Real.cos, Real.exp, Real.sqrt, fun y x => Complex.arg ⟨x, y⟩, Real.pi⟩
        (fixedExternal thrustGenome (7 / 8)) 1 (soloStart thrustGenome (7 / 8)) = some s ∧
      s.rockets[0]? = some rocket ∧ rocket.lifetime = 1 ∧ 1 ≤ rocket.lifetime ∧
      rocket.fitness = calculateFitness Real.sqrt Real.exp
        (soloStart (thrustGenome : Genome ℝ) (7 / 8)).collectionTarget
        (afterPhysics ⟨Real.sin, Real.cos, Real.exp, Real.sqrt, fun y x => Complex.arg ⟨x, y⟩, Real.pi⟩
          (soloStart (thrustGenome : Genome ℝ) (7 / 8)).collectionTarget
          (launchRocket (some thrustGenome) 0) thrustGenome) ∧
      rocket.brain = some genome ∧ genome.score = some rocket.fitness ∧
      0 ≤ rocket.fitness ∧ rocket.fitness ≤ s.bestFitness ∧
      s.bestFitness ≤ 1000 + 0.1 * (LIFESPAN : ℝ) := by
  have hr0 : (soloStart (thrustGenome : Genome ℝ) (7 / 8)).rockets[0]?
      = some (launchRocket (some thrustGenome) 0) := rfl
  have hlt : (soloStart (thrustGenome : Genome ℝ) (7 / 8)).currentFrame < LIFESPAN := by
    show 0 < LIFESPAN
    decide
  have hon : allRocketsInactive (soloStart (thrustGenome : Genome ℝ) (7 / 8)).rockets = false :=
    rfl
  obtain ⟨s1, hs1⟩ := updateRockets_isSome
    ⟨Real.sin, Real.cos, Real.exp, Real.sqrt, fun y x => Complex.arg ⟨x, y⟩, Real.pi⟩
    (soloStart (thrustGenome : Genome ℝ) (7 / 8)) (by
      intro rocket hmem
      have hrs : (soloStart (thrustGenome : Genome ℝ) (7 / 8)).rockets
          = [launchRocket (some thrustGenome) 0] := rfl
      rw [hrs, List.mem_singleton] at hmem
      rw [hmem]
      simp [launchRocket])
  have hstep : gameLoop ⟨Real.sin, Real.cos, Real.exp, Real.sqrt, fun y x => Complex.arg ⟨x, y⟩, Real.pi⟩
      (fixedExternal thrustGenome (7 / 8)) (soloStart thrustGenome (7 / 8))
      = some { s1 with currentFrame := (soloStart (thrustGenome : Genome ℝ) (7 / 8)).currentFrame + 1 } := by
    rw [gameLoop_tick _ _ _ hlt hon, hs1]
    rfl
  have hrun : runFrames ⟨Real.sin, Real.cos, Real.exp, Real.sqrt, fun y x => Complex.arg ⟨x, y⟩, Real.pi⟩
      (fixedExternal thrustGenome (7 / 8)) 1 (soloStart thrustGenome (7 / 8))
      = some { s1 with currentFrame := (soloStart (thrustGenome : Genome ℝ) (7 / 8)).currentFrame + 1 } :=
    hstep
  obtain ⟨-, -, -, htick⟩ := fitness_and_best_bounds (fixedExternal thrustGenome (7 / 8))
    [some thrustGenome] (soloStart thrustGenome (7 / 8)) (soloStart thrustGenome (7 / 8)) 0
    rfl rfl rfl rfl
  obtain ⟨rocket, genome, hi, hl, -, hb, hf, -, -⟩ :=
    htick _ hstep hlt hon 0 (launchRocket (some thrustGenome) 0) hr0 rfl
  obtain ⟨-, hbest, hall, -⟩ := fitness_and_best_bounds (fixedExternal thrustGenome (7 / 8))
    [some thrustGenome] (soloStart thrustGenome (7 / 8)) _ 1 rfl rfl rfl hrun
  obtain ⟨h0, -, hscore, hle⟩ := hall rocket (List.getElem?_mem hi)
  have hl1 : rocket.lifetime = 1 := hl
  obtain ⟨genome', hb', hsc⟩ := hscore (by rw [hl1])
  have hg : some thrustGenome = some genome := hb
  rw [← Option.some.inj hg] at hf
  exact ⟨_, rocket, genome', rfl, rfl, rfl, hrun, hi, hl1, by rw [hl1], hf, hb', hsc, h0, hle,
    hbest⟩

end Instances

end RocketNeural
